import Mathlib

/-! libStatGen `SamFile`: access session, containment check and sort validator.

A shallow embedding of `src/bam/SamFile.cpp` and of the record reader of
`src/bam/GenericSamInterface.cpp`.

* 32-bit signed quantities (reference ids, positions, region bounds) are
  embedded as `Int`; the functions below only compare and copy them, so no
  overflow can occur.  The record counter is a `uint32_t` and wraps.
* Flags are `uint16_t` values, embedded as `Nat` with bitwise and.
* The status object is embedded by its status code alone; the diagnostic text
  that `setStatus` attaches is dropped.
* `record.setReference` / `record.setSequenceTranslation` and the statistics
  hook do not change any field this layer reads and are left out; so are the
  members `myFilename`, `myRefPtr`, `myStatistics` and the two translation
  settings, which none of the embedded functions reads.
* htslib and the methods of `SamFileHeader` and `SamRecord` are not part of the
  sources; what they answer is the parameter `External`.
-/

namespace StatGen

/-! ## Collaborator types -/

/-- Modelled from the spec: the status codes of `SamStatus` (the header that
declares the enumeration is not part of the sources); these are the codes the
two source files name. -/
inductive Status where
  | SUCCESS
  | UNKNOWN
  | NO_MORE_RECS
  | FAIL_IO
  | FAIL_ORDER
  | FAIL_PARSE
  | INVALID_SORT
  | INVALID
  | FAIL_MEM
  deriving DecidableEq, Repr

/-- The values of `SamFile::SortedType` used by `validateSortOrder`. -/
inductive SortedType where
  | UNSORTED
  | FLAG
  | COORDINATE
  | QUERY_NAME
  deriving DecidableEq, Repr

/-- The container formats `format()` is compared against in `SamFile.cpp`. -/
inductive HtsExactFormat where
  | sam
  | bam
  | cram
  | format_maximum
  deriving DecidableEq, Repr

/-- Modelled from the spec: `BamIndex::REF_ID_UNMAPPED`, the reference id of
the unmapped reads.  `SetReadSection` documents its value: "read just the
"-1" entries". -/
def REF_ID_UNMAPPED : Int := -1

/-- Modelled from the spec: `BamIndex::REF_ID_ALL`, the selector "all
references"; a pseudo reference id distinct from every real id and from
`REF_ID_UNMAPPED`. -/
def REF_ID_ALL : Int := -2

/-- Modelled from the spec: `SamReferenceInfo::NO_REF_ID`, what
`getReferenceID` answers for a name the header does not know. -/
def NO_REF_ID : Int := -3

/-- The fields of a `SamRecord` this layer reads: `getReferenceID`,
`get0BasedPosition`, `get0BasedAlignmentEnd`, `getFlag`, `getReadName`. -/
structure SamRecord where
  referenceID : Int
  position : Int
  alignmentEnd : Int
  flag : Nat
  readName : String
  deriving DecidableEq, Repr

/-- What `SamFile.cpp` asks of a `SamFileHeader`: the sort-order tag and the
name to reference-id map. -/
structure SamFileHeader where
  getSortOrder : String
  getReferenceID : String → Int

/-- The two string orderings `validateSortOrder` consults in query-name mode:
`String::Compare` of the library string class (not part of the sources) and
the C library `strcmp`.  Each returns a negative, zero or positive number. -/
structure StringOps where
  Compare : String → String → Int
  strcmp : String → String → Int

/-- A byte range of the container, as the region index hands them out. -/
structure Chunk where
  chunk_beg : Nat
  chunk_end : Nat
  deriving DecidableEq, Repr

/-- What `SamFile.cpp` asks of a `BamIndex`: `getChunksForRegion`, which
either fails or yields the ordered chunk list. -/
structure BamIndex where
  getChunksForRegion : Int → Int → Int → Option (List Chunk)

/-- The state of a `GenericSamInterface`.  `fp_`, `idx_`, `hdr_` record
whether the pointer is non-null, `fp_format` is `fp_->format.format`; `itr_` holds the records the region iterator
still has to deliver, `records` those the sequential reader still has to
deliver. -/
structure GenericSamInterface where
  fp_ : Bool
  fp_format : HtsExactFormat
  idx_ : Bool
  itr_ : Option (List SamRecord)
  hdr_ : Bool
  eof_ : Bool
  records : List SamRecord

/-- The member variables of `SamFile`. -/
structure SamFile where
  myInterfacePtr : Option GenericSamInterface
  myIsOpenForRead : Bool
  myIsOpenForWrite : Bool
  myHasHeader : Bool
  mySortedType : SortedType
  myPrevReadName : String
  myPrevCoord : Int
  myPrevRefID : Int
  myRecordCount : Nat
  myStatus : Status
  myIsBamOpenForRead : Bool
  myRefID : Int
  myStartPos : Int
  myEndPos : Int
  myNewSection : Bool
  myOverlapSection : Bool
  myCurrentChunkEnd : Nat
  myChunksToRead : List Chunk
  myBamIndex : Option BamIndex
  myRefName : String
  myRequiredFlags : Nat
  myExcludedFlags : Nat

/-- How a call ends: it returns a value, or it throws `std::runtime_error`,
or it dereferences a null `myInterfacePtr` (undefined behaviour). -/
inductive Outcome where
  | returned (value : Bool)
  | threw (what : String)
  | undefined
  deriving DecidableEq, Repr

/-! ## Sort validator -/

/-- `SamFile::getSortOrderFromHeader`. -/
def getSortOrderFromHeader (header : SamFileHeader) : SortedType :=
  let tag := header.getSortOrder
  if tag = "queryname" then SortedType.QUERY_NAME
  else if tag = "coordinate" then SortedType.COORDINATE
  else SortedType.UNSORTED

/-- The coordinate branch of `SamFile::validateSortOrder`
(`SamFile.cpp` 1067-1138). -/
def validateCoordinate (s : SamFile) (record : SamRecord) : Bool × SamFile :=
  let refID := record.referenceID
  let coord := record.position
  if refID = REF_ID_UNMAPPED then
    (true, { s with myPrevRefID := refID, myPrevCoord := coord })
  else if s.myPrevRefID = REF_ID_UNMAPPED then
    (false, { s with myStatus := Status.INVALID_SORT })
  else if refID < s.myPrevRefID then
    (false, { s with myStatus := Status.INVALID_SORT })
  else
    let s1 := if refID > s.myPrevRefID then { s with myPrevCoord := -1 } else s
    if coord < s1.myPrevCoord then
      (false, { s1 with myStatus := Status.INVALID_SORT })
    else
      (true, { s1 with myPrevRefID := refID, myPrevCoord := coord })

/-- The query-name branch of `SamFile::validateSortOrder`
(`SamFile.cpp` 1040-1066). -/
def validateQueryName (ops : StringOps) (s : SamFile) (record : SamRecord) :
    Bool × SamFile :=
  let readName := record.readName
  if ops.Compare s.myPrevReadName readName > 0 ∧
      ops.strcmp s.myPrevReadName readName > 0 then
    (false, { s with myStatus := Status.INVALID_SORT })
  else
    (true, { s with myPrevReadName := readName })

/-- `SamFile::validateSortOrder`: the verdict and the session afterwards. -/
def validateSortOrder (ops : StringOps) (s : SamFile) (record : SamRecord)
    (header : SamFileHeader) : Bool × SamFile :=
  if s.mySortedType = SortedType.UNSORTED then
    (true, s)
  else
    let s1 :=
      if s.mySortedType = SortedType.FLAG then
        { s with mySortedType := getSortOrderFromHeader header }
      else s
    if s1.mySortedType = SortedType.QUERY_NAME then
      validateQueryName ops s1 record
    else
      validateCoordinate s1 record

/-! ## Containment check -/

/-- `SamFile::checkRecordInSection`: whether the record is in the section, and
the session afterwards (only the status can change). -/
def checkRecordInSection (s : SamFile) (record : SamRecord) : Bool × SamFile :=
  if s.myRefID = REF_ID_ALL then
    (true, s)
  else if record.referenceID ≠ s.myRefID then
    (false, { s with myStatus := Status.NO_MORE_RECS })
  else if s.myEndPos ≠ -1 ∧ record.position ≥ s.myEndPos then
    (false, { s with myStatus := Status.NO_MORE_RECS })
  else
    let recordFound := true
    let recordFound :=
      if s.myStartPos ≠ -1 ∧ record.alignmentEnd < s.myStartPos then false
      else recordFound
    let recordFound :=
      if !s.myOverlapSection then
        if record.position < s.myStartPos ∨
            (s.myEndPos ≠ -1 ∧ record.alignmentEnd ≥ s.myEndPos) then false
        else recordFound
      else recordFound
    (recordFound, s)

/-! ## Reading records -/

/-- The records the backend will deliver next: those of the region iterator
when an index and an iterator are present, else those of the sequential
reader (the two branches of `GenericSamInterface::readRecord`). -/
def GenericSamInterface.pending (itf : GenericSamInterface) : List SamRecord :=
  match itf.idx_, itf.itr_ with
  | true, some rs => rs
  | _, _ => itf.records

/-- `GenericSamInterface::readRecord`: the interface, the caller's record and
the status afterwards.  Nothing happens without a file; at the end of the
active stream the status becomes `NO_MORE_RECS` and `eof_` is raised; the
caller's record is overwritten only while `eof_` is not raised. -/
def GenericSamInterface.readRecord (itf : GenericSamInterface) (record : SamRecord)
    (samStatus : Status) : GenericSamInterface × SamRecord × Status :=
  if itf.fp_ then
    match itf.idx_, itf.itr_ with
    | true, some rs =>
      match rs with
      | [] => ({ itf with eof_ := true }, record, Status.NO_MORE_RECS)
      | r :: rest =>
        ({ itf with itr_ := some rest }, if itf.eof_ then record else r, samStatus)
    | _, _ =>
      match itf.records with
      | [] => ({ itf with eof_ := true }, record, Status.NO_MORE_RECS)
      | r :: rest =>
        ({ itf with records := rest }, if itf.eof_ then record else r, samStatus)
  else
    (itf, record, samStatus)

/-- `GenericSamInterface::format`. -/
def GenericSamInterface.format (itf : GenericSamInterface) : HtsExactFormat :=
  if itf.fp_ then itf.fp_format else HtsExactFormat.format_maximum

/-- The tail of `SamFile::processNewSection`: ask the index for the chunks of
the stored region. -/
def fetchChunks (idx : BamIndex) (s : SamFile) : Outcome × SamFile :=
  match idx.getChunksForRegion s.myRefID s.myStartPos s.myEndPos with
  | some chunks =>
    (Outcome.returned true, { s with myChunksToRead := chunks, myStatus := Status.SUCCESS })
  | none =>
    (Outcome.returned true, { s with myStatus := Status.FAIL_PARSE })

/-- `SamFile::processNewSection`. -/
def processNewSection (s : SamFile) (header : SamFileHeader) : Outcome × SamFile :=
  let s := { s with myNewSection := false }
  match s.myBamIndex with
  | none =>
    (Outcome.threw "SOFTWARE BUG: trying to read a BAM record by section prior to opening the BAM Index file.",
      { s with myStatus := Status.FAIL_ORDER })
  | some idx =>
    if !s.myIsBamOpenForRead then
      (Outcome.threw "SOFTWARE BUG: trying to read a BAM record by section without opening a BAM file.",
        { s with myStatus := Status.FAIL_ORDER })
    else if s.myHasHeader = false then
      (Outcome.threw "SOFTWARE BUG: trying to read a BAM record by section prior to opening the header.",
        { s with myStatus := Status.FAIL_ORDER })
    else
      let s := { s with myChunksToRead := [], myCurrentChunkEnd := 0 }
      if s.myRefName ≠ "" then
        let s := { s with myRefID := header.getReferenceID s.myRefName, myRefName := "" }
        if s.myRefID = NO_REF_ID then
          (Outcome.returned false, { s with myStatus := Status.NO_MORE_RECS })
        else fetchChunks idx s
      else fetchChunks idx s

/-- The `while(myStatus == SamStatus::SUCCESS)` loop of `SamFile::ReadRecord`
and the `return` after it.  `fuel` bounds the number of times the loop
condition is evaluated; `none` means the bound was reached. -/
def readLoop (ops : StringOps) (header : SamFileHeader) :
    Nat → SamFile → SamRecord → Option (Outcome × SamFile × SamRecord)
  | 0, _, _ => none
  | fuel + 1, s, record =>
    if s.myStatus ≠ Status.SUCCESS then
      some (Outcome.returned false, s, record)
    else
      match s.myInterfacePtr with
      | none => some (Outcome.undefined, s, record)
      | some itf =>
        let r := itf.readRecord record s.myStatus
        let s1 := { s with myInterfacePtr := some r.1, myStatus := r.2.2 }
        let record1 := r.2.1
        if s1.myStatus ≠ Status.SUCCESS then
          some (Outcome.returned false, s1, record1)
        else
          let c := checkRecordInSection s1 record1
          if !c.1 then readLoop ops header fuel c.2 record1
          else
            let flag := record1.flag
            if flag &&& c.2.myRequiredFlags ≠ c.2.myRequiredFlags then
              readLoop ops header fuel c.2 record1
            else if flag &&& c.2.myExcludedFlags ≠ 0 then
              readLoop ops header fuel c.2 record1
            else
              let s3 := { c.2 with myRecordCount := (c.2.myRecordCount + 1) % 4294967296 }
              let v := validateSortOrder ops s3 record1 header
              some (Outcome.returned v.1, v.2, record1)

/-- `SamFile::ReadRecord`. -/
def ReadRecord (ops : StringOps) (fuel : Nat) (s : SamFile) (header : SamFileHeader)
    (record : SamRecord) : Option (Outcome × SamFile × SamRecord) :=
  let s := { s with myStatus := Status.SUCCESS }
  if s.myIsOpenForRead = false then
    some (Outcome.threw "SOFTWARE BUG: trying to read a SAM/BAM record prior to opening the file.",
      { s with myStatus := Status.FAIL_ORDER }, record)
  else if s.myHasHeader = false then
    some (Outcome.threw "SOFTWARE BUG: trying to read a SAM/BAM record prior to reading the header.",
      { s with myStatus := Status.FAIL_ORDER }, record)
  else if s.myNewSection then
    match s.myInterfacePtr with
    | none => some (Outcome.undefined, s, record)
    | some itf =>
      if itf.format ≠ HtsExactFormat.cram then
        match processNewSection s header with
        | (Outcome.returned true, s1) => readLoop ops header fuel s1 record
        | (out, s1) => some (out, s1, record)
      else readLoop ops header fuel s record
  else readLoop ops header fuel s record

/-! ## Construction and settings -/

/-- `SamFile::resetFile`. -/
def resetFile (s : SamFile) : SamFile :=
  { s with
    myInterfacePtr := none
    myIsOpenForRead := false
    myIsOpenForWrite := false
    myHasHeader := false
    mySortedType := SortedType.UNSORTED
    myPrevReadName := ""
    myPrevCoord := -1
    myPrevRefID := 0
    myRecordCount := 0
    myStatus := Status.SUCCESS
    myIsBamOpenForRead := false
    myRefID := REF_ID_ALL
    myStartPos := -1
    myEndPos := -1
    myNewSection := false
    myOverlapSection := true
    myCurrentChunkEnd := 0
    myChunksToRead := []
    myBamIndex := none
    myRefName := "" }

/-- The default constructor `SamFile::SamFile()`: `init()` clears the
interface, the index and the two flag masks, then `resetFile()` runs. -/
def SamFile.new : SamFile :=
  resetFile
    { myInterfacePtr := none
      myIsOpenForRead := false
      myIsOpenForWrite := false
      myHasHeader := false
      mySortedType := SortedType.UNSORTED
      myPrevReadName := ""
      myPrevCoord := 0
      myPrevRefID := 0
      myRecordCount := 0
      myStatus := Status.SUCCESS
      myIsBamOpenForRead := false
      myRefID := 0
      myStartPos := 0
      myEndPos := 0
      myNewSection := false
      myOverlapSection := false
      myCurrentChunkEnd := 0
      myChunksToRead := []
      myBamIndex := none
      myRefName := ""
      myRequiredFlags := 0
      myExcludedFlags := 0 }

/-- `SamFile::setSortedValidation`. -/
def setSortedValidation (s : SamFile) (sortType : SortedType) : SamFile :=
  { s with mySortedType := sortType }

/-- `SamFile::SetReadFlags`. -/
def SetReadFlags (s : SamFile) (requiredFlags excludedFlags : Nat) : SamFile :=
  { s with myRequiredFlags := requiredFlags, myExcludedFlags := excludedFlags }

/-! ## The external library and the header and write paths -/

/-- What `sam_open` hands back when it succeeds: the detected format and the
records the file holds. -/
structure HtsFile where
  format : HtsExactFormat
  records : List SamRecord

/-- The behaviour of the code outside the two source files, taken as given:
htslib (`sam_open`, `sam_open_format`, `sam_hdr_read`, `sam_hdr_parse`,
`sam_hdr_write`, `sam_write1`; `true` stands for a successful call, `none` for
a null pointer) and the methods of `SamFileHeader` and `SamRecord` that the
interface calls (`resetHeader`, `addHeader`, `getHeaderString`,
`copyRecordBufferToHts`). `sam_open_format` gets the file name, the mode, the
format name given to `hts_parse_format` and whether compression is switched
off. -/
structure External where
  sam_open : String → String → Option HtsFile
  sam_open_format : String → String → String → Bool → Option HtsFile
  sam_hdr_read : Option String
  resetHeader : SamFileHeader → SamFileHeader
  addHeader : SamFileHeader → String → Bool × SamFileHeader
  getHeaderString : SamFileHeader → String
  sam_hdr_parse : String → Bool
  sam_hdr_write : String → Bool
  copyRecordBufferToHts : SamRecord → Status
  sam_write1 : SamRecord → Bool

/-- A call the session makes on its `GenericSamInterface`. -/
inductive BackendCall where
  | readHeader
  | writeHeader
  | writeRecord (record : SamRecord)
  deriving DecidableEq, Repr

/-- What a session operation leaves behind: how it ended, the session
afterwards, and the calls it made on the interface, in order. -/
structure Effect where
  outcome : Outcome
  session : SamFile
  calls : List BackendCall

/-- Modelled from the spec: the conversion of a status code to `bool` that
`return SamStatus::FAIL_IO;` performs in a function returning `bool`;
`SUCCESS` is the zero enumerator of `SamStatus::Status`, every other code is
non-zero. -/
def Status.asBool (st : Status) : Bool :=
  st != Status.SUCCESS

/-- The constructors of `GenericSamInterface`: `fp_` is what `sam_open` gave,
everything else starts out null or false. -/
def GenericSamInterface.construct (fp : Option HtsFile) : GenericSamInterface :=
  match fp with
  | some file =>
    { fp_ := true, fp_format := file.format, idx_ := false, itr_ := none, hdr_ := false,
      eof_ := false, records := file.records }
  | none =>
    { fp_ := false, fp_format := HtsExactFormat.format_maximum, idx_ := false, itr_ := none,
      hdr_ := false, eof_ := false, records := [] }

/-- `GenericSamInterface::isEOF`. -/
def GenericSamInterface.isEOF (itf : GenericSamInterface) : Bool :=
  !itf.fp_ || itf.eof_

/-- `GenericSamInterface::readHeader`: the return value, the interface, the
caller's header and the status afterwards. -/
def GenericSamInterface.readHeader (ext : External) (itf : GenericSamInterface)
    (header : SamFileHeader) (samStatus : Status) :
    Bool × GenericSamInterface × SamFileHeader × Status :=
  if !itf.fp_ then
    (false, itf, header, Status.FAIL_IO)
  else if itf.hdr_ then
    (false, itf, header, Status.FAIL_ORDER)
  else
    let header := ext.resetHeader header
    match ext.sam_hdr_read with
    | none => (false, itf, header, Status.FAIL_IO)
    | some text =>
      let itf := { itf with hdr_ := true }
      let added := ext.addHeader header text
      if !added.1 then (false, itf, added.2, Status.FAIL_PARSE)
      else (true, itf, added.2, samStatus)

/-- `GenericSamInterface::writeHeader`: the return value, the interface and the
status afterwards. -/
def GenericSamInterface.writeHeader (ext : External) (itf : GenericSamInterface)
    (header : SamFileHeader) (samStatus : Status) :
    Bool × GenericSamInterface × Status :=
  if !itf.fp_ then
    (false, itf, Status.FAIL_IO)
  else if itf.hdr_ then
    (false, itf, Status.FAIL_ORDER)
  else
    let tmp := ext.getHeaderString header
    if !ext.sam_hdr_parse tmp then
      (false, itf, Status.FAIL_PARSE)
    else
      let itf := { itf with hdr_ := true }
      if !ext.sam_hdr_write tmp then (false, itf, Status.FAIL_IO)
      else (true, itf, samStatus)

/-- `GenericSamInterface::writeRecord`: the status it returns. -/
def GenericSamInterface.writeRecord (ext : External) (itf : GenericSamInterface)
    (record : SamRecord) : Status :=
  if !itf.fp_ then Status.FAIL_IO
  else
    let ret := ext.copyRecordBufferToHts record
    if ret = Status.SUCCESS then
      if !ext.sam_write1 record then Status.FAIL_IO else ret
    else ret

/-- `SamFile::ReadHeader`: the effect and the caller's header afterwards. -/
def ReadHeader (ext : External) (s : SamFile) (header : SamFileHeader) :
    Effect × SamFileHeader :=
  let s := { s with myStatus := Status.SUCCESS }
  if s.myIsOpenForRead = false then
    ({ outcome := Outcome.returned false, session := { s with myStatus := Status.FAIL_ORDER },
       calls := [] }, header)
  else if s.myHasHeader = true then
    ({ outcome := Outcome.returned false, session := { s with myStatus := Status.FAIL_ORDER },
       calls := [] }, header)
  else
    match s.myInterfacePtr with
    | none => ({ outcome := Outcome.undefined, session := s, calls := [] }, header)
    | some itf =>
      let r := itf.readHeader ext header s.myStatus
      let s1 := { s with myInterfacePtr := some r.2.1, myStatus := r.2.2.2 }
      if r.1 then
        ({ outcome := Outcome.returned true, session := { s1 with myHasHeader := true },
           calls := [BackendCall.readHeader] }, r.2.2.1)
      else
        ({ outcome := Outcome.returned false, session := s1,
           calls := [BackendCall.readHeader] }, r.2.2.1)

/-- `SamFile::WriteHeader`. -/
def WriteHeader (ext : External) (s : SamFile) (header : SamFileHeader) : Effect :=
  let s := { s with myStatus := Status.SUCCESS }
  if s.myIsOpenForWrite = false then
    { outcome := Outcome.returned false, session := { s with myStatus := Status.FAIL_ORDER },
      calls := [] }
  else if s.myHasHeader = true then
    { outcome := Outcome.returned false, session := { s with myStatus := Status.FAIL_ORDER },
      calls := [] }
  else
    match s.myInterfacePtr with
    | none => { outcome := Outcome.undefined, session := s, calls := [] }
    | some itf =>
      let r := itf.writeHeader ext header s.myStatus
      let s1 := { s with myInterfacePtr := some r.2.1, myStatus := r.2.2 }
      if r.1 then
        { outcome := Outcome.returned true, session := { s1 with myHasHeader := true },
          calls := [BackendCall.writeHeader] }
      else
        { outcome := Outcome.returned false, session := s1,
          calls := [BackendCall.writeHeader] }

/-- `SamFile::WriteRecord`. -/
def WriteRecord (ops : StringOps) (ext : External) (s : SamFile) (header : SamFileHeader)
    (record : SamRecord) : Effect :=
  if s.myIsOpenForWrite = false then
    { outcome := Outcome.returned false, session := { s with myStatus := Status.FAIL_ORDER },
      calls := [] }
  else if s.myHasHeader = false then
    { outcome := Outcome.returned false, session := { s with myStatus := Status.FAIL_ORDER },
      calls := [] }
  else
    let v := validateSortOrder ops s record header
    if !v.1 then
      { outcome := Outcome.returned false,
        session := { v.2 with myStatus := Status.INVALID_SORT }, calls := [] }
    else
      match v.2.myInterfacePtr with
      | none => { outcome := Outcome.undefined, session := v.2, calls := [] }
      | some itf =>
        let s1 := { v.2 with myStatus := itf.writeRecord ext record }
        if s1.myStatus = Status.SUCCESS then
          { outcome := Outcome.returned true,
            session := { s1 with myRecordCount := (s1.myRecordCount + 1) % 4294967296 },
            calls := [BackendCall.writeRecord record] }
        else
          { outcome := Outcome.returned false, session := s1,
            calls := [BackendCall.writeRecord record] }

/-- `SamFile::Close`. -/
def Close (s : SamFile) : SamFile :=
  resetFile s

/-- The test `lastchar >= n && filename[lastchar - n] == ... ` of
`OpenForWrite`: the file name ends in the given letters. -/
def endsIn (filename suffix : String) : Bool :=
  decide (suffix.length ≤ filename.length) &&
    filename.data.drop (filename.length - suffix.length) == suffix.data

/-- The test `filename[0] == '-' && filename[1] == '.'` of `OpenForWrite`. -/
def startsDashDot (filename : String) : Bool :=
  filename.data.take 2 == ['-', '.']

/-- The end of `SamFile::OpenForRead` (`SamFile.cpp` 166-183), once the
interface has been created. -/
def finishOpenForRead (ext : External) (s : SamFile) (header : Option SamFileHeader) :
    Effect × Option SamFileHeader :=
  match s.myInterfacePtr with
  | none =>
    ({ outcome := Outcome.returned Status.FAIL_IO.asBool, session := s, calls := [] }, header)
  | some itf =>
    if itf.isEOF then
      ({ outcome := Outcome.returned Status.FAIL_IO.asBool, session := s, calls := [] },
        header)
    else
      let s := { s with myIsOpenForRead := true }
      let s := if itf.format = HtsExactFormat.bam then { s with myIsBamOpenForRead := true }
        else s
      match header with
      | some h => ((ReadHeader ext s h).1, some (ReadHeader ext s h).2)
      | none =>
        ({ outcome := Outcome.returned true, session := { s with myStatus := Status.SUCCESS },
           calls := [] }, none)

/-- `SamFile::OpenForRead`: the effect and the caller's header afterwards, when
one was passed. -/
def OpenForRead (ext : External) (s : SamFile) (filename : String)
    (header : Option SamFileHeader) : Effect × Option SamFileHeader :=
  let s := resetFile s
  if filename.length ≥ 1 ∧ filename.data.head? = some '-' then
    if filename = "-.bam" then
      finishOpenForRead ext
        { s with
          myInterfacePtr :=
            some (GenericSamInterface.construct (ext.sam_open_format "-" "r" "bam" false))
          myIsOpenForRead := true } header
    else if filename = "-.ubam" then
      finishOpenForRead ext
        { s with
          myInterfacePtr :=
            some (GenericSamInterface.construct (ext.sam_open_format "-" "r" "bam" true)) }
        header
    else if filename = "-" ∨ filename = "-.sam" then
      finishOpenForRead ext
        { s with
          myInterfacePtr :=
            some (GenericSamInterface.construct (ext.sam_open_format "-" "r" "sam" false)) }
        header
    else
      ({ outcome := Outcome.returned false, session := { s with myStatus := Status.FAIL_IO },
         calls := [] }, header)
  else
    finishOpenForRead ext
      { s with
        myInterfacePtr := some (GenericSamInterface.construct (ext.sam_open filename "r")) }
      header

/-- The end of `SamFile::OpenForWrite` (`SamFile.cpp` 268-282), once the
interface has been created. -/
def finishOpenForWrite (ext : External) (s : SamFile) (header : Option SamFileHeader) :
    Effect :=
  match s.myInterfacePtr with
  | none => { outcome := Outcome.returned Status.FAIL_IO.asBool, session := s, calls := [] }
  | some itf =>
    if itf.isEOF then
      { outcome := Outcome.returned Status.FAIL_IO.asBool, session := s, calls := [] }
    else
      let s := { s with myIsOpenForWrite := true }
      match header with
      | some h => WriteHeader ext s h
      | none =>
        { outcome := Outcome.returned true, session := { s with myStatus := Status.SUCCESS },
          calls := [] }

/-- `SamFile::OpenForWrite`. -/
def OpenForWrite (ext : External) (s : SamFile) (filename : String)
    (header : Option SamFileHeader) : Effect :=
  let s := resetFile s
  if endsIn filename "ubam" then
    let name := if filename.length = 6 ∧ startsDashDot filename then "-" else filename
    finishOpenForWrite ext
      { s with
        myInterfacePtr :=
          some (GenericSamInterface.construct (ext.sam_open_format name "w" "bam" true)) }
      header
  else if endsIn filename "bam" then
    let name := if filename.length = 5 ∧ startsDashDot filename then "-" else filename
    finishOpenForWrite ext
      { s with
        myInterfacePtr :=
          some (GenericSamInterface.construct (ext.sam_open_format name "w" "bam" false)) }
      header
  else if endsIn filename "cram" then
    let name := if filename.length = 6 ∧ startsDashDot filename then "-" else filename
    finishOpenForWrite ext
      { s with
        myInterfacePtr :=
          some (GenericSamInterface.construct (ext.sam_open_format name "w" "cram" false)) }
      header
  else
    let name :=
      if filename.length ≥ 1 ∧ filename.data.head? = some '-' then "-" else filename
    finishOpenForWrite ext
      { s with
        myInterfacePtr :=
          some (GenericSamInterface.construct (ext.sam_open_format name "w" "sam" false)) }
      header

/-! ## Setting the read section -/

/-- What htslib answers to a region query, taken as given: `sam_itr_queryi`
(`none` for a null iterator, otherwise the records the iterator will deliver)
and `bam_name2id`. -/
structure RegionExternal where
  sam_itr_queryi : Int → Int → Int → Option (List SamRecord)
  bam_name2id : String → Int

/-- The conversion of a value to `int32_t`, in two's complement. -/
def wrapInt32 (n : Int) : Int :=
  (n + 2147483648) % 4294967296 - 2147483648

/-- `GenericSamInterface::setReadSection(std::int32_t, ...)`: the return value
and the interface afterwards. -/
def GenericSamInterface.setReadSection (rx : RegionExternal) (itf : GenericSamInterface)
    (ref_id beg endPos : Int) : Bool × GenericSamInterface :=
  if !itf.idx_ then (false, itf)
  else
    (Option.isSome (rx.sam_itr_queryi ref_id beg endPos),
      { itf with eof_ := false, itr_ := rx.sam_itr_queryi ref_id beg endPos })

/-- `GenericSamInterface::setReadSection(const char*, ...)`. -/
def GenericSamInterface.setReadSectionByName (rx : RegionExternal)
    (itf : GenericSamInterface) (ref_name : String) (beg endPos : Int) :
    Bool × GenericSamInterface :=
  itf.setReadSection rx (rx.bam_name2id ref_name) beg endPos

/-- `SamFile::SetReadSection(int32_t refID, int32_t start, int32_t end, bool
overlap)`. -/
def SetReadSection (rx : RegionExternal) (s : SamFile) (refID start endPos : Int)
    (overlap : Bool) : Outcome × SamFile :=
  if !s.myIsOpenForRead then
    (Outcome.returned false, { s with myStatus := Status.FAIL_ORDER })
  else
    let s :=
      { s with
        myNewSection := true
        myOverlapSection := overlap
        myStartPos := start
        myEndPos := endPos
        myRefID := refID
        myRefName := ""
        myChunksToRead := []
        myCurrentChunkEnd := 0
        myStatus := Status.SUCCESS
        myPrevCoord := -1
        myPrevRefID := 0
        myPrevReadName := "" }
    match s.myInterfacePtr with
    | none => (Outcome.undefined, s)
    | some itf =>
      let r := itf.setReadSection rx refID (if start = -1 then 0 else start)
        (if endPos = -1 then 2147483647 else endPos)
      (Outcome.returned r.1, { s with myInterfacePtr := some r.2 })

/-- `SamFile::SetReadSection(const char* refName, int32_t start, int32_t end,
bool overlap)`.  The end handed to the interface is `end == -1 ?
(std::uint32_t)-1 : end`, an unsigned value converted back to `int32_t`. -/
def SetReadSectionByName (rx : RegionExternal) (s : SamFile) (refName : String)
    (start endPos : Int) (overlap : Bool) : Outcome × SamFile :=
  if !s.myIsOpenForRead then
    (Outcome.returned false, { s with myStatus := Status.FAIL_ORDER })
  else
    let s :=
      { s with
        myNewSection := true
        myOverlapSection := overlap
        myStartPos := start
        myEndPos := endPos }
    let s :=
      if refName = "" ∨ refName = "*" then { s with myRefID := REF_ID_UNMAPPED }
      else { s with myRefName := refName, myRefID := REF_ID_ALL }
    let s :=
      { s with
        myChunksToRead := []
        myCurrentChunkEnd := 0
        myStatus := Status.SUCCESS
        myPrevCoord := -1
        myPrevRefID := 0
        myPrevReadName := "" }
    match s.myInterfacePtr with
    | none => (Outcome.undefined, s)
    | some itf =>
      let r := itf.setReadSectionByName rx refName (if start = -1 then 0 else start)
        (wrapInt32 (if endPos = -1 then 4294967295 else endPos % 4294967296))
      (Outcome.returned r.1, { s with myInterfacePtr := some r.2 })

/-! ## Specification-side vocabulary -/

/-- The coordinate rule in the words of the specification, on the validator
memory `(prevRef, prevCoord)` and the record `(ref, pos)`: `none` is a
violation, `some m` a valid check after which the memory is `m`.  On a later
reference the previous coordinate is unconstrained: no position is compared
with it, so every position is valid there. -/
def coordinateRule (prevRef prevCoord ref pos : Int) : Option (Int × Int) :=
  if ref = REF_ID_UNMAPPED then some (REF_ID_UNMAPPED, pos)
  else if prevRef = REF_ID_UNMAPPED then none
  else if ref < prevRef then none
  else if ref > prevRef then some (ref, pos)
  else if pos < prevCoord then none
  else some (ref, pos)

/-- The records of `records` that `validateSortOrder` accepts when it is given
them one after the other, starting from session `s`. -/
def acceptedRecords (ops : StringOps) (header : SamFileHeader) :
    SamFile → List SamRecord → List SamRecord
  | _, [] => []
  | s, r :: rest =>
    let v := validateSortOrder ops s r header
    if v.1 then r :: acceptedRecords ops header v.2 rest
    else acceptedRecords ops header v.2 rest

/-- Reference order with the unmapped pseudo-reference after every real
reference. -/
def RefLe (a b : Int) : Prop :=
  b = REF_ID_UNMAPPED ∨ (a ≠ REF_ID_UNMAPPED ∧ a ≤ b)

/-- Positions do not decrease from `a` to `b` when both have the same
reference index. -/
def PosStep (a b : SamRecord) : Prop :=
  a.referenceID = b.referenceID → a.position ≤ b.position

/-- As `PosStep`, for records on a real reference only. -/
def MappedPosStep (a b : SamRecord) : Prop :=
  a.referenceID = b.referenceID → a.referenceID ≠ REF_ID_UNMAPPED →
    a.position ≤ b.position

/-- An ASCII instance of the two orderings: both compare the character codes
from left to right, as `strcmp` does. -/
def asciiCompare : List Char → List Char → Int
  | [], [] => 0
  | [], b :: _ => - (b.toNat : Int)
  | a :: _, [] => (a.toNat : Int)
  | a :: as, b :: bs =>
    if a = b then asciiCompare as bs else (a.toNat : Int) - (b.toNat : Int)

/-- The orderings used at concrete inputs. -/
def asciiOps : StringOps :=
  { Compare := fun a b => asciiCompare a.data b.data
    strcmp := fun a b => asciiCompare a.data b.data }

/-- A header without a sort-order tag and without references. -/
def plainHeader : SamFileHeader :=
  { getSortOrder := "", getReferenceID := fun _ => NO_REF_ID }

/-- A mapped or unmapped record with the given reference index and position;
the alignment covers one base. -/
def recordAt (ref pos : Int) : SamRecord :=
  { referenceID := ref, position := pos, alignmentEnd := pos, flag := 0, readName := "" }

/-- The containment check lets the record through. -/
def Accepts (s : SamFile) (record : SamRecord) : Prop :=
  (checkRecordInSection s record).1 = true

/-- The containment check rejects the record without raising `NO_MORE_RECS`:
the read loop goes on to the next candidate. -/
def Skips (s : SamFile) (record : SamRecord) : Prop :=
  (checkRecordInSection s record).1 = false ∧
    (checkRecordInSection s record).2.myStatus ≠ Status.NO_MORE_RECS

/-- The containment check rejects the record and raises `NO_MORE_RECS`: the
read loop stops. -/
def Terminates (s : SamFile) (record : SamRecord) : Prop :=
  (checkRecordInSection s record).1 = false ∧
    (checkRecordInSection s record).2.myStatus = Status.NO_MORE_RECS

/-- A freshly constructed session with the given region query stored, as the
read loop sees it (status `SUCCESS`). -/
def regionSession (refID start stop : Int) (overlap : Bool) : SamFile :=
  { SamFile.new with
    myRefID := refID, myStartPos := start, myEndPos := stop, myOverlapSection := overlap }

/-- A record on reference `ref` that starts at `pos` and ends at `last`. -/
def recordSpan (ref pos last : Int) : SamRecord :=
  { referenceID := ref, position := pos, alignmentEnd := last, flag := 0, readName := "" }

/-- The flag filter of `ReadRecord` holds for the record: every required flag
is present and no excluded flag is. -/
def PassesFlags (s : SamFile) (record : SamRecord) : Prop :=
  record.flag &&& s.myRequiredFlags = s.myRequiredFlags ∧
    record.flag &&& s.myExcludedFlags = 0

instance PassesFlags.decidable (s : SamFile) (record : SamRecord) :
    Decidable (PassesFlags s record) := by
  unfold PassesFlags
  infer_instance

/-- The read loop consumes the candidate and goes on: a containment skip, or a
record in the section whose flags do not pass. -/
def Dropped (s : SamFile) (record : SamRecord) : Prop :=
  Skips s record ∨ (Accepts s record ∧ ¬ PassesFlags s record)

/-- The backend can deliver its pending records: the file is there, and `eof_`
is raised only when nothing is pending. -/
def Ready (itf : GenericSamInterface) : Prop :=
  itf.fp_ = true ∧ (itf.eof_ = true → itf.pending = [])

/-- A sequential backend over an open file that still has to deliver
`records`. -/
def streamOf (records : List SamRecord) : GenericSamInterface :=
  { fp_ := true, fp_format := HtsExactFormat.bam, idx_ := false, itr_ := none,
    hdr_ := true, eof_ := false, records := records }

/-- A session open for read with its header read, the region query and flag
masks given, no region pending, over the backend `streamOf records`. -/
def readingSession (refID start stop : Int) (overlap : Bool) (required excluded : Nat)
    (records : List SamRecord) : SamFile :=
  { SetReadFlags (regionSession refID start stop overlap) required excluded with
    myInterfacePtr := some (streamOf records)
    myIsOpenForRead := true
    myIsBamOpenForRead := true
    myHasHeader := true }

/-- A record on reference `ref` from `pos` to `last` with the given flag. -/
def recordFlagged (ref pos last : Int) (flag : Nat) : SamRecord :=
  { referenceID := ref, position := pos, alignmentEnd := last, flag := flag, readName := "" }

/-- Two sessions hold the same region query, the same flag masks and the same
status: the containment check and the flag filter cannot tell them apart. -/
def SameQuery (s t : SamFile) : Prop :=
  s.myRefID = t.myRefID ∧ s.myStartPos = t.myStartPos ∧ s.myEndPos = t.myEndPos ∧
    s.myOverlapSection = t.myOverlapSection ∧ s.myStatus = t.myStatus ∧
    s.myRequiredFlags = t.myRequiredFlags ∧ s.myExcludedFlags = t.myExcludedFlags

/-- An environment whose answers are fixed: what opening a file gives, the
header text in the file, whether the header text parses and can be written,
what the record conversion returns and whether `sam_write1` succeeds. -/
def scriptedExternal (file : Option HtsFile) (headerText : Option String)
    (parseOk headerWriteOk : Bool) (copy : Status) (writeOk : Bool) : External :=
  { sam_open := fun _ _ => file
    sam_open_format := fun _ _ _ _ => file
    sam_hdr_read := headerText
    resetHeader := fun _ => plainHeader
    addHeader := fun h _ => (true, h)
    getHeaderString := fun _ => ""
    sam_hdr_parse := fun _ => parseOk
    sam_hdr_write := fun _ => headerWriteOk
    copyRecordBufferToHts := fun _ => copy
    sam_write1 := fun _ => writeOk }

/-- An environment in which every external call succeeds: files open as empty
BAM files, the header text is there, parses and can be written, records
convert and are written. -/
def goodExternal : External :=
  scriptedExternal (some { format := HtsExactFormat.bam, records := [] }) (some "@HD")
    true true Status.SUCCESS true

/-- An environment in which no file can be opened. -/
def noFileExternal : External :=
  scriptedExternal none none true true Status.SUCCESS true

/-- An environment in which files open but `sam_hdr_parse` rejects the header
text. -/
def rejectingExternal : External :=
  scriptedExternal (some { format := HtsExactFormat.bam, records := [] }) (some "@HD")
    false true Status.SUCCESS true

/-- The session `OpenForRead` leaves when the backend `itf` it created is
usable and no header was passed: everything reset, the backend bound, open for
read, and marked as BAM when the backend says so. -/
def openedForRead (s : SamFile) (itf : GenericSamInterface) : SamFile :=
  { resetFile s with
    myInterfacePtr := some itf
    myIsOpenForRead := true
    myIsBamOpenForRead := decide (itf.format = HtsExactFormat.bam) }

/-- The session `OpenForWrite` leaves when the backend `itf` it created is
usable and no header was passed. -/
def openedForWrite (s : SamFile) (itf : GenericSamInterface) : SamFile :=
  { resetFile s with myInterfacePtr := some itf, myIsOpenForWrite := true }

/-- A session open for write with its header written, under the given sort
policy and validator memory left as `resetFile` leaves it. -/
def writingSession (sortType : SortedType) : SamFile :=
  { setSortedValidation SamFile.new sortType with
    myInterfacePtr := some (streamOf [])
    myIsOpenForWrite := true
    myHasHeader := true }

/-- A freshly constructed session under the Coordinate policy whose validator
memory is `(prevRef, prevCoord)`; `coordinateSessionAt 0 (-1)` is the memory
`resetFile` leaves. -/
def coordinateSessionAt (prevRef prevCoord : Int) : SamFile :=
  { setSortedValidation SamFile.new SortedType.COORDINATE with
    myPrevRefID := prevRef, myPrevCoord := prevCoord }

/-- A freshly constructed session under the QueryName policy whose validator
memory is the name `prev`. -/
def queryNameSessionAt (prev : String) : SamFile :=
  { setSortedValidation SamFile.new SortedType.QUERY_NAME with myPrevReadName := prev }

/-- An unmapped record with the given read name. -/
def recordNamed (name : String) : SamRecord :=
  { referenceID := REF_ID_UNMAPPED, position := -1, alignmentEnd := -1, flag := 0,
    readName := name }

/-- The sessions a caller can get: a newly constructed one, and whatever one
of the public operations leaves, whether it returned or threw. -/
inductive Reachable : SamFile → Prop where
  | new : Reachable SamFile.new
  | openForRead (ext : External) (s : SamFile) (filename : String)
      (header : Option SamFileHeader) :
      Reachable s → Reachable (OpenForRead ext s filename header).1.session
  | openForWrite (ext : External) (s : SamFile) (filename : String)
      (header : Option SamFileHeader) :
      Reachable s → Reachable (OpenForWrite ext s filename header).session
  | readHeader (ext : External) (s : SamFile) (header : SamFileHeader) :
      Reachable s → Reachable (ReadHeader ext s header).1.session
  | writeHeader (ext : External) (s : SamFile) (header : SamFileHeader) :
      Reachable s → Reachable (WriteHeader ext s header).session
  | readRecord (ops : StringOps) (fuel : Nat) (s : SamFile) (header : SamFileHeader)
      (record : SamRecord) (out : Outcome) (s1 : SamFile) (record1 : SamRecord) :
      Reachable s → ReadRecord ops fuel s header record = some (out, s1, record1) →
      Reachable s1
  | writeRecord (ops : StringOps) (ext : External) (s : SamFile) (header : SamFileHeader)
      (record : SamRecord) :
      Reachable s → Reachable (WriteRecord ops ext s header record).session
  | setReadSection (rx : RegionExternal) (s : SamFile) (refID start endPos : Int)
      (overlap : Bool) :
      Reachable s → Reachable (SetReadSection rx s refID start endPos overlap).2
  | setReadSectionByName (rx : RegionExternal) (s : SamFile) (refName : String)
      (start endPos : Int) (overlap : Bool) :
      Reachable s → Reachable (SetReadSectionByName rx s refName start endPos overlap).2
  | setSortedValidation (s : SamFile) (sortType : SortedType) :
      Reachable s → Reachable (setSortedValidation s sortType)
  | setReadFlags (s : SamFile) (requiredFlags excludedFlags : Nat) :
      Reachable s → Reachable (SetReadFlags s requiredFlags excludedFlags)
  | close (s : SamFile) : Reachable s → Reachable (Close s)

/-- An environment for region queries in which every query gives an iterator
over the given records and every reference name has id 0. -/
def scriptedRegion (records : List SamRecord) : RegionExternal :=
  { sam_itr_queryi := fun _ _ _ => some records, bam_name2id := fun _ => 0 }

/-- A header whose sort-order tag is `tag` and which knows the one reference
`chr1`, with id 0. -/
def taggedHeader (tag : String) : SamFileHeader :=
  { getSortOrder := tag
    getReferenceID := fun name => if name = "chr1" then 0 else NO_REF_ID }

/-- An index whose lookup answers `chunks` for every region. -/
def scriptedIndex (chunks : Option (List Chunk)) : BamIndex :=
  { getChunksForRegion := fun _ _ _ => chunks }

/-- A BAM session open for read with its header read and the given index
loaded, over the sequential backend `streamOf records`. -/
def indexedSession (index : Option BamIndex) (records : List SamRecord) : SamFile :=
  { readingSession REF_ID_ALL (-1) (-1) true 0 0 records with myBamIndex := index }

/-- Session `t` is open in the same directions as `s` and has a header exactly
when `s` has one. -/
def SameOpen (s t : SamFile) : Prop :=
  t.myIsOpenForRead = s.myIsOpenForRead ∧ t.myIsOpenForWrite = s.myIsOpenForWrite ∧
    t.myHasHeader = s.myHasHeader

/-- A backend with an index loaded, over an open file that still has to
deliver `records` sequentially. -/
def indexedStream (records : List SamRecord) : GenericSamInterface :=
  { streamOf records with idx_ := true }

/-- One call of `SetReadSection`, by reference index or by reference name. -/
inductive SectionCall where
  | byIndex (refID start endPos : Int) (overlap : Bool)
  | byName (refName : String) (start endPos : Int) (overlap : Bool)

/-- The session after one `SetReadSection` call. -/
def SectionCall.run (rx : RegionExternal) (s : SamFile) : SectionCall → SamFile
  | SectionCall.byIndex refID start endPos overlap =>
    (SetReadSection rx s refID start endPos overlap).2
  | SectionCall.byName refName start endPos overlap =>
    (SetReadSectionByName rx s refName start endPos overlap).2

/-- The session after a series of `SetReadSection` calls with nothing in
between. -/
def runSectionCalls (rx : RegionExternal) : SamFile → List SectionCall → SamFile
  | s, [] => s
  | s, c :: rest => runSectionCalls rx (c.run rx s) rest

/-- The iterator htslib answers to the region query a `SetReadSection` call
hands to the backend. -/
def SectionCall.query (rx : RegionExternal) : SectionCall → Option (List SamRecord)
  | SectionCall.byIndex refID start endPos _ =>
    rx.sam_itr_queryi refID (if start = -1 then 0 else start)
      (if endPos = -1 then 2147483647 else endPos)
  | SectionCall.byName refName start endPos _ =>
    rx.sam_itr_queryi (rx.bam_name2id refName) (if start = -1 then 0 else start)
      (wrapInt32 (if endPos = -1 then 4294967295 else endPos % 4294967296))

/-- The part of the backend that `setReadSection` leaves alone: the file, its
format, the index, the header and the records of the sequential reader. -/
def SameFile (a b : GenericSamInterface) : Prop :=
  b.fp_ = a.fp_ ∧ b.fp_format = a.fp_format ∧ b.idx_ = a.idx_ ∧ b.hdr_ = a.hdr_ ∧
    b.records = a.records

/-- A session open for read with its header read, over a backend with an
index loaded that still has to deliver `records` sequentially. -/
def indexedReadingSession (records : List SamRecord) : SamFile :=
  { readingSession REF_ID_ALL (-1) (-1) true 0 0 records with
    myInterfacePtr := some (indexedStream records) }

/-- The second session holds the region query, the pending flag, the stored
name, the flag masks and the format of the backend of the first. -/
structure SameSection (s t : SamFile) : Prop where
  refID : t.myRefID = s.myRefID
  startPos : t.myStartPos = s.myStartPos
  endPos : t.myEndPos = s.myEndPos
  overlap : t.myOverlapSection = s.myOverlapSection
  refName : t.myRefName = s.myRefName
  newSection : t.myNewSection = s.myNewSection
  required : t.myRequiredFlags = s.myRequiredFlags
  excluded : t.myExcludedFlags = s.myExcludedFlags
  format : t.myInterfacePtr.map GenericSamInterface.format =
    s.myInterfacePtr.map GenericSamInterface.format

/-- The second session holds the sort policy and the validator memory of the
first. -/
structure SameValidator (s t : SamFile) : Prop where
  policy : t.mySortedType = s.mySortedType
  prevRefID : t.myPrevRefID = s.myPrevRefID
  prevCoord : t.myPrevCoord = s.myPrevCoord
  prevReadName : t.myPrevReadName = s.myPrevReadName

/-- A series of `ReadRecord` calls, each with its fuel and the record object
the caller passes, threading the session; `none` when a call runs out of
fuel. -/
def readRecords (ops : StringOps) (header : SamFileHeader) :
    List (Nat × SamRecord) → SamFile → Option SamFile
  | [], s => some s
  | (fuel, record) :: rest, s =>
    match ReadRecord ops fuel s header record with
    | none => none
    | some r => readRecords ops header rest r.2.1

/-- A session open for read with its header read over a CRAM backend that
still has to deliver `records`. -/
def cramSession (records : List SamRecord) : SamFile :=
  { readingSession REF_ID_ALL (-1) (-1) true 0 0 records with
    myInterfacePtr := some { streamOf records with fp_format := HtsExactFormat.cram }
    myIsBamOpenForRead := false }

/-! ## The sort validator in coordinate mode -/

theorem validateSortOrder_coordinate (ops : StringOps) (s : SamFile) (record : SamRecord)
    (header : SamFileHeader) (hmode : s.mySortedType = SortedType.COORDINATE) :
    validateSortOrder ops s record header = validateCoordinate s record := by
  simp [validateSortOrder, hmode]

theorem validateCoordinate_mode (s : SamFile) (record : SamRecord) :
    (validateCoordinate s record).2.mySortedType = s.mySortedType := by
  unfold validateCoordinate
  simp only
  split_ifs <;> rfl

theorem validateCoordinate_accept (s : SamFile) (record : SamRecord)
    (h : (validateCoordinate s record).1 = true) :
    (validateCoordinate s record).2.myPrevRefID = record.referenceID ∧
      (validateCoordinate s record).2.myPrevCoord = record.position ∧
      RefLe s.myPrevRefID record.referenceID ∧
      (record.referenceID ≠ REF_ID_UNMAPPED → record.referenceID = s.myPrevRefID →
        s.myPrevCoord ≤ record.position) := by
  unfold validateCoordinate at h ⊢
  simp only at h ⊢
  split_ifs at h ⊢ with h1 h2 h3 h4 h5 h5
  · exact ⟨rfl, rfl, Or.inl h1, fun hne => absurd h1 hne⟩
  · exact ⟨rfl, rfl, Or.inr ⟨h2, by omega⟩, fun _ he => by omega⟩
  · refine ⟨rfl, rfl, Or.inr ⟨h2, by omega⟩, fun _ _ => ?_⟩
    simp only [h4, if_false] at h5
    omega

theorem validateCoordinate_reject (s : SamFile) (record : SamRecord)
    (h : (validateCoordinate s record).1 = false) :
    (validateCoordinate s record).2.myPrevRefID = s.myPrevRefID ∧
      (-1 ≤ record.position →
        (validateCoordinate s record).2.myPrevCoord = s.myPrevCoord) := by
  unfold validateCoordinate at h ⊢
  simp only at h ⊢
  split_ifs at h ⊢ with h1 h2 h3 h4 h5 h5
  · exact ⟨rfl, fun _ => rfl⟩
  · exact ⟨rfl, fun _ => rfl⟩
  · refine ⟨rfl, fun hp => ?_⟩
    simp only [h4, if_true] at h5
    omega
  · exact ⟨rfl, fun _ => rfl⟩

theorem RefLe_trans {a b c : Int} (hab : RefLe a b) (hbc : RefLe b c) : RefLe a c := by
  unfold RefLe at *
  rcases hbc with hc | ⟨hb, hbc⟩
  · exact Or.inl hc
  · rcases hab with hb2 | ⟨ha, hab⟩
    · exact absurd hb2 hb
    · exact Or.inr ⟨ha, by omega⟩

theorem acceptedRecords_coordinate_invariant (ops : StringOps) (header : SamFileHeader)
    (records : List SamRecord) :
    ∀ s : SamFile, s.mySortedType = SortedType.COORDINATE →
      (∀ b ∈ acceptedRecords ops header s records, RefLe s.myPrevRefID b.referenceID) ∧
      List.Pairwise (fun a b => RefLe a.referenceID b.referenceID)
        (acceptedRecords ops header s records) ∧
      ((∀ r ∈ records, -1 ≤ r.position) →
        List.Chain' MappedPosStep (acceptedRecords ops header s records) ∧
        ∀ b ∈ (acceptedRecords ops header s records).head?,
          b.referenceID ≠ REF_ID_UNMAPPED → b.referenceID = s.myPrevRefID →
            s.myPrevCoord ≤ b.position) := by
  induction records with
  | nil =>
    intro s _
    simp [acceptedRecords]
  | cons r rest ih =>
    intro s hmode
    have hv := validateSortOrder_coordinate ops s r header hmode
    have hmode2 : (validateCoordinate s r).2.mySortedType = SortedType.COORDINATE := by
      rw [validateCoordinate_mode]; exact hmode
    obtain ⟨ihRef, ihPair, ihPos⟩ := ih (validateCoordinate s r).2 hmode2
    cases hacc : (validateCoordinate s r).1 with
    | true =>
      obtain ⟨hRef, hCoord, hLe, hPos⟩ := validateCoordinate_accept s r hacc
      have hlist : acceptedRecords ops header s (r :: rest) =
          r :: acceptedRecords ops header (validateCoordinate s r).2 rest := by
        simp [acceptedRecords, hv, hacc]
      rw [hlist]
      rw [hRef] at ihRef
      refine ⟨?_, ?_, ?_⟩
      · intro b hb
        rcases List.mem_cons.mp hb with hb | hb
        · rw [hb]; exact hLe
        · exact RefLe_trans hLe (ihRef b hb)
      · exact List.pairwise_cons.mpr ⟨ihRef, ihPair⟩
      · intro hall
        obtain ⟨ihChain, ihHead⟩ := ihPos (fun x hx => hall x (List.mem_cons_of_mem _ hx))
        refine ⟨?_, ?_⟩
        · refine List.chain'_cons'.mpr ⟨?_, ihChain⟩
          intro b hb heq hne
          have := ihHead b hb (by rw [← heq]; exact hne) (by rw [hRef]; exact heq.symm)
          rw [hCoord] at this
          exact this
        · intro b hb hne heq
          simp only [List.head?_cons, Option.mem_def, Option.some.injEq] at hb
          subst hb
          exact hPos hne heq
    | false =>
      obtain ⟨hRef, hCoord⟩ := validateCoordinate_reject s r hacc
      have hlist : acceptedRecords ops header s (r :: rest) =
          acceptedRecords ops header (validateCoordinate s r).2 rest := by
        simp [acceptedRecords, hv, hacc]
      rw [hlist]
      rw [hRef] at ihRef
      refine ⟨ihRef, ihPair, ?_⟩
      intro hall
      obtain ⟨ihChain, ihHead⟩ := ihPos (fun x hx => hall x (List.mem_cons_of_mem _ hx))
      rw [hRef, hCoord (hall r (List.mem_cons_self _ _))] at ihHead
      exact ⟨ihChain, ihHead⟩

/-- In coordinate mode `validateSortOrder` decides as the coordinate rule of
the specification says, verdict and memory, for every memory and record but
one kind: a mapped record on a later reference than the mapped previous one
whose position is below `-1`.  There the rule says valid, the previous
coordinate being unconstrained, and the code reports a violation. -/
theorem validateSortOrder_coordinate_rule (ops : StringOps) (s : SamFile)
    (record : SamRecord) (header : SamFileHeader)
    (hmode : s.mySortedType = SortedType.COORDINATE) :
    ((record.referenceID = REF_ID_UNMAPPED ∨ s.myPrevRefID = REF_ID_UNMAPPED ∨
          record.referenceID ≤ s.myPrevRefID ∨ -1 ≤ record.position) →
        (validateSortOrder ops s record header).1 =
          (coordinateRule s.myPrevRefID s.myPrevCoord record.referenceID
            record.position).isSome ∧
        ∀ m, coordinateRule s.myPrevRefID s.myPrevCoord record.referenceID
            record.position = some m →
          ((validateSortOrder ops s record header).2.myPrevRefID,
            (validateSortOrder ops s record header).2.myPrevCoord) = m) ∧
      (record.referenceID ≠ REF_ID_UNMAPPED → s.myPrevRefID ≠ REF_ID_UNMAPPED →
        s.myPrevRefID < record.referenceID → record.position < -1 →
        (validateSortOrder ops s record header).1 = false ∧
        coordinateRule s.myPrevRefID s.myPrevCoord record.referenceID record.position =
          some (record.referenceID, record.position)) := by
  rw [validateSortOrder_coordinate ops s record header hmode]
  unfold validateCoordinate coordinateRule
  simp only
  refine ⟨?_, ?_⟩
  · intro hc
    by_cases h1 : record.referenceID = REF_ID_UNMAPPED
    · simp [h1]
    · by_cases h2 : s.myPrevRefID = REF_ID_UNMAPPED
      · simp [h1, h2]
      · by_cases h3 : record.referenceID < s.myPrevRefID
        · simp [h1, h2, h3]
        · by_cases h4 : record.referenceID > s.myPrevRefID
          · have h5 : ¬ record.position < -1 := by
              rcases hc with hc | hc | hc | hc
              · exact absurd hc h1
              · exact absurd hc h2
              · omega
              · omega
            simp [h1, h2, h3, h4, h5]
          · by_cases h5 : record.position < s.myPrevCoord
            · simp [h1, h2, h3, h4, h5]
            · simp [h1, h2, h3, h4, h5]
  · intro h1 h2 h3 h4
    have h5 : ¬ record.referenceID < s.myPrevRefID := by omega
    have h6 : record.referenceID > s.myPrevRefID := h3
    simp [h1, h2, h5, h6, h4]

/-- The coordinate rule at a concrete input: with memory `(0, 7)` the record
`(2, 3)` on a later reference is valid and the memory becomes `(2, 3)`. -/
theorem validateSortOrder_coordinate_rule_witness :
    (coordinateSessionAt 0 7).mySortedType = SortedType.COORDINATE ∧
      (validateSortOrder asciiOps (coordinateSessionAt 0 7) (recordAt 2 3) plainHeader).1
        = (coordinateRule 0 7 2 3).isSome ∧
      ((validateSortOrder asciiOps (coordinateSessionAt 0 7) (recordAt 2 3)
            plainHeader).2.myPrevRefID,
        (validateSortOrder asciiOps (coordinateSessionAt 0 7) (recordAt 2 3)
            plainHeader).2.myPrevCoord) = (2, 3) :=
  ⟨rfl,
    ((validateSortOrder_coordinate_rule asciiOps (coordinateSessionAt 0 7) (recordAt 2 3)
      plainHeader rfl).1 (Or.inr (Or.inr (Or.inr (by decide))))).1,
    ((validateSortOrder_coordinate_rule asciiOps (coordinateSessionAt 0 7) (recordAt 2 3)
      plainHeader rfl).1 (Or.inr (Or.inr (Or.inr (by decide))))).2 (2, 3) (by decide)⟩

/-- C1 fails on the code: with memory `(0, 50)` the record on reference 1 at
position -2 lies on a later reference, where the rule of the specification
compares no position and says valid with memory `(1, -2)`; the code compares
the position with -1 and reports a violation with `INVALID_SORT`, and
`WriteRecord` refuses the record after one at `(0, 50)` was written. -/
theorem validateSortOrder_coordinate_rejects_later_reference :
    coordinateRule 0 50 1 (-2) = some (1, -2) ∧
      (validateSortOrder asciiOps (coordinateSessionAt 0 50) (recordAt 1 (-2))
        plainHeader).1 = false ∧
      (validateSortOrder asciiOps (coordinateSessionAt 0 50) (recordAt 1 (-2))
        plainHeader).2.myStatus = Status.INVALID_SORT ∧
      (WriteRecord asciiOps goodExternal (writingSession SortedType.COORDINATE) plainHeader
        (recordAt 0 50)).outcome = Outcome.returned true ∧
      (WriteRecord asciiOps goodExternal
        (WriteRecord asciiOps goodExternal (writingSession SortedType.COORDINATE) plainHeader
          (recordAt 0 50)).session
        plainHeader (recordAt 1 (-2))).outcome = Outcome.returned false ∧
      (WriteRecord asciiOps goodExternal
        (WriteRecord asciiOps goodExternal (writingSession SortedType.COORDINATE) plainHeader
          (recordAt 0 50)).session
        plainHeader (recordAt 1 (-1))).outcome = Outcome.returned true := by
  refine ⟨?_, ?_, ?_, ?_, ?_, ?_⟩ <;> decide

/-- C2 as stated fails: two unmapped records with decreasing positions are
both accepted, so consecutive accepted records with equal reference index do
not always have non-decreasing positions. -/
theorem acceptedRecords_coordinate_claim_counterexample :
    ¬ (List.Pairwise (fun a b => RefLe a.referenceID b.referenceID)
          (acceptedRecords asciiOps plainHeader (coordinateSessionAt 0 (-1))
            [recordAt (-1) 5, recordAt (-1) 3]) ∧
        List.Pairwise
          (fun a b => a.referenceID = REF_ID_UNMAPPED → b.referenceID = REF_ID_UNMAPPED)
          (acceptedRecords asciiOps plainHeader (coordinateSessionAt 0 (-1))
            [recordAt (-1) 5, recordAt (-1) 3]) ∧
        List.Chain' PosStep
          (acceptedRecords asciiOps plainHeader (coordinateSessionAt 0 (-1))
            [recordAt (-1) 5, recordAt (-1) 3])) := by
  have hacc : acceptedRecords asciiOps plainHeader (coordinateSessionAt 0 (-1))
      [recordAt (-1) 5, recordAt (-1) 3] = [recordAt (-1) 5, recordAt (-1) 3] := by
    decide
  rw [hacc]
  rintro ⟨_, _, h⟩
  simp [PosStep, recordAt] at h

/-- C2, amended: under the Coordinate policy, whatever the validator memory at
the start (the freshly reset one included), the records `validateSortOrder`
accepts have non-decreasing reference indices with the unmapped
pseudo-reference last, every accepted record after an accepted unmapped one is
unmapped, and, when every position is at least `-1`, consecutive accepted
records on the same real reference have non-decreasing positions. -/
theorem acceptedRecords_coordinate_sorted (ops : StringOps) (header : SamFileHeader)
    (s : SamFile) (records : List SamRecord)
    (hmode : s.mySortedType = SortedType.COORDINATE) :
    List.Pairwise (fun a b => RefLe a.referenceID b.referenceID)
        (acceptedRecords ops header s records) ∧
      List.Pairwise
        (fun a b => a.referenceID = REF_ID_UNMAPPED → b.referenceID = REF_ID_UNMAPPED)
        (acceptedRecords ops header s records) ∧
      ((∀ r ∈ records, -1 ≤ r.position) →
        List.Chain' MappedPosStep (acceptedRecords ops header s records)) := by
  obtain ⟨_, hPair, hPos⟩ := acceptedRecords_coordinate_invariant ops header records s hmode
  refine ⟨hPair, hPair.imp ?_, fun hall => (hPos hall).1⟩
  intro a b hab ha
  rcases hab with hb | ⟨hne, _⟩
  · exact hb
  · exact absurd ha hne

/-- C2 at a concrete input: from the reset memory, of six records the
validator accepts `(0,10)`, `(2,1)` and the unmapped one, in sorted order. -/
theorem acceptedRecords_coordinate_sorted_witness :
    acceptedRecords asciiOps plainHeader (coordinateSessionAt 0 (-1))
        [recordAt 0 10, recordAt 0 5, recordAt 2 1, recordAt 1 1, recordAt (-1) 0,
          recordAt 3 1]
        = [recordAt 0 10, recordAt 2 1, recordAt (-1) 0] ∧
      List.Chain' MappedPosStep
        (acceptedRecords asciiOps plainHeader (coordinateSessionAt 0 (-1))
          [recordAt 0 10, recordAt 0 5, recordAt 2 1, recordAt 1 1, recordAt (-1) 0,
            recordAt 3 1]) :=
  ⟨by decide,
    (acceptedRecords_coordinate_sorted asciiOps plainHeader (coordinateSessionAt 0 (-1))
      [recordAt 0 10, recordAt 0 5, recordAt 2 1, recordAt 1 1, recordAt (-1) 0,
        recordAt 3 1] rfl).2.2 (by decide)⟩

/-! ## The sort validator in query-name mode -/

/-- C3: in query-name mode `validateSortOrder` reports a violation exactly
when both `String::Compare` and `strcmp` put the previous name strictly after
the current one; a valid check stores the current name and changes nothing
else, a violation sets the status to `INVALID_SORT` and changes nothing else. -/
theorem validateSortOrder_queryName (ops : StringOps) (s : SamFile) (record : SamRecord)
    (header : SamFileHeader) (hmode : s.mySortedType = SortedType.QUERY_NAME) :
    ((validateSortOrder ops s record header).1 = false ↔
        (ops.Compare s.myPrevReadName record.readName > 0 ∧
          ops.strcmp s.myPrevReadName record.readName > 0)) ∧
      ((validateSortOrder ops s record header).1 = true →
        (validateSortOrder ops s record header).2 =
          { s with myPrevReadName := record.readName }) ∧
      ((validateSortOrder ops s record header).1 = false →
        (validateSortOrder ops s record header).2 =
          { s with myStatus := Status.INVALID_SORT }) := by
  have hv : validateSortOrder ops s record header = validateQueryName ops s record := by
    simp [validateSortOrder, hmode]
  rw [hv]
  unfold validateQueryName
  simp only
  split_ifs with h
  · simp [h]
  · simp [h]

/-- C3 at a concrete input: after "b", the name "a" is behind under both
orderings, so the check fails with `INVALID_SORT` and "b" stays in memory. -/
theorem validateSortOrder_queryName_witness :
    (queryNameSessionAt "b").mySortedType = SortedType.QUERY_NAME ∧
      (validateSortOrder asciiOps (queryNameSessionAt "b") (recordNamed "a")
        plainHeader).1 = false ∧
      (validateSortOrder asciiOps (queryNameSessionAt "b") (recordNamed "a")
        plainHeader).2 = { queryNameSessionAt "b" with myStatus := Status.INVALID_SORT } :=
  have h := (validateSortOrder_queryName asciiOps (queryNameSessionAt "b")
    (recordNamed "a") plainHeader rfl)
  ⟨rfl, h.1.mpr ⟨by decide, by decide⟩, h.2.2 (h.1.mpr ⟨by decide, by decide⟩)⟩

/-! ## The containment check -/

theorem checkRecordInSection_frame (s : SamFile) (record : SamRecord) :
    (checkRecordInSection s record).2 =
      { s with myStatus := (checkRecordInSection s record).2.myStatus } := by
  unfold checkRecordInSection
  split_ifs <;> rfl

theorem checkRecordInSection_accept (s : SamFile) (record : SamRecord)
    (h : (checkRecordInSection s record).1 = true) :
    (checkRecordInSection s record).2 = s := by
  unfold checkRecordInSection at h ⊢
  split_ifs at h ⊢ <;> rfl

/-- C4: for a selector other than AllReferences, a record on another reference,
or one that starts at or after a set end, is rejected with `NO_MORE_RECS`
whatever the skip rules would say; in every other case the session, and so the
status, is unchanged. -/
theorem checkRecordInSection_terminal (s : SamFile) (record : SamRecord)
    (hsel : s.myRefID ≠ REF_ID_ALL) :
    ((record.referenceID ≠ s.myRefID ∨ (s.myEndPos ≠ -1 ∧ s.myEndPos ≤ record.position)) →
        checkRecordInSection s record = (false, { s with myStatus := Status.NO_MORE_RECS })) ∧
      (¬ (record.referenceID ≠ s.myRefID ∨
            (s.myEndPos ≠ -1 ∧ s.myEndPos ≤ record.position)) →
        (checkRecordInSection s record).2 = s) := by
  unfold checkRecordInSection
  constructor
  · intro h
    simp only [hsel, if_false]
    by_cases h1 : record.referenceID ≠ s.myRefID
    · simp [h1]
    · have h2 : s.myEndPos ≠ -1 ∧ record.position ≥ s.myEndPos := by
        rcases h with h | h
        · exact absurd h h1
        · exact h
      simp [h1, h2]
  · intro h
    have h1 : ¬ record.referenceID ≠ s.myRefID := fun hc => h (Or.inl hc)
    have h2 : ¬ (s.myEndPos ≠ -1 ∧ record.position ≥ s.myEndPos) :=
      fun hc => h (Or.inr hc)
    simp only [hsel, h1, h2, if_false]

/-- C4 at a concrete input: region `[100, 200)` on reference 1; a record on
reference 2 and a record at position 250 are both rejected with
`NO_MORE_RECS`, the second although it ends before the region start. -/
theorem checkRecordInSection_terminal_witness :
    (regionSession 1 100 200 true).myRefID ≠ REF_ID_ALL ∧
      checkRecordInSection (regionSession 1 100 200 true) (recordSpan 2 150 160) =
        (false, { regionSession 1 100 200 true with myStatus := Status.NO_MORE_RECS }) ∧
      checkRecordInSection (regionSession 1 100 200 true) (recordSpan 1 250 50) =
        (false, { regionSession 1 100 200 true with myStatus := Status.NO_MORE_RECS }) :=
  ⟨by decide,
    (checkRecordInSection_terminal (regionSession 1 100 200 true) (recordSpan 2 150 160)
      (by decide)).1 (Or.inl (by decide)),
    (checkRecordInSection_terminal (regionSession 1 100 200 true) (recordSpan 1 250 50)
      (by decide)).1 (Or.inr ⟨by decide, by decide⟩)⟩

/-- C5: in Overlap mode with start and end set, a record on the target
reference is accepted exactly when it starts before the end and ends at or
after the start, skipped exactly when it starts before the end and ends before
the start, and terminally rejected exactly when it does not start before the
end. -/
theorem checkRecordInSection_overlap (s : SamFile) (record : SamRecord)
    (hsel : s.myRefID ≠ REF_ID_ALL) (hover : s.myOverlapSection = true)
    (hstart : s.myStartPos ≠ -1) (hend : s.myEndPos ≠ -1)
    (href : record.referenceID = s.myRefID) (hstatus : s.myStatus = Status.SUCCESS) :
    (Accepts s record ↔
        record.position < s.myEndPos ∧ s.myStartPos ≤ record.alignmentEnd) ∧
      (Skips s record ↔
        record.position < s.myEndPos ∧ record.alignmentEnd < s.myStartPos) ∧
      (Terminates s record ↔ s.myEndPos ≤ record.position) := by
  unfold Accepts Skips Terminates checkRecordInSection
  simp only [hsel, href, hover, hstart, hend, hstatus, if_false, ne_eq, not_true_eq_false,
    not_false_eq_true, true_and, Bool.not_true, Bool.false_eq_true]
  by_cases h1 : record.position ≥ s.myEndPos
  · simp only [h1, if_true]
    simp
    omega
  · simp only [h1, if_false]
    by_cases h2 : record.alignmentEnd < s.myStartPos
    · simp [h2, hstatus]
      omega
    · simp [h2, hstatus]
      omega

/-- C5 at the inputs of the specification: for the region `[100, 200)` in
Overlap mode, `(150, 160)` is accepted, a record ending at 99 is skipped and a
record at 250 ends the scan. -/
theorem checkRecordInSection_overlap_witness :
    Accepts (regionSession 1 100 200 true) (recordSpan 1 150 160) ∧
      Skips (regionSession 1 100 200 true) (recordSpan 1 90 99) ∧
      Terminates (regionSession 1 100 200 true) (recordSpan 1 250 260) :=
  ⟨(checkRecordInSection_overlap (regionSession 1 100 200 true) (recordSpan 1 150 160)
      (by decide) rfl (by decide) (by decide) rfl rfl).1.mpr ⟨by decide, by decide⟩,
    (checkRecordInSection_overlap (regionSession 1 100 200 true) (recordSpan 1 90 99)
      (by decide) rfl (by decide) (by decide) rfl rfl).2.1.mpr ⟨by decide, by decide⟩,
    (checkRecordInSection_overlap (regionSession 1 100 200 true) (recordSpan 1 250 260)
      (by decide) rfl (by decide) (by decide) rfl rfl).2.2.mpr (by decide)⟩

/-- C6: in FullyContained mode, a record on the target reference (whose
alignment end is not left of its start) that is not terminally rejected is
accepted exactly when it starts at or after the region start and, when the end
is set, ends before the region end; otherwise it is skipped. -/
theorem checkRecordInSection_fullyContained (s : SamFile) (record : SamRecord)
    (hsel : s.myRefID ≠ REF_ID_ALL) (hfull : s.myOverlapSection = false)
    (href : record.referenceID = s.myRefID) (hstatus : s.myStatus = Status.SUCCESS)
    (hspan : record.position ≤ record.alignmentEnd)
    (hnt : ¬ Terminates s record) :
    (Accepts s record ↔
        s.myStartPos ≤ record.position ∧
          (s.myEndPos ≠ -1 → record.alignmentEnd < s.myEndPos)) ∧
      (¬ Accepts s record → Skips s record) := by
  unfold Terminates at hnt
  unfold Accepts Skips
  unfold checkRecordInSection at hnt ⊢
  simp only [hsel, href, hfull, if_false, ne_eq, not_true_eq_false] at hnt ⊢
  by_cases h1 : ¬ s.myEndPos = -1 ∧ record.position ≥ s.myEndPos
  · simp [h1] at hnt
  · simp only [h1, if_false]
    simp only [not_and, not_le, ge_iff_le] at h1
    by_cases h2 : ¬ s.myStartPos = -1 ∧ record.alignmentEnd < s.myStartPos
    · have h3 : ¬ s.myStartPos ≤ record.position := by omega
      simp [h2, h3, hstatus]
    · by_cases h4 : record.position < s.myStartPos ∨
          (¬ s.myEndPos = -1 ∧ record.alignmentEnd ≥ s.myEndPos)
      · simp only [h2, h4, hstatus]
        simp
        intro h5
        rcases h4 with h4 | ⟨h4, h7⟩
        · omega
        · exact ⟨h4, h7⟩
      · simp only [h2, h4, hstatus]
        simp
        simp only [not_or, not_and, not_lt, ge_iff_le, not_le] at h4
        exact ⟨h4.1, h4.2⟩

/-- C6 at the input of the specification: against `[100, 200)` in
FullyContained mode the record `(90, 150)` overlaps the region and is skipped,
while `(120, 150)` is accepted. -/
theorem checkRecordInSection_fullyContained_witness :
    Skips (regionSession 1 100 200 false) (recordSpan 1 90 150) ∧
      Accepts (regionSession 1 100 200 false) (recordSpan 1 120 150) :=
  ⟨(checkRecordInSection_fullyContained (regionSession 1 100 200 false)
      (recordSpan 1 90 150) (by decide) rfl rfl rfl (by decide)
      (fun h => absurd h.2 (by decide))).2
      (fun h => absurd
        ((checkRecordInSection_fullyContained (regionSession 1 100 200 false)
          (recordSpan 1 90 150) (by decide) rfl rfl rfl (by decide)
          (fun h => absurd h.2 (by decide))).1.mp h).1 (by decide)),
    (checkRecordInSection_fullyContained (regionSession 1 100 200 false)
      (recordSpan 1 120 150) (by decide) rfl rfl rfl (by decide)
      (fun h => absurd h.2 (by decide))).1.mpr ⟨by decide, fun _ => by decide⟩⟩

/-- C7: with the selector AllReferences the containment check accepts every
record and leaves the session unchanged, whatever start, end and containment
mode are stored. -/
theorem checkRecordInSection_allReferences (s : SamFile) (record : SamRecord)
    (hsel : s.myRefID = REF_ID_ALL) :
    checkRecordInSection s record = (true, s) := by
  simp [checkRecordInSection, hsel]

/-- C7 at a concrete input: with AllReferences and the stored bounds
`[100, 200)` in FullyContained mode, a record far outside is accepted. -/
theorem checkRecordInSection_allReferences_witness :
    (regionSession REF_ID_ALL 100 200 false).myRefID = REF_ID_ALL ∧
      checkRecordInSection (regionSession REF_ID_ALL 100 200 false) (recordSpan 7 900 950) =
        (true, regionSession REF_ID_ALL 100 200 false) :=
  ⟨rfl, checkRecordInSection_allReferences (regionSession REF_ID_ALL 100 200 false)
    (recordSpan 7 900 950) rfl⟩

/-! ## Reading records -/

theorem checkRecordInSection_cases (s : SamFile) (record : SamRecord) :
    checkRecordInSection s record = (true, s) ∨
      checkRecordInSection s record = (false, s) ∨
      checkRecordInSection s record = (false, { s with myStatus := Status.NO_MORE_RECS }) := by
  unfold checkRecordInSection
  split_ifs <;> simp

theorem readRecord_cons (itf : GenericSamInterface) (record : SamRecord) (st : Status)
    (r : SamRecord) (rest : List SamRecord) (hready : Ready itf)
    (hpend : itf.pending = r :: rest) :
    (itf.readRecord record st).2 = (r, st) ∧
      (itf.readRecord record st).1.pending = rest ∧
      Ready (itf.readRecord record st).1 := by
  obtain ⟨fp, fmt, idx, itr, hdr, eof, recs⟩ := itf
  obtain ⟨hfp, heof⟩ := hready
  simp only at hfp
  subst hfp
  have heof2 : eof = false := by
    cases eof with
    | false => rfl
    | true => simp [hpend] at heof
  subst heof2
  cases idx <;> cases itr <;>
    simp_all [GenericSamInterface.readRecord, GenericSamInterface.pending, Ready]

theorem readRecord_nil (itf : GenericSamInterface) (record : SamRecord) (st : Status)
    (hfp : itf.fp_ = true) (hpend : itf.pending = []) :
    itf.readRecord record st = ({ itf with eof_ := true }, record, Status.NO_MORE_RECS) := by
  obtain ⟨fp, fmt, idx, itr, hdr, eof, recs⟩ := itf
  simp only at hfp
  subst hfp
  cases idx <;> cases itr <;>
    simp_all [GenericSamInterface.readRecord, GenericSamInterface.pending]

theorem checkRecordInSection_interface (s : SamFile) (x : Option GenericSamInterface)
    (record : SamRecord) :
    checkRecordInSection { s with myInterfacePtr := x } record =
      ((checkRecordInSection s record).1,
        { (checkRecordInSection s record).2 with myInterfacePtr := x }) := by
  unfold checkRecordInSection
  split_ifs <;> rfl

theorem readLoop_step (ops : StringOps) (header : SamFileHeader) (fuel : Nat) (s : SamFile)
    (record : SamRecord) (itf : GenericSamInterface) (r : SamRecord)
    (rest : List SamRecord) (hst : s.myStatus = Status.SUCCESS)
    (hitf : s.myInterfacePtr = some itf) (hready : Ready itf)
    (hpend : itf.pending = r :: rest) :
    readLoop ops header (fuel + 1) s record =
      if (checkRecordInSection
          { s with
            myInterfacePtr := some (itf.readRecord record Status.SUCCESS).1
            myStatus := Status.SUCCESS } r).1 = false then
        readLoop ops header fuel
          (checkRecordInSection
            { s with
              myInterfacePtr := some (itf.readRecord record Status.SUCCESS).1
              myStatus := Status.SUCCESS } r).2 r
      else if PassesFlags s r then
        some (Outcome.returned (validateSortOrder ops
            { s with
              myInterfacePtr := some (itf.readRecord record Status.SUCCESS).1
              myStatus := Status.SUCCESS
              myRecordCount := (s.myRecordCount + 1) % 4294967296 } r header).1,
          (validateSortOrder ops
            { s with
              myInterfacePtr := some (itf.readRecord record Status.SUCCESS).1
              myStatus := Status.SUCCESS
              myRecordCount := (s.myRecordCount + 1) % 4294967296 } r header).2, r)
      else
        readLoop ops header fuel
          { s with
            myInterfacePtr := some (itf.readRecord record Status.SUCCESS).1
            myStatus := Status.SUCCESS } r := by
  obtain ⟨h2, _, _⟩ := readRecord_cons itf record Status.SUCCESS r rest hready hpend
  have h21 : (itf.readRecord record Status.SUCCESS).2.1 = r := by rw [h2]
  have h22 : (itf.readRecord record Status.SUCCESS).2.2 = Status.SUCCESS := by rw [h2]
  rw [readLoop]
  simp only [hst, hitf, h21, h22, ne_eq, not_true_eq_false, if_false]
  rcases checkRecordInSection_cases
    { s with
      myInterfacePtr := some (itf.readRecord record Status.SUCCESS).1
      myStatus := Status.SUCCESS } r with hc | hc | hc
  · simp only [hc, PassesFlags]
    by_cases hreq : r.flag &&& s.myRequiredFlags = s.myRequiredFlags
    · by_cases hex : r.flag &&& s.myExcludedFlags = 0
      · simp [hreq, hex]
      · simp [hreq, hex]
    · simp [hreq]
  · simp [hc]
  · simp [hc]

theorem readLoop_next (ops : StringOps) (header : SamFileHeader) (fuel : Nat) (s : SamFile)
    (record : SamRecord) (itf : GenericSamInterface) (r : SamRecord)
    (rest : List SamRecord) (hst : s.myStatus = Status.SUCCESS)
    (hitf : s.myInterfacePtr = some itf) (hready : Ready itf)
    (hpend : itf.pending = r :: rest) :
    readLoop ops header (fuel + 1) s record =
      if (checkRecordInSection s r).1 = false then
        readLoop ops header fuel
          { (checkRecordInSection s r).2 with
            myInterfacePtr := some (itf.readRecord record Status.SUCCESS).1 } r
      else if PassesFlags s r then
        some (Outcome.returned (validateSortOrder ops
            { s with
              myInterfacePtr := some (itf.readRecord record Status.SUCCESS).1
              myRecordCount := (s.myRecordCount + 1) % 4294967296 } r header).1,
          (validateSortOrder ops
            { s with
              myInterfacePtr := some (itf.readRecord record Status.SUCCESS).1
              myRecordCount := (s.myRecordCount + 1) % 4294967296 } r header).2, r)
      else
        readLoop ops header fuel
          { s with myInterfacePtr := some (itf.readRecord record Status.SUCCESS).1 } r := by
  have e1 : { s with myInterfacePtr := some (itf.readRecord record Status.SUCCESS).1,
                     myStatus := Status.SUCCESS } =
      { s with myInterfacePtr := some (itf.readRecord record Status.SUCCESS).1 } := by
    rw [← hst]
  have e2 : { s with myInterfacePtr := some (itf.readRecord record Status.SUCCESS).1,
                     myStatus := Status.SUCCESS,
                     myRecordCount := (s.myRecordCount + 1) % 4294967296 } =
      { s with myInterfacePtr := some (itf.readRecord record Status.SUCCESS).1,
               myRecordCount := (s.myRecordCount + 1) % 4294967296 } := by
    rw [← hst]
  rw [readLoop_step ops header fuel s record itf r rest hst hitf hready hpend, e1, e2,
    checkRecordInSection_interface]

theorem readLoop_stopped (ops : StringOps) (header : SamFileHeader) (fuel : Nat)
    (s : SamFile) (record : SamRecord) (hst : s.myStatus ≠ Status.SUCCESS) :
    readLoop ops header (fuel + 1) s record = some (Outcome.returned false, s, record) := by
  rw [readLoop]
  simp [hst]

theorem readLoop_eof (ops : StringOps) (header : SamFileHeader) (fuel : Nat) (s : SamFile)
    (record : SamRecord) (itf : GenericSamInterface) (hst : s.myStatus = Status.SUCCESS)
    (hitf : s.myInterfacePtr = some itf) (hfp : itf.fp_ = true) (hpend : itf.pending = []) :
    readLoop ops header (fuel + 1) s record =
      some (Outcome.returned false,
        { s with
          myInterfacePtr := some { itf with eof_ := true }
          myStatus := Status.NO_MORE_RECS }, record) := by
  rw [readLoop]
  simp [hst, hitf, readRecord_nil itf record Status.SUCCESS hfp hpend]

theorem Accepts_interface (s : SamFile) (x : Option GenericSamInterface) (r : SamRecord) :
    Accepts { s with myInterfacePtr := x } r ↔ Accepts s r := by
  simp [Accepts, checkRecordInSection_interface]

theorem Skips_interface (s : SamFile) (x : Option GenericSamInterface) (r : SamRecord) :
    Skips { s with myInterfacePtr := x } r ↔ Skips s r := by
  simp [Skips, checkRecordInSection_interface]

theorem Terminates_interface (s : SamFile) (x : Option GenericSamInterface)
    (r : SamRecord) :
    Terminates { s with myInterfacePtr := x } r ↔ Terminates s r := by
  simp [Terminates, checkRecordInSection_interface]

theorem Dropped_interface (s : SamFile) (x : Option GenericSamInterface) (r : SamRecord) :
    Dropped { s with myInterfacePtr := x } r ↔ Dropped s r := by
  unfold Dropped
  rw [Skips_interface, Accepts_interface]
  rfl

theorem Skips_state (s : SamFile) (r : SamRecord) (h : Skips s r) :
    checkRecordInSection s r = (false, s) := by
  obtain ⟨h1, h2⟩ := h
  rcases checkRecordInSection_cases s r with hc | hc | hc
  · rw [hc] at h1; simp at h1
  · exact hc
  · rw [hc] at h2; simp at h2

theorem Terminates_state (s : SamFile) (r : SamRecord) (hst : s.myStatus = Status.SUCCESS)
    (h : Terminates s r) :
    checkRecordInSection s r = (false, { s with myStatus := Status.NO_MORE_RECS }) := by
  obtain ⟨h1, h2⟩ := h
  rcases checkRecordInSection_cases s r with hc | hc | hc
  · rw [hc] at h1; simp at h1
  · rw [hc] at h2; simp [hst] at h2
  · exact hc

theorem readLoop_drop (ops : StringOps) (header : SamFileHeader) (fuel : Nat) (s : SamFile)
    (record : SamRecord) (itf : GenericSamInterface) (r : SamRecord)
    (rest : List SamRecord) (hst : s.myStatus = Status.SUCCESS)
    (hitf : s.myInterfacePtr = some itf) (hready : Ready itf)
    (hpend : itf.pending = r :: rest) (hdrop : Dropped s r) :
    readLoop ops header (fuel + 1) s record =
      readLoop ops header fuel
        { s with myInterfacePtr := some (itf.readRecord record Status.SUCCESS).1 } r := by
  rw [readLoop_next ops header fuel s record itf r rest hst hitf hready hpend]
  rcases hdrop with hskip | ⟨hacc, hflags⟩
  · rw [Skips_state s r hskip]
    simp
  · unfold Accepts at hacc
    simp [hacc, hflags]

theorem readLoop_terminal (ops : StringOps) (header : SamFileHeader) (fuel : Nat)
    (s : SamFile) (record : SamRecord) (itf : GenericSamInterface) (r : SamRecord)
    (rest : List SamRecord) (hst : s.myStatus = Status.SUCCESS)
    (hitf : s.myInterfacePtr = some itf) (hready : Ready itf)
    (hpend : itf.pending = r :: rest) (hterm : Terminates s r) :
    readLoop ops header (fuel + 2) s record =
      some (Outcome.returned false,
        { s with
          myInterfacePtr := some (itf.readRecord record Status.SUCCESS).1
          myStatus := Status.NO_MORE_RECS }, r) := by
  rw [readLoop_next ops header (fuel + 1) s record itf r rest hst hitf hready hpend,
    Terminates_state s r hst hterm]
  simp only [if_true]
  rw [readLoop_stopped]
  simp

theorem readLoop_endOfStream_after (ops : StringOps) (header : SamFileHeader)
    (dropped : List SamRecord) :
    ∀ (s : SamFile) (record : SamRecord) (itf : GenericSamInterface) (fuel : Nat),
      s.myStatus = Status.SUCCESS → s.myInterfacePtr = some itf → Ready itf →
      (∀ x ∈ dropped, Dropped s x) → itf.pending = dropped → dropped.length < fuel →
      ∃ record1 itf1,
        readLoop ops header fuel s record =
          some (Outcome.returned false,
            { s with myInterfacePtr := some itf1, myStatus := Status.NO_MORE_RECS },
            record1) ∧
        itf1.pending = [] ∧ itf1.eof_ = true := by
  induction dropped with
  | nil =>
    intro s record itf fuel hst hitf hready _ hpend hfuel
    obtain ⟨n, rfl⟩ : ∃ n, fuel = n + 1 := ⟨fuel - 1, by simp at hfuel; omega⟩
    refine ⟨record, { itf with eof_ := true }, ?_, ?_, rfl⟩
    · exact readLoop_eof ops header n s record itf hst hitf hready.1 hpend
    · simpa [GenericSamInterface.pending] using hpend
  | cons r rest ih =>
    intro s record itf fuel hst hitf hready hdrop hpend hfuel
    obtain ⟨n, rfl⟩ : ∃ n, fuel = n + 1 := ⟨fuel - 1, by simp at hfuel; omega⟩
    obtain ⟨_, hp1, hr1⟩ := readRecord_cons itf record Status.SUCCESS r rest hready hpend
    rw [readLoop_drop ops header n s record itf r rest hst hitf hready hpend
      (hdrop r (List.mem_cons_self _ _))]
    obtain ⟨record1, itf1, h1, h2, h3⟩ :=
      ih { s with myInterfacePtr := some (itf.readRecord record Status.SUCCESS).1 } r
        (itf.readRecord record Status.SUCCESS).1 n hst rfl hr1
        (fun x hx => (Dropped_interface s _ x).mpr (hdrop x (List.mem_cons_of_mem _ hx)))
        hp1 (by simp at hfuel; omega)
    exact ⟨record1, itf1, h1, h2, h3⟩

theorem readLoop_terminal_after (ops : StringOps) (header : SamFileHeader)
    (dropped : List SamRecord) (t : SamRecord) (rest : List SamRecord) :
    ∀ (s : SamFile) (record : SamRecord) (itf : GenericSamInterface) (fuel : Nat),
      s.myStatus = Status.SUCCESS → s.myInterfacePtr = some itf → Ready itf →
      (∀ x ∈ dropped, Dropped s x) → Terminates s t →
      itf.pending = dropped ++ t :: rest → dropped.length + 1 < fuel →
      ∃ itf1,
        readLoop ops header fuel s record =
          some (Outcome.returned false,
            { s with myInterfacePtr := some itf1, myStatus := Status.NO_MORE_RECS }, t) ∧
        itf1.pending = rest := by
  induction dropped with
  | nil =>
    intro s record itf fuel hst hitf hready _ hterm hpend hfuel
    obtain ⟨n, rfl⟩ : ∃ n, fuel = n + 2 := ⟨fuel - 2, by simp at hfuel; omega⟩
    obtain ⟨_, hp1, _⟩ := readRecord_cons itf record Status.SUCCESS t rest hready hpend
    exact ⟨_, readLoop_terminal ops header n s record itf t rest hst hitf hready hpend hterm,
      hp1⟩
  | cons r more ih =>
    intro s record itf fuel hst hitf hready hdrop hterm hpend hfuel
    obtain ⟨n, rfl⟩ : ∃ n, fuel = n + 1 := ⟨fuel - 1, by simp at hfuel; omega⟩
    obtain ⟨_, hp1, hr1⟩ :=
      readRecord_cons itf record Status.SUCCESS r (more ++ t :: rest) hready hpend
    rw [readLoop_drop ops header n s record itf r (more ++ t :: rest) hst hitf hready hpend
      (hdrop r (List.mem_cons_self _ _))]
    obtain ⟨itf1, h1, h2⟩ :=
      ih { s with myInterfacePtr := some (itf.readRecord record Status.SUCCESS).1 } r
        (itf.readRecord record Status.SUCCESS).1 n hst rfl hr1
        (fun x hx => (Dropped_interface s _ x).mpr (hdrop x (List.mem_cons_of_mem _ hx)))
        ((Terminates_interface s _ t).mpr hterm) hp1 (by simp at hfuel; omega)
    exact ⟨itf1, h1, h2⟩

theorem readLoop_not_true (ops : StringOps) (header : SamFileHeader) (fuel : Nat)
    (s : SamFile) (record : SamRecord) (s1 : SamFile) (record1 : SamRecord)
    (hst : s.myStatus ≠ Status.SUCCESS) :
    readLoop ops header fuel s record ≠ some (Outcome.returned true, s1, record1) := by
  cases fuel with
  | zero => simp [readLoop]
  | succ n =>
    rw [readLoop_stopped ops header n s record hst]
    simp

theorem readLoop_true (ops : StringOps) (header : SamFileHeader) :
    ∀ (fuel : Nat) (s : SamFile) (record : SamRecord) (itf : GenericSamInterface)
      (s1 : SamFile) (record1 : SamRecord),
      s.myInterfacePtr = some itf → Ready itf →
      readLoop ops header fuel s record = some (Outcome.returned true, s1, record1) →
      s.myStatus = Status.SUCCESS ∧
        ∃ skipped rest itf1,
          itf.pending = skipped ++ record1 :: rest ∧ itf1.pending = rest ∧
          (∀ x ∈ skipped, Dropped s x) ∧ Accepts s record1 ∧ PassesFlags s record1 ∧
          validateSortOrder ops
            { s with
              myInterfacePtr := some itf1
              myRecordCount := (s.myRecordCount + 1) % 4294967296 } record1 header =
            (true, s1) := by
  intro fuel
  induction fuel with
  | zero =>
    intro s record itf s1 record1 _ _ h
    simp [readLoop] at h
  | succ n ih =>
    intro s record itf s1 record1 hitf hready h
    by_cases hst : s.myStatus = Status.SUCCESS
    swap
    · exact absurd h (readLoop_not_true ops header (n + 1) s record s1 record1 hst)
    refine ⟨hst, ?_⟩
    cases hp : itf.pending with
    | nil =>
      rw [readLoop_eof ops header n s record itf hst hitf hready.1 hp] at h
      simp at h
    | cons r rest0 =>
      obtain ⟨_, hp1, hr1⟩ := readRecord_cons itf record Status.SUCCESS r rest0 hready hp
      rw [readLoop_next ops header n s record itf r rest0 hst hitf hready hp] at h
      have hnext : ∀ (hd : Dropped s r),
          readLoop ops header n
            { s with myInterfacePtr := some (itf.readRecord record Status.SUCCESS).1 } r =
            some (Outcome.returned true, s1, record1) →
          ∃ skipped rest itf1,
            r :: rest0 = skipped ++ record1 :: rest ∧ itf1.pending = rest ∧
            (∀ x ∈ skipped, Dropped s x) ∧ Accepts s record1 ∧ PassesFlags s record1 ∧
            validateSortOrder ops
              { s with
                myInterfacePtr := some itf1
                myRecordCount := (s.myRecordCount + 1) % 4294967296 } record1 header =
              (true, s1) := by
        intro hd h2
        obtain ⟨_, skipped, rest, itf1, e1, e2, e3, e4, e5, e6⟩ :=
          ih _ r (itf.readRecord record Status.SUCCESS).1 s1 record1 rfl hr1 h2
        refine ⟨r :: skipped, rest, itf1, ?_, e2, ?_, (Accepts_interface s _ _).mp e4, e5, e6⟩
        · rw [← hp1, e1]; rfl
        · intro x hx
          rcases List.mem_cons.mp hx with hx | hx
          · rw [hx]; exact hd
          · exact (Dropped_interface s _ x).mp (e3 x hx)
      rcases checkRecordInSection_cases s r with hc | hc | hc
      · simp only [hc, Bool.true_eq_false, if_false] at h
        by_cases hfl : PassesFlags s r
        · simp only [hfl, if_true, Option.some.injEq, Prod.mk.injEq,
            Outcome.returned.injEq] at h
          obtain ⟨hv1, hv2, hrec⟩ := h
          subst hrec
          refine ⟨[], rest0, (itf.readRecord record Status.SUCCESS).1, rfl, hp1, ?_, ?_, hfl,
            ?_⟩
          · intro x hx; simp at hx
          · unfold Accepts; rw [hc]
          · exact Prod.ext hv1 hv2
        · simp only [hfl, if_false] at h
          exact hnext (Or.inr ⟨by unfold Accepts; rw [hc], hfl⟩) h
      · simp only [hc, if_true] at h
        refine hnext (Or.inl ⟨by rw [hc], ?_⟩) h
        rw [hc, hst]
        simp
      · simp only [hc, if_true] at h
        exact absurd h (readLoop_not_true ops header n _ r s1 record1 (by simp))

theorem checkRecordInSection_agree (s t : SamFile) (r : SamRecord) (h : SameQuery s t) :
    (checkRecordInSection s r).1 = (checkRecordInSection t r).1 ∧
      (checkRecordInSection s r).2.myStatus = (checkRecordInSection t r).2.myStatus := by
  obtain ⟨h1, h2, h3, h4, h5, _, _⟩ := h
  unfold checkRecordInSection
  simp only [h1, h2, h3, h4]
  split_ifs <;> simp [h5]

theorem checkRecordInSection_agree_verdict (s t : SamFile) (r : SamRecord)
    (h1 : s.myRefID = t.myRefID) (h2 : s.myStartPos = t.myStartPos)
    (h3 : s.myEndPos = t.myEndPos) (h4 : s.myOverlapSection = t.myOverlapSection) :
    (checkRecordInSection s r).1 = (checkRecordInSection t r).1 := by
  unfold checkRecordInSection
  simp only [h1, h2, h3, h4]
  split_ifs <;> rfl

theorem Dropped_agree (s t : SamFile) (r : SamRecord) (h : SameQuery s t)
    (hd : Dropped s r) : Dropped t r := by
  obtain ⟨c1, c2⟩ := checkRecordInSection_agree s t r h
  obtain ⟨_, _, _, _, _, h6, h7⟩ := h
  unfold Dropped Skips Accepts PassesFlags at *
  rw [← c1, ← c2, ← h6, ← h7]
  exact hd

theorem Accepts_agree (s t : SamFile) (r : SamRecord) (h : SameQuery s t)
    (ha : Accepts s r) : Accepts t r := by
  obtain ⟨c1, _⟩ := checkRecordInSection_agree s t r h
  unfold Accepts at *
  rw [← c1]
  exact ha

theorem PassesFlags_agree (s t : SamFile) (r : SamRecord) (h : SameQuery s t)
    (hp : PassesFlags s r) : PassesFlags t r := by
  obtain ⟨_, _, _, _, _, h6, h7⟩ := h
  unfold PassesFlags at *
  rw [← h6, ← h7]
  exact hp

theorem Dropped_not_terminal (s : SamFile) (r : SamRecord) (hd : Dropped s r) : ¬ Terminates s r := by
  rintro ⟨t1, t2⟩
  rcases hd with ⟨_, k2⟩ | ⟨a, _⟩
  · exact k2 t2
  · unfold Accepts at a
    rw [a] at t1
    simp at t1

theorem SameQuery_trans {s t u : SamFile} (h1 : SameQuery s t) (h2 : SameQuery t u) :
    SameQuery s u := by
  obtain ⟨a1, a2, a3, a4, a5, a6, a7⟩ := h1
  obtain ⟨b1, b2, b3, b4, b5, b6, b7⟩ := h2
  exact ⟨a1.trans b1, a2.trans b2, a3.trans b3, a4.trans b4, a5.trans b5, a6.trans b6,
    a7.trans b7⟩

theorem validateCoordinate_accept_query (s : SamFile) (r : SamRecord)
    (h : (validateCoordinate s r).1 = true) :
    SameQuery s (validateCoordinate s r).2 ∧
      (validateCoordinate s r).2.myInterfacePtr = s.myInterfacePtr := by
  unfold validateCoordinate SameQuery at *
  simp only at h ⊢
  split_ifs at h ⊢ <;> simp

theorem validateQueryName_accept_query (ops : StringOps) (s : SamFile) (r : SamRecord)
    (h : (validateQueryName ops s r).1 = true) :
    SameQuery s (validateQueryName ops s r).2 ∧
      (validateQueryName ops s r).2.myInterfacePtr = s.myInterfacePtr := by
  unfold validateQueryName SameQuery at *
  simp only at h ⊢
  split_ifs at h ⊢
  simp

theorem validateSortOrder_accept_query (ops : StringOps) (s : SamFile) (r : SamRecord)
    (header : SamFileHeader) (h : (validateSortOrder ops s r header).1 = true) :
    SameQuery s (validateSortOrder ops s r header).2 ∧
      (validateSortOrder ops s r header).2.myInterfacePtr = s.myInterfacePtr := by
  unfold validateSortOrder at h ⊢
  by_cases h0 : s.mySortedType = SortedType.UNSORTED
  · rw [if_pos h0]
    exact ⟨⟨rfl, rfl, rfl, rfl, rfl, rfl, rfl⟩, rfl⟩
  · simp only [h0, if_false] at h ⊢
    generalize hs1 : (if s.mySortedType = SortedType.FLAG then
        { s with mySortedType := getSortOrderFromHeader header } else s) = s1 at h ⊢
    have hq : SameQuery s s1 ∧ s1.myInterfacePtr = s.myInterfacePtr := by
      rw [← hs1]
      split_ifs <;> exact ⟨⟨rfl, rfl, rfl, rfl, rfl, rfl, rfl⟩, rfl⟩
    by_cases h1 : s1.mySortedType = SortedType.QUERY_NAME
    · simp only [h1, if_true] at h ⊢
      obtain ⟨q1, q2⟩ := validateQueryName_accept_query ops s1 r h
      exact ⟨SameQuery_trans hq.1 q1, q2.trans hq.2⟩
    · simp only [h1, if_false] at h ⊢
      obtain ⟨q1, q2⟩ := validateCoordinate_accept_query s1 r h
      exact ⟨SameQuery_trans hq.1 q1, q2.trans hq.2⟩

theorem processNewSection_frame (s : SamFile) (header : SamFileHeader) :
    (processNewSection s header).2.myInterfacePtr = s.myInterfacePtr ∧
      (processNewSection s header).2.mySortedType = s.mySortedType ∧
      (processNewSection s header).2.myPrevRefID = s.myPrevRefID ∧
      (processNewSection s header).2.myPrevCoord = s.myPrevCoord ∧
      (processNewSection s header).2.myPrevReadName = s.myPrevReadName ∧
      (processNewSection s header).2.myRequiredFlags = s.myRequiredFlags ∧
      (processNewSection s header).2.myExcludedFlags = s.myExcludedFlags ∧
      (processNewSection s header).2.myRecordCount = s.myRecordCount := by
  unfold processNewSection fetchChunks
  simp only
  split
  · simp
  · split_ifs <;> (try split) <;> simp

theorem ReadRecord_loop (ops : StringOps) (fuel : Nat) (s : SamFile)
    (header : SamFileHeader) (record : SamRecord) (hopen : s.myIsOpenForRead = true)
    (hhdr : s.myHasHeader = true) (hnew : s.myNewSection = false) :
    ReadRecord ops fuel s header record =
      readLoop ops header fuel { s with myStatus := Status.SUCCESS } record := by
  unfold ReadRecord
  simp [hopen, hhdr, hnew]

theorem ReadRecord_true_loop (ops : StringOps) (fuel : Nat) (s : SamFile)
    (header : SamFileHeader) (record : SamRecord) (s1 : SamFile) (record1 : SamRecord)
    (h : ReadRecord ops fuel s header record = some (Outcome.returned true, s1, record1)) :
    ∃ l : SamFile,
      readLoop ops header fuel l record = some (Outcome.returned true, s1, record1) ∧
      l.myInterfacePtr = s.myInterfacePtr ∧ l.mySortedType = s.mySortedType ∧
      l.myPrevRefID = s.myPrevRefID ∧ l.myPrevCoord = s.myPrevCoord ∧
      l.myPrevReadName = s.myPrevReadName ∧ l.myRequiredFlags = s.myRequiredFlags ∧
      l.myExcludedFlags = s.myExcludedFlags ∧ l.myRecordCount = s.myRecordCount := by
  unfold ReadRecord at h
  simp only at h
  split_ifs at h with h1 h2 h3
  · simp at h
  · simp at h
  · split at h
    · simp at h
    · split_ifs at h
      · split at h
        · rename_i hp
          have hf := processNewSection_frame { s with myStatus := Status.SUCCESS } header
          rw [hp] at hf
          exact ⟨_, h, hf⟩
        · rename_i out s2 hne heq
          simp only [Option.some.injEq, Prod.mk.injEq] at h
          obtain ⟨ho, hs, _⟩ := h
          subst ho hs
          exact absurd rfl hne
      · exact ⟨_, h, rfl, rfl, rfl, rfl, rfl, rfl, rfl, rfl⟩
  · exact ⟨_, h, rfl, rfl, rfl, rfl, rfl, rfl, rfl, rfl⟩

theorem Ready_streamOf (records : List SamRecord) : Ready (streamOf records) :=
  ⟨rfl, fun h => absurd h (by simp [streamOf])⟩

theorem readLoop_true_flags (ops : StringOps) (header : SamFileHeader) :
    ∀ (fuel : Nat) (s : SamFile) (record : SamRecord) (s1 : SamFile) (record1 : SamRecord),
      readLoop ops header fuel s record = some (Outcome.returned true, s1, record1) →
      PassesFlags s record1 := by
  intro fuel
  induction fuel with
  | zero =>
    intro s record s1 record1 h
    simp [readLoop] at h
  | succ n ih =>
    intro s record s1 record1 h
    rw [readLoop] at h
    split_ifs at h with h0
    · simp at h
    · split at h
      · simp at h
      · rename_i itf hitf
        simp only at h
        have hfr := checkRecordInSection_frame
          { s with myInterfacePtr := some (itf.readRecord record s.myStatus).1,
                   myStatus := (itf.readRecord record s.myStatus).2.2 }
          (itf.readRecord record s.myStatus).2.1
        have hreq : (checkRecordInSection
            { s with myInterfacePtr := some (itf.readRecord record s.myStatus).1,
                     myStatus := (itf.readRecord record s.myStatus).2.2 }
            (itf.readRecord record s.myStatus).2.1).2.myRequiredFlags = s.myRequiredFlags := by
          rw [hfr]
        have hexc : (checkRecordInSection
            { s with myInterfacePtr := some (itf.readRecord record s.myStatus).1,
                     myStatus := (itf.readRecord record s.myStatus).2.2 }
            (itf.readRecord record s.myStatus).2.1).2.myExcludedFlags = s.myExcludedFlags := by
          rw [hfr]
        have hback : ∀ t : SamFile, t.myRequiredFlags = s.myRequiredFlags →
            t.myExcludedFlags = s.myExcludedFlags →
            readLoop ops header n t (itf.readRecord record s.myStatus).2.1 =
              some (Outcome.returned true, s1, record1) → PassesFlags s record1 := by
          intro t e1 e2 ht
          have := ih t _ s1 record1 ht
          unfold PassesFlags at this ⊢
          rw [e1, e2] at this
          exact this
        split_ifs at h with h1 h2 h3 h4
        · simp at h
        · exact hback _ hreq hexc h
        · exact hback _ hreq hexc h
        · exact hback _ hreq hexc h
        · simp only [Option.some.injEq, Prod.mk.injEq] at h
          obtain ⟨_, _, hrec⟩ := h
          rw [← hrec]
          rw [hreq] at h3
          rw [hexc] at h4
          unfold PassesFlags
          exact ⟨not_not.mp h3, not_not.mp h4⟩

/-- C8: every record `ReadRecord` returns has all required flags and no
excluded flag; and a candidate that passed the containment check is admitted
(counted, validated and returned by this call) when its flags pass, and
otherwise dropped silently, the call going on as a call started after it. -/
theorem ReadRecord_flagFilter (ops : StringOps) (header : SamFileHeader) :
    (∀ (fuel : Nat) (s : SamFile) (record : SamRecord) (s1 : SamFile)
        (record1 : SamRecord),
        ReadRecord ops fuel s header record = some (Outcome.returned true, s1, record1) →
        PassesFlags s record1) ∧
      (∀ (fuel : Nat) (s : SamFile) (record : SamRecord) (itf : GenericSamInterface)
        (r : SamRecord) (rest : List SamRecord),
        s.myIsOpenForRead = true → s.myHasHeader = true → s.myNewSection = false →
        s.myInterfacePtr = some itf → Ready itf → itf.pending = r :: rest →
        Accepts s r →
        (PassesFlags s r →
          ReadRecord ops (fuel + 1) s header record =
            some (Outcome.returned (validateSortOrder ops
                { s with
                  myInterfacePtr := some (itf.readRecord record Status.SUCCESS).1
                  myStatus := Status.SUCCESS
                  myRecordCount := (s.myRecordCount + 1) % 4294967296 } r header).1,
              (validateSortOrder ops
                { s with
                  myInterfacePtr := some (itf.readRecord record Status.SUCCESS).1
                  myStatus := Status.SUCCESS
                  myRecordCount := (s.myRecordCount + 1) % 4294967296 } r header).2, r)) ∧
        (¬ PassesFlags s r →
          ReadRecord ops (fuel + 1) s header record =
            ReadRecord ops fuel
              { s with myInterfacePtr := some (itf.readRecord record Status.SUCCESS).1 }
              header r)) := by
  constructor
  · intro fuel s record s1 record1 h
    obtain ⟨l, hl, _, _, _, _, _, hreq, hexc, _⟩ :=
      ReadRecord_true_loop ops fuel s header record s1 record1 h
    have := readLoop_true_flags ops header fuel l record s1 record1 hl
    unfold PassesFlags at this ⊢
    rw [hreq, hexc] at this
    exact this
  · intro fuel s record itf r rest hopen hhdr hnew hitf hready hpend hacc
    have hacc2 : (checkRecordInSection { s with myStatus := Status.SUCCESS } r).1 = true := by
      rw [(checkRecordInSection_agree_verdict s { s with myStatus := Status.SUCCESS } r
        rfl rfl rfl rfl).symm]
      exact hacc
    rw [ReadRecord_loop ops (fuel + 1) s header record hopen hhdr hnew,
      readLoop_next ops header fuel { s with myStatus := Status.SUCCESS } record itf r rest
        rfl hitf hready hpend]
    constructor
    · intro hfl
      have hfl2 : PassesFlags { s with myStatus := Status.SUCCESS } r := hfl
      simp only [hacc2, Bool.true_eq_false, if_false, hfl2, if_true]
    · intro hfl
      have hfl2 : ¬ PassesFlags { s with myStatus := Status.SUCCESS } r := hfl
      simp only [hacc2, Bool.true_eq_false, if_false, hfl2]
      exact (ReadRecord_loop ops fuel
        { s with myInterfacePtr := some (itf.readRecord record Status.SUCCESS).1 }
        header r hopen hhdr hnew).symm

/-- C8 at the inputs of the specification: with required `0x2` and excluded
`0x4`, flag `0x3` passes and flag `0x6` does not, and a read over the two
candidates drops the first and returns the second. -/
theorem ReadRecord_flagFilter_witness :
    PassesFlags (readingSession REF_ID_ALL (-1) (-1) true 2 4 []) (recordFlagged 0 30 40 3) ∧
      ¬ PassesFlags (readingSession REF_ID_ALL (-1) (-1) true 2 4 [])
        (recordFlagged 0 10 20 6) ∧
      ∃ s1, ReadRecord asciiOps 2
          (readingSession REF_ID_ALL (-1) (-1) true 2 4
            [recordFlagged 0 10 20 6, recordFlagged 0 30 40 3])
          plainHeader (recordAt 0 0) =
        some (Outcome.returned true, s1, recordFlagged 0 30 40 3) :=
  ⟨⟨by decide, by decide⟩, fun h => absurd h.2 (by decide),
    ⟨_, (((ReadRecord_flagFilter asciiOps plainHeader).2 1
        (readingSession REF_ID_ALL (-1) (-1) true 2 4
          [recordFlagged 0 10 20 6, recordFlagged 0 30 40 3])
        (recordAt 0 0) (streamOf [recordFlagged 0 10 20 6, recordFlagged 0 30 40 3])
        (recordFlagged 0 10 20 6) [recordFlagged 0 30 40 3] rfl rfl rfl rfl
        (Ready_streamOf _) rfl rfl).2 (fun h => absurd h.2 (by decide))).trans
      (((ReadRecord_flagFilter asciiOps plainHeader).2 0
        (readingSession REF_ID_ALL (-1) (-1) true 2 4 [recordFlagged 0 30 40 3])
        (recordFlagged 0 10 20 6) (streamOf [recordFlagged 0 30 40 3])
        (recordFlagged 0 30 40 3) [] rfl rfl rfl rfl
        (Ready_streamOf _) rfl rfl).1 ⟨by decide, by decide⟩)⟩⟩

/-- C9: when `ReadRecord` returns true over a backend that delivers its pending
records in order, the status is `SUCCESS`, the returned record is a pending
candidate, every candidate consumed before it was dropped by a containment
skip or a flag mismatch and none was terminally rejected, the returned record
passes the containment check and the flag filter, it is the last one consumed,
and `validateSortOrder` accepted it against the validator memory the call
started with. -/
theorem ReadRecord_true (ops : StringOps) (fuel : Nat) (s : SamFile)
    (header : SamFileHeader) (record : SamRecord) (itf : GenericSamInterface)
    (s1 : SamFile) (record1 : SamRecord) (hitf : s.myInterfacePtr = some itf)
    (hready : Ready itf)
    (h : ReadRecord ops fuel s header record = some (Outcome.returned true, s1, record1)) :
    s1.myStatus = Status.SUCCESS ∧
      ∃ skipped rest itf1 sv,
        itf.pending = skipped ++ record1 :: rest ∧
        s1.myInterfacePtr = some itf1 ∧ itf1.pending = rest ∧
        (∀ x ∈ skipped, Dropped s1 x ∧ ¬ Terminates s1 x) ∧
        Accepts s1 record1 ∧ PassesFlags s1 record1 ∧
        validateSortOrder ops sv record1 header = (true, s1) ∧
        sv.mySortedType = s.mySortedType ∧ sv.myPrevRefID = s.myPrevRefID ∧
        sv.myPrevCoord = s.myPrevCoord ∧ sv.myPrevReadName = s.myPrevReadName := by
  obtain ⟨l, hl, l1, l2, l3, l4, l5, _, _, _⟩ :=
    ReadRecord_true_loop ops fuel s header record s1 record1 h
  obtain ⟨hst, skipped, rest, itf1, e1, e2, e3, e4, e5, e6⟩ :=
    readLoop_true ops header fuel l record itf s1 record1 (l1.trans hitf) hready hl
  have hv : (validateSortOrder ops
      { l with myInterfacePtr := some itf1,
               myRecordCount := (l.myRecordCount + 1) % 4294967296 } record1 header).1
      = true := by rw [e6]
  obtain ⟨q1, q2⟩ := validateSortOrder_accept_query ops _ record1 header hv
  rw [e6] at q1 q2
  have hq : SameQuery l s1 :=
    SameQuery_trans ⟨rfl, rfl, rfl, rfl, rfl, rfl, rfl⟩ q1
  refine ⟨hq.2.2.2.2.1.symm.trans hst, skipped, rest, itf1, _, e1, q2, e2, ?_,
    Accepts_agree l s1 record1 hq e4, PassesFlags_agree l s1 record1 hq e5, e6, l2, l3, l4,
    l5⟩
  intro x hx
  have hd := Dropped_agree l s1 x hq (e3 x hx)
  exact ⟨hd, Dropped_not_terminal s1 x hd⟩

/-- C9 at a concrete input: region `[100, 200)` on reference 1, required flag
`0x2`, excluded flag `0x4`; the first candidate ends before the region, the
second carries an excluded flag, the third is returned and the fourth stays
pending. -/
theorem ReadRecord_true_witness :
    ReadRecord asciiOps 3
        (readingSession 1 100 200 true 2 4
          [recordFlagged 1 90 99 3, recordFlagged 1 150 160 6, recordFlagged 1 150 160 3,
            recordFlagged 1 170 180 3])
        plainHeader (recordAt 0 0) =
        some (Outcome.returned true,
          { readingSession 1 100 200 true 2 4 [recordFlagged 1 170 180 3] with
            myRecordCount := 1 },
          recordFlagged 1 150 160 3) ∧
      ({ readingSession 1 100 200 true 2 4 [recordFlagged 1 170 180 3] with
          myRecordCount := 1 } : SamFile).myStatus = Status.SUCCESS :=
  ⟨rfl,
    (ReadRecord_true asciiOps 3
      (readingSession 1 100 200 true 2 4
        [recordFlagged 1 90 99 3, recordFlagged 1 150 160 6, recordFlagged 1 150 160 3,
          recordFlagged 1 170 180 3])
      plainHeader (recordAt 0 0)
      (streamOf [recordFlagged 1 90 99 3, recordFlagged 1 150 160 6,
        recordFlagged 1 150 160 3, recordFlagged 1 170 180 3])
      { readingSession 1 100 200 true 2 4 [recordFlagged 1 170 180 3] with
        myRecordCount := 1 }
      (recordFlagged 1 150 160 3) rfl (Ready_streamOf _) rfl).1⟩

/-- C10: on a session open for read with its header read and no region
pending, when every pending candidate up to some point is dropped (containment
skip or flag mismatch), `ReadRecord` returns false with status `NO_MORE_RECS`
and nothing else changed in the session but the backend, both when the stream
ends there (the backend is then at end of stream) and when the next candidate
is terminally rejected (the candidates after it all stay pending). -/
theorem ReadRecord_noMoreRecords (ops : StringOps) (s : SamFile) (header : SamFileHeader)
    (record : SamRecord) (itf : GenericSamInterface) (dropped : List SamRecord)
    (hopen : s.myIsOpenForRead = true) (hhdr : s.myHasHeader = true)
    (hnew : s.myNewSection = false) (hitf : s.myInterfacePtr = some itf)
    (hready : Ready itf)
    (hdrop : ∀ x ∈ dropped, Dropped { s with myStatus := Status.SUCCESS } x) :
    (itf.pending = dropped → ∀ fuel, dropped.length < fuel →
        ∃ record1 itf1,
          ReadRecord ops fuel s header record =
            some (Outcome.returned false,
              { s with myInterfacePtr := some itf1, myStatus := Status.NO_MORE_RECS },
              record1) ∧
          itf1.pending = [] ∧ itf1.eof_ = true) ∧
      (∀ t rest, Terminates { s with myStatus := Status.SUCCESS } t →
        itf.pending = dropped ++ t :: rest → ∀ fuel, dropped.length + 1 < fuel →
        ∃ itf1,
          ReadRecord ops fuel s header record =
            some (Outcome.returned false,
              { s with myInterfacePtr := some itf1, myStatus := Status.NO_MORE_RECS }, t) ∧
          itf1.pending = rest) := by
  constructor
  · intro hpend fuel hfuel
    rw [ReadRecord_loop ops fuel s header record hopen hhdr hnew]
    exact readLoop_endOfStream_after ops header dropped { s with myStatus := Status.SUCCESS }
      record itf fuel rfl hitf hready hdrop hpend hfuel
  · intro t rest hterm hpend fuel hfuel
    rw [ReadRecord_loop ops fuel s header record hopen hhdr hnew]
    exact readLoop_terminal_after ops header dropped t rest
      { s with myStatus := Status.SUCCESS } record itf fuel rfl hitf hready hdrop hterm hpend
      hfuel

/-- C10 at a concrete input: region `[100, 200)` on reference 1; after one
skipped candidate the candidate at 250 is terminally rejected, the call returns
false with `NO_MORE_RECS`, and the candidate behind it is still pending. -/
theorem ReadRecord_noMoreRecords_witness :
    ∃ itf1,
      ReadRecord asciiOps 3
          (readingSession 1 100 200 true 0 0
            [recordFlagged 1 90 99 0, recordFlagged 1 250 260 0, recordFlagged 1 150 160 0])
          plainHeader (recordAt 0 0) =
        some (Outcome.returned false,
          { readingSession 1 100 200 true 0 0
              [recordFlagged 1 90 99 0, recordFlagged 1 250 260 0, recordFlagged 1 150 160 0]
            with myInterfacePtr := some itf1, myStatus := Status.NO_MORE_RECS },
          recordFlagged 1 250 260 0) ∧
      itf1.pending = [recordFlagged 1 150 160 0] :=
  (ReadRecord_noMoreRecords asciiOps
    (readingSession 1 100 200 true 0 0
      [recordFlagged 1 90 99 0, recordFlagged 1 250 260 0, recordFlagged 1 150 160 0])
    plainHeader (recordAt 0 0)
    (streamOf [recordFlagged 1 90 99 0, recordFlagged 1 250 260 0, recordFlagged 1 150 160 0])
    [recordFlagged 1 90 99 0] rfl rfl rfl rfl (Ready_streamOf _)
    (fun x hx => by
      rw [List.mem_singleton.mp hx]
      exact Or.inl ⟨rfl, by decide⟩)).2
    (recordFlagged 1 250 260 0) [recordFlagged 1 150 160 0] ⟨rfl, rfl⟩ rfl 3 (by decide)

/-! ## Sort violations while reading -/

theorem validateCoordinate_verdict_agree (s t : SamFile) (r : SamRecord)
    (h2 : s.myPrevRefID = t.myPrevRefID) (h3 : s.myPrevCoord = t.myPrevCoord) :
    (validateCoordinate s r).1 = (validateCoordinate t r).1 := by
  unfold validateCoordinate
  simp only [h2, h3]
  split_ifs <;> simp_all

theorem validateQueryName_verdict_agree (ops : StringOps) (s t : SamFile) (r : SamRecord)
    (h4 : s.myPrevReadName = t.myPrevReadName) :
    (validateQueryName ops s r).1 = (validateQueryName ops t r).1 := by
  unfold validateQueryName
  simp only [h4]
  split_ifs <;> rfl

theorem validateSortOrder_verdict_agree (ops : StringOps) (s t : SamFile) (r : SamRecord)
    (header : SamFileHeader) (h1 : s.mySortedType = t.mySortedType)
    (h2 : s.myPrevRefID = t.myPrevRefID) (h3 : s.myPrevCoord = t.myPrevCoord)
    (h4 : s.myPrevReadName = t.myPrevReadName) :
    (validateSortOrder ops s r header).1 = (validateSortOrder ops t r header).1 := by
  unfold validateSortOrder
  by_cases h0 : s.mySortedType = SortedType.UNSORTED
  · have h0t : t.mySortedType = SortedType.UNSORTED := h1 ▸ h0
    rw [if_pos h0, if_pos h0t]
  · have h0t : ¬ t.mySortedType = SortedType.UNSORTED := h1 ▸ h0
    rw [if_neg h0, if_neg h0t]
    by_cases hf : s.mySortedType = SortedType.FLAG
    · have hft : t.mySortedType = SortedType.FLAG := h1 ▸ hf
      simp only [hf, hft, if_true]
      by_cases hq : getSortOrderFromHeader header = SortedType.QUERY_NAME
      · simp only [hq, if_true]
        exact validateQueryName_verdict_agree ops _ _ r h4
      · simp only [hq, if_false]
        exact validateCoordinate_verdict_agree _ _ r h2 h3
    · have hft : ¬ t.mySortedType = SortedType.FLAG := h1 ▸ hf
      simp only [hf, hft, if_false]
      by_cases hq : s.mySortedType = SortedType.QUERY_NAME
      · have hqt : t.mySortedType = SortedType.QUERY_NAME := h1 ▸ hq
        simp only [hq, hqt, if_true]
        exact validateQueryName_verdict_agree ops _ _ r h4
      · have hqt : ¬ t.mySortedType = SortedType.QUERY_NAME := h1 ▸ hq
        simp only [hq, hqt, if_false]
        exact validateCoordinate_verdict_agree _ _ r h2 h3

theorem validateCoordinate_reject_status (s : SamFile) (r : SamRecord)
    (h : (validateCoordinate s r).1 = false) :
    (validateCoordinate s r).2.myStatus = Status.INVALID_SORT ∧
      (validateCoordinate s r).2.myInterfacePtr = s.myInterfacePtr ∧
      (validateCoordinate s r).2.myRecordCount = s.myRecordCount := by
  unfold validateCoordinate at h ⊢
  simp only at h ⊢
  split_ifs at h ⊢ <;> simp

theorem validateQueryName_reject_status (ops : StringOps) (s : SamFile) (r : SamRecord)
    (h : (validateQueryName ops s r).1 = false) :
    (validateQueryName ops s r).2.myStatus = Status.INVALID_SORT ∧
      (validateQueryName ops s r).2.myInterfacePtr = s.myInterfacePtr ∧
      (validateQueryName ops s r).2.myRecordCount = s.myRecordCount := by
  unfold validateQueryName at h ⊢
  simp only at h ⊢
  split_ifs at h ⊢
  simp

theorem validateSortOrder_reject_status (ops : StringOps) (s : SamFile) (r : SamRecord)
    (header : SamFileHeader) (h : (validateSortOrder ops s r header).1 = false) :
    (validateSortOrder ops s r header).2.myStatus = Status.INVALID_SORT ∧
      (validateSortOrder ops s r header).2.myInterfacePtr = s.myInterfacePtr ∧
      (validateSortOrder ops s r header).2.myRecordCount = s.myRecordCount := by
  unfold validateSortOrder at h ⊢
  by_cases h0 : s.mySortedType = SortedType.UNSORTED
  · rw [if_pos h0] at h
    simp at h
  · simp only [h0, if_false] at h ⊢
    generalize hs1 : (if s.mySortedType = SortedType.FLAG then
        { s with mySortedType := getSortOrderFromHeader header } else s) = s1 at h ⊢
    have hq : s1.myInterfacePtr = s.myInterfacePtr ∧ s1.myRecordCount = s.myRecordCount := by
      rw [← hs1]
      split_ifs <;> exact ⟨rfl, rfl⟩
    by_cases h1 : s1.mySortedType = SortedType.QUERY_NAME
    · simp only [h1, if_true] at h ⊢
      obtain ⟨q1, q2, q3⟩ := validateQueryName_reject_status ops s1 r h
      exact ⟨q1, q2.trans hq.1, q3.trans hq.2⟩
    · simp only [h1, if_false] at h ⊢
      obtain ⟨q1, q2, q3⟩ := validateCoordinate_reject_status s1 r h
      exact ⟨q1, q2.trans hq.1, q3.trans hq.2⟩

theorem readLoop_admit_after (ops : StringOps) (header : SamFileHeader)
    (dropped : List SamRecord) (r : SamRecord) (rest : List SamRecord) :
    ∀ (s : SamFile) (record : SamRecord) (itf : GenericSamInterface) (fuel : Nat),
      s.myStatus = Status.SUCCESS → s.myInterfacePtr = some itf → Ready itf →
      (∀ x ∈ dropped, Dropped s x) → Accepts s r → PassesFlags s r →
      itf.pending = dropped ++ r :: rest → dropped.length < fuel →
      ∃ itf1,
        readLoop ops header fuel s record =
          some (Outcome.returned (validateSortOrder ops
              { s with
                myInterfacePtr := some itf1
                myRecordCount := (s.myRecordCount + 1) % 4294967296 } r header).1,
            (validateSortOrder ops
              { s with
                myInterfacePtr := some itf1
                myRecordCount := (s.myRecordCount + 1) % 4294967296 } r header).2, r) ∧
        itf1.pending = rest := by
  induction dropped with
  | nil =>
    intro s record itf fuel hst hitf hready _ hacc hfl hpend hfuel
    obtain ⟨n, rfl⟩ : ∃ n, fuel = n + 1 := ⟨fuel - 1, by simp at hfuel; omega⟩
    obtain ⟨_, hp1, _⟩ := readRecord_cons itf record Status.SUCCESS r rest hready hpend
    refine ⟨(itf.readRecord record Status.SUCCESS).1, ?_, hp1⟩
    rw [readLoop_next ops header n s record itf r rest hst hitf hready hpend]
    unfold Accepts at hacc
    simp [hacc, hfl]
  | cons d more ih =>
    intro s record itf fuel hst hitf hready hdrop hacc hfl hpend hfuel
    obtain ⟨n, rfl⟩ : ∃ n, fuel = n + 1 := ⟨fuel - 1, by simp at hfuel; omega⟩
    obtain ⟨_, hp1, hr1⟩ :=
      readRecord_cons itf record Status.SUCCESS d (more ++ r :: rest) hready hpend
    rw [readLoop_drop ops header n s record itf d (more ++ r :: rest) hst hitf hready hpend
      (hdrop d (List.mem_cons_self _ _))]
    obtain ⟨itf1, h1, h2⟩ :=
      ih { s with myInterfacePtr := some (itf.readRecord record Status.SUCCESS).1 } d
        (itf.readRecord record Status.SUCCESS).1 n hst rfl hr1
        (fun x hx => (Dropped_interface s _ x).mpr (hdrop x (List.mem_cons_of_mem _ hx)))
        ((Accepts_interface s _ r).mpr hacc) hfl hp1 (by simp at hfuel; omega)
    exact ⟨itf1, h1, h2⟩

/-- C11: on a session open for read with its header read and no region
pending, when the first pending candidate that passes the containment check
and the flag filter fails `validateSortOrder` against the validator memory of
the session, `ReadRecord` returns false with status `INVALID_SORT`, and the
candidates behind that one all stay pending. -/
theorem ReadRecord_invalidSort (ops : StringOps) (s : SamFile) (header : SamFileHeader)
    (record : SamRecord) (itf : GenericSamInterface) (dropped : List SamRecord)
    (r : SamRecord) (rest : List SamRecord)
    (hopen : s.myIsOpenForRead = true) (hhdr : s.myHasHeader = true)
    (hnew : s.myNewSection = false) (hitf : s.myInterfacePtr = some itf)
    (hready : Ready itf) (hpend : itf.pending = dropped ++ r :: rest)
    (hdrop : ∀ x ∈ dropped, Dropped { s with myStatus := Status.SUCCESS } x)
    (hacc : Accepts s r) (hfl : PassesFlags s r)
    (hviol : (validateSortOrder ops s r header).1 = false)
    (fuel : Nat) (hfuel : dropped.length < fuel) :
    ∃ s1 itf1,
      ReadRecord ops fuel s header record = some (Outcome.returned false, s1, r) ∧
      s1.myStatus = Status.INVALID_SORT ∧ s1.myInterfacePtr = some itf1 ∧
      itf1.pending = rest := by
  have hacc2 : Accepts { s with myStatus := Status.SUCCESS } r := by
    unfold Accepts at hacc ⊢
    rw [(checkRecordInSection_agree_verdict s { s with myStatus := Status.SUCCESS } r
      rfl rfl rfl rfl).symm]
    exact hacc
  obtain ⟨itf1, h1, h2⟩ := readLoop_admit_after ops header dropped r rest
    { s with myStatus := Status.SUCCESS } record itf fuel rfl hitf hready hdrop hacc2 hfl
    hpend hfuel
  have hv : (validateSortOrder ops
      { s with myStatus := Status.SUCCESS, myInterfacePtr := some itf1,
               myRecordCount := (s.myRecordCount + 1) % 4294967296 } r header).1 = false :=
    (validateSortOrder_verdict_agree ops
      { s with myStatus := Status.SUCCESS, myInterfacePtr := some itf1,
               myRecordCount := (s.myRecordCount + 1) % 4294967296 }
      s r header rfl rfl rfl rfl).trans hviol
  obtain ⟨q1, q2, _⟩ := validateSortOrder_reject_status ops _ r header hv
  refine ⟨_, itf1, ?_, q1, q2, h2⟩
  rw [ReadRecord_loop ops fuel s header record hopen hhdr hnew, h1]
  simp only [Option.some.injEq, Prod.mk.injEq, Outcome.returned.injEq, and_true]
  exact hv

/-- C11 at a concrete input: coordinate policy with memory `(0, 50)`; the first
candidate lies at position 10, so the read fails with `INVALID_SORT` and the
candidate at 60 stays pending. -/
theorem ReadRecord_invalidSort_witness :
    ∃ s1 itf1,
      ReadRecord asciiOps 1
          { readingSession REF_ID_ALL (-1) (-1) true 0 0
              [recordFlagged 0 10 20 0, recordFlagged 0 60 70 0] with
            mySortedType := SortedType.COORDINATE, myPrevCoord := 50 }
          plainHeader (recordAt 0 0) =
        some (Outcome.returned false, s1, recordFlagged 0 10 20 0) ∧
      s1.myStatus = Status.INVALID_SORT ∧ s1.myInterfacePtr = some itf1 ∧
      itf1.pending = [recordFlagged 0 60 70 0] :=
  ReadRecord_invalidSort asciiOps
    { readingSession REF_ID_ALL (-1) (-1) true 0 0
        [recordFlagged 0 10 20 0, recordFlagged 0 60 70 0] with
      mySortedType := SortedType.COORDINATE, myPrevCoord := 50 }
    plainHeader (recordAt 0 0)
    (streamOf [recordFlagged 0 10 20 0, recordFlagged 0 60 70 0]) []
    (recordFlagged 0 10 20 0) [recordFlagged 0 60 70 0] rfl rfl rfl rfl (Ready_streamOf _) rfl
    (fun x hx => absurd hx (List.not_mem_nil x)) rfl ⟨by decide, by decide⟩ rfl 1 (by decide)

/-- C12: `ReadRecord` on a session that is not open for read, or that has no
header, throws; the status is `FAIL_ORDER`, nothing else in the session (the
backend included) and nothing in the caller's record changes, and the outcome
is not a false return. -/
theorem ReadRecord_contract_violation (ops : StringOps) (fuel : Nat) (s : SamFile)
    (header : SamFileHeader) (record : SamRecord)
    (h : s.myIsOpenForRead = false ∨ s.myHasHeader = false) :
    ∃ what,
      ReadRecord ops fuel s header record =
        some (Outcome.threw what, { s with myStatus := Status.FAIL_ORDER }, record) ∧
      Outcome.threw what ≠ Outcome.returned false := by
  unfold ReadRecord
  by_cases h1 : s.myIsOpenForRead = false
  · exact ⟨"SOFTWARE BUG: trying to read a SAM/BAM record prior to opening the file.",
      by simp [h1], by simp⟩
  · have h2 : s.myHasHeader = false := h.resolve_left h1
    exact ⟨"SOFTWARE BUG: trying to read a SAM/BAM record prior to reading the header.",
      by simp [h1, h2], by simp⟩

/-- C12 at a concrete input: a newly constructed session is not open, and a
read on it throws with `FAIL_ORDER`. -/
theorem ReadRecord_contract_violation_witness :
    ∃ what,
      ReadRecord asciiOps 5 SamFile.new plainHeader (recordAt 0 0) =
        some (Outcome.threw what, { SamFile.new with myStatus := Status.FAIL_ORDER },
          recordAt 0 0) ∧
      Outcome.threw what ≠ Outcome.returned false :=
  ReadRecord_contract_violation asciiOps 5 SamFile.new plainHeader (recordAt 0 0)
    (Or.inl rfl)

/-! ## Writing records -/

theorem validateCoordinate_frame (s : SamFile) (r : SamRecord) :
    (validateCoordinate s r).2.myInterfacePtr = s.myInterfacePtr ∧
      (validateCoordinate s r).2.myRecordCount = s.myRecordCount ∧
      (validateCoordinate s r).2.myIsOpenForRead = s.myIsOpenForRead ∧
      (validateCoordinate s r).2.myIsOpenForWrite = s.myIsOpenForWrite ∧
      (validateCoordinate s r).2.myHasHeader = s.myHasHeader := by
  unfold validateCoordinate
  simp only
  split_ifs <;> simp

theorem validateQueryName_frame (ops : StringOps) (s : SamFile) (r : SamRecord) :
    (validateQueryName ops s r).2.myInterfacePtr = s.myInterfacePtr ∧
      (validateQueryName ops s r).2.myRecordCount = s.myRecordCount ∧
      (validateQueryName ops s r).2.myIsOpenForRead = s.myIsOpenForRead ∧
      (validateQueryName ops s r).2.myIsOpenForWrite = s.myIsOpenForWrite ∧
      (validateQueryName ops s r).2.myHasHeader = s.myHasHeader := by
  unfold validateQueryName
  simp only
  split_ifs <;> simp

theorem validateSortOrder_frame (ops : StringOps) (s : SamFile) (r : SamRecord)
    (header : SamFileHeader) :
    (validateSortOrder ops s r header).2.myInterfacePtr = s.myInterfacePtr ∧
      (validateSortOrder ops s r header).2.myRecordCount = s.myRecordCount ∧
      (validateSortOrder ops s r header).2.myIsOpenForRead = s.myIsOpenForRead ∧
      (validateSortOrder ops s r header).2.myIsOpenForWrite = s.myIsOpenForWrite ∧
      (validateSortOrder ops s r header).2.myHasHeader = s.myHasHeader := by
  unfold validateSortOrder
  by_cases h0 : s.mySortedType = SortedType.UNSORTED
  · rw [if_pos h0]
    exact ⟨rfl, rfl, rfl, rfl, rfl⟩
  · rw [if_neg h0]
    generalize hs1 : (if s.mySortedType = SortedType.FLAG then
        { s with mySortedType := getSortOrderFromHeader header } else s) = s1
    have hq : s1.myInterfacePtr = s.myInterfacePtr ∧ s1.myRecordCount = s.myRecordCount ∧
        s1.myIsOpenForRead = s.myIsOpenForRead ∧ s1.myIsOpenForWrite = s.myIsOpenForWrite ∧
        s1.myHasHeader = s.myHasHeader := by
      rw [← hs1]
      split_ifs <;> exact ⟨rfl, rfl, rfl, rfl, rfl⟩
    simp only
    by_cases h1 : s1.mySortedType = SortedType.QUERY_NAME
    · rw [if_pos h1]
      obtain ⟨q1, q2, q3, q4, q5⟩ := validateQueryName_frame ops s1 r
      exact ⟨q1.trans hq.1, q2.trans hq.2.1, q3.trans hq.2.2.1, q4.trans hq.2.2.2.1,
        q5.trans hq.2.2.2.2⟩
    · rw [if_neg h1]
      obtain ⟨q1, q2, q3, q4, q5⟩ := validateCoordinate_frame s1 r
      exact ⟨q1.trans hq.1, q2.trans hq.2.1, q3.trans hq.2.2.1, q4.trans hq.2.2.2.1,
        q5.trans hq.2.2.2.2⟩

/-- C13: `WriteRecord` on a session that is not open for write, or that has no
header, returns false with status `FAIL_ORDER`, makes no call on the backend
and changes nothing else in the session, so neither the record counter nor the
validator memory. -/
theorem WriteRecord_order (ops : StringOps) (ext : External) (s : SamFile)
    (header : SamFileHeader) (record : SamRecord)
    (h : s.myIsOpenForWrite = false ∨ s.myHasHeader = false) :
    (WriteRecord ops ext s header record).outcome = Outcome.returned false ∧
      (WriteRecord ops ext s header record).session =
        { s with myStatus := Status.FAIL_ORDER } ∧
      (WriteRecord ops ext s header record).calls = [] := by
  unfold WriteRecord
  by_cases h1 : s.myIsOpenForWrite = false
  · simp [h1]
  · have h2 : s.myHasHeader = false := h.resolve_left h1
    simp [h1, h2]

/-- C13 at a concrete input: a write on a newly constructed session. -/
theorem WriteRecord_order_witness :
    (WriteRecord asciiOps (scriptedExternal none none true true Status.SUCCESS true)
        SamFile.new plainHeader (recordAt 0 0)).outcome = Outcome.returned false ∧
      (WriteRecord asciiOps (scriptedExternal none none true true Status.SUCCESS true)
        SamFile.new plainHeader (recordAt 0 0)).session =
        { SamFile.new with myStatus := Status.FAIL_ORDER } ∧
      (WriteRecord asciiOps (scriptedExternal none none true true Status.SUCCESS true)
        SamFile.new plainHeader (recordAt 0 0)).calls = [] :=
  WriteRecord_order asciiOps (scriptedExternal none none true true Status.SUCCESS true)
    SamFile.new plainHeader (recordAt 0 0) (Or.inl rfl)

/-- C14: on a session open for write with its header written, a record that
`validateSortOrder` rejects makes `WriteRecord` return false with status
`INVALID_SORT`; no call is made on the backend, the backend state is the same
and the record counter is unchanged. -/
theorem WriteRecord_invalidSort (ops : StringOps) (ext : External) (s : SamFile)
    (header : SamFileHeader) (record : SamRecord)
    (hopen : s.myIsOpenForWrite = true) (hhdr : s.myHasHeader = true)
    (hviol : (validateSortOrder ops s record header).1 = false) :
    (WriteRecord ops ext s header record).outcome = Outcome.returned false ∧
      (WriteRecord ops ext s header record).session.myStatus = Status.INVALID_SORT ∧
      (WriteRecord ops ext s header record).calls = [] ∧
      (WriteRecord ops ext s header record).session.myInterfacePtr = s.myInterfacePtr ∧
      (WriteRecord ops ext s header record).session.myRecordCount = s.myRecordCount := by
  obtain ⟨f1, f2, _⟩ := validateSortOrder_frame ops s record header
  unfold WriteRecord
  simp only [hopen, hhdr, hviol, Bool.true_eq_false, if_false, Bool.not_false, if_true]
  exact ⟨trivial, trivial, trivial, f1, f2⟩

/-- C14 at a concrete input: coordinate policy, memory `(0, 50)`, record at
position 10. -/
theorem WriteRecord_invalidSort_witness :
    (WriteRecord asciiOps (scriptedExternal none none true true Status.SUCCESS true)
        { writingSession SortedType.COORDINATE with myPrevCoord := 50 } plainHeader
        (recordAt 0 10)).outcome = Outcome.returned false ∧
      (WriteRecord asciiOps (scriptedExternal none none true true Status.SUCCESS true)
        { writingSession SortedType.COORDINATE with myPrevCoord := 50 } plainHeader
        (recordAt 0 10)).session.myStatus = Status.INVALID_SORT ∧
      (WriteRecord asciiOps (scriptedExternal none none true true Status.SUCCESS true)
        { writingSession SortedType.COORDINATE with myPrevCoord := 50 } plainHeader
        (recordAt 0 10)).calls = [] :=
  have h := WriteRecord_invalidSort asciiOps
    (scriptedExternal none none true true Status.SUCCESS true)
    { writingSession SortedType.COORDINATE with myPrevCoord := 50 } plainHeader
    (recordAt 0 10) rfl rfl rfl
  ⟨h.1, h.2.1, h.2.2.1⟩

theorem WriteRecord_valid (ops : StringOps) (ext : External) (s : SamFile)
    (header : SamFileHeader) (record : SamRecord) (itf : GenericSamInterface)
    (hopen : s.myIsOpenForWrite = true) (hhdr : s.myHasHeader = true)
    (hvalid : (validateSortOrder ops s record header).1 = true)
    (hitf : s.myInterfacePtr = some itf) :
    WriteRecord ops ext s header record =
      if itf.writeRecord ext record = Status.SUCCESS then
        { outcome := Outcome.returned true,
          session :=
            { (validateSortOrder ops s record header).2 with
              myStatus := itf.writeRecord ext record
              myRecordCount :=
                ((validateSortOrder ops s record header).2.myRecordCount + 1) % 4294967296 },
          calls := [BackendCall.writeRecord record] }
      else
        { outcome := Outcome.returned false,
          session :=
            { (validateSortOrder ops s record header).2 with
              myStatus := itf.writeRecord ext record },
          calls := [BackendCall.writeRecord record] } := by
  obtain ⟨f1, _⟩ := validateSortOrder_frame ops s record header
  rw [hitf] at f1
  unfold WriteRecord
  simp only [hopen, hhdr, hvalid, Bool.true_eq_false, Bool.false_eq_true, if_false,
    Bool.not_true]
  split
  · rename_i hnone
    rw [f1] at hnone
    simp at hnone
  · rename_i itf1 hsome
    rw [f1] at hsome
    simp only [Option.some.injEq] at hsome
    subst hsome
    rfl

/-- C15: once the state checks and sort validation have passed, a backend write
that succeeds (file present, record converted, `sam_write1` succeeded) makes
`WriteRecord` return true with status `SUCCESS` and the counter one higher
(modulo 2^32, the counter being a `uint32_t`); a backend write that fails (no
file, or `sam_write1` failed) makes it return false with status `FAIL_IO` and
the same counter; any other failure of the interface returns false with the
status of the interface and the same counter. -/
theorem WriteRecord_backend (ops : StringOps) (ext : External) (s : SamFile)
    (header : SamFileHeader) (record : SamRecord) (itf : GenericSamInterface)
    (hopen : s.myIsOpenForWrite = true) (hhdr : s.myHasHeader = true)
    (hvalid : (validateSortOrder ops s record header).1 = true)
    (hitf : s.myInterfacePtr = some itf) :
    (itf.fp_ = true → ext.copyRecordBufferToHts record = Status.SUCCESS →
        ext.sam_write1 record = true →
        (WriteRecord ops ext s header record).outcome = Outcome.returned true ∧
        (WriteRecord ops ext s header record).session.myStatus = Status.SUCCESS ∧
        (WriteRecord ops ext s header record).session.myRecordCount =
          (s.myRecordCount + 1) % 4294967296 ∧
        (s.myRecordCount < 4294967295 →
          (WriteRecord ops ext s header record).session.myRecordCount =
            s.myRecordCount + 1) ∧
        (WriteRecord ops ext s header record).calls = [BackendCall.writeRecord record]) ∧
      (itf.fp_ = false ∨
          (ext.copyRecordBufferToHts record = Status.SUCCESS ∧
            ext.sam_write1 record = false) →
        (WriteRecord ops ext s header record).outcome = Outcome.returned false ∧
        (WriteRecord ops ext s header record).session.myStatus = Status.FAIL_IO ∧
        (WriteRecord ops ext s header record).session.myRecordCount = s.myRecordCount) ∧
      (itf.writeRecord ext record ≠ Status.SUCCESS →
        (WriteRecord ops ext s header record).outcome = Outcome.returned false ∧
        (WriteRecord ops ext s header record).session.myStatus =
          itf.writeRecord ext record ∧
        (WriteRecord ops ext s header record).session.myRecordCount = s.myRecordCount) := by
  obtain ⟨_, f2, _⟩ := validateSortOrder_frame ops s record header
  rw [WriteRecord_valid ops ext s header record itf hopen hhdr hvalid hitf]
  refine ⟨?_, ?_, ?_⟩
  · intro hfp hcopy hwrite
    have hw : itf.writeRecord ext record = Status.SUCCESS := by
      simp [GenericSamInterface.writeRecord, hfp, hcopy, hwrite]
    rw [if_pos hw]
    refine ⟨rfl, hw, ?_, ?_, rfl⟩
    · simp only [f2]
    · intro hlt
      simp only [f2]
      omega
  · intro hfail
    have hw : itf.writeRecord ext record = Status.FAIL_IO := by
      rcases hfail with hfp | ⟨hcopy, hwrite⟩
      · simp [GenericSamInterface.writeRecord, hfp]
      · by_cases hfp : itf.fp_ = true
        · simp [GenericSamInterface.writeRecord, hfp, hcopy, hwrite]
        · simp [GenericSamInterface.writeRecord, hfp]
    have hne : ¬ itf.writeRecord ext record = Status.SUCCESS := by rw [hw]; decide
    rw [if_neg hne]
    exact ⟨rfl, hw, f2⟩
  · intro hne
    rw [if_neg hne]
    exact ⟨rfl, rfl, f2⟩

/-- C15 at a concrete input: an unsorted write session with counter 0; the
write succeeds and the counter becomes 1. -/
theorem WriteRecord_backend_witness :
    (WriteRecord asciiOps (scriptedExternal none none true true Status.SUCCESS true)
        (writingSession SortedType.UNSORTED) plainHeader (recordAt 0 10)).outcome =
        Outcome.returned true ∧
      (WriteRecord asciiOps (scriptedExternal none none true true Status.SUCCESS true)
        (writingSession SortedType.UNSORTED) plainHeader (recordAt 0 10)).session.myStatus =
        Status.SUCCESS ∧
      (WriteRecord asciiOps (scriptedExternal none none true true Status.SUCCESS true)
        (writingSession SortedType.UNSORTED) plainHeader
        (recordAt 0 10)).session.myRecordCount = 0 + 1 :=
  have h := (WriteRecord_backend asciiOps
    (scriptedExternal none none true true Status.SUCCESS true)
    (writingSession SortedType.UNSORTED) plainHeader (recordAt 0 10) (streamOf [])
    rfl rfl rfl rfl).1 rfl rfl rfl
  ⟨h.1, h.2.1, h.2.2.2.1 (by decide)⟩

/-! ## Headers -/

theorem ReadHeader_order (ext : External) (s : SamFile) (header : SamFileHeader)
    (h : s.myIsOpenForRead = false ∨ s.myHasHeader = true) :
    ReadHeader ext s header =
      ({ outcome := Outcome.returned false,
         session := { s with myStatus := Status.FAIL_ORDER }, calls := [] }, header) := by
  unfold ReadHeader
  by_cases h1 : s.myIsOpenForRead = false
  · simp [h1]
  · have h2 : s.myHasHeader = true := h.resolve_left h1
    simp [h1, h2]

theorem WriteHeader_order (ext : External) (s : SamFile) (header : SamFileHeader)
    (h : s.myIsOpenForWrite = false ∨ s.myHasHeader = true) :
    WriteHeader ext s header =
      { outcome := Outcome.returned false,
        session := { s with myStatus := Status.FAIL_ORDER }, calls := [] } := by
  unfold WriteHeader
  by_cases h1 : s.myIsOpenForWrite = false
  · simp [h1]
  · have h2 : s.myHasHeader = true := h.resolve_left h1
    simp [h1, h2]

theorem ReadHeader_true (ext : External) (s : SamFile) (header : SamFileHeader)
    (h : (ReadHeader ext s header).1.outcome = Outcome.returned true) :
    (ReadHeader ext s header).1.session.myHasHeader = true := by
  unfold ReadHeader at h ⊢
  by_cases h1 : s.myIsOpenForRead = false
  · simp [h1] at h
  · by_cases h2 : s.myHasHeader = true
    · simp [h1, h2] at h
    · cases hp : s.myInterfacePtr with
      | none => simp [h1, h2, hp] at h
      | some itf =>
        have h1t : s.myIsOpenForRead = true := by simpa using h1
        have h2f : s.myHasHeader = false := by simpa using h2
        by_cases hr : (itf.readHeader ext header Status.SUCCESS).1 = true
        · simp [h1t, h2f, hp, hr]
        · simp [h1t, h2f, hp, hr] at h

theorem WriteHeader_true (ext : External) (s : SamFile) (header : SamFileHeader)
    (h : (WriteHeader ext s header).outcome = Outcome.returned true) :
    (WriteHeader ext s header).session.myHasHeader = true := by
  unfold WriteHeader at h ⊢
  by_cases h1 : s.myIsOpenForWrite = false
  · simp [h1] at h
  · by_cases h2 : s.myHasHeader = true
    · simp [h1, h2] at h
    · cases hp : s.myInterfacePtr with
      | none => simp [h1, h2, hp] at h
      | some itf =>
        have h1t : s.myIsOpenForWrite = true := by simpa using h1
        have h2f : s.myHasHeader = false := by simpa using h2
        by_cases hr : (itf.writeHeader ext header Status.SUCCESS).1 = true
        · simp [h1t, h2f, hp, hr]
        · simp [h1t, h2f, hp, hr] at h

/-- C16: `ReadHeader` (`WriteHeader`) returns false with status `FAIL_ORDER`,
without a call on the backend and with nothing else changed, when the session
is not open for read (write) or already has a header; when either returns true
the session has a header afterwards; so after a header call that returned true
every further `ReadHeader` or `WriteHeader` on that session returns false with
`FAIL_ORDER`. -/
theorem header_once (ext : External) (s : SamFile) (header : SamFileHeader) :
    ((s.myIsOpenForRead = false ∨ s.myHasHeader = true) →
        ReadHeader ext s header =
          ({ outcome := Outcome.returned false,
             session := { s with myStatus := Status.FAIL_ORDER }, calls := [] }, header)) ∧
      ((s.myIsOpenForWrite = false ∨ s.myHasHeader = true) →
        WriteHeader ext s header =
          { outcome := Outcome.returned false,
            session := { s with myStatus := Status.FAIL_ORDER }, calls := [] }) ∧
      ((ReadHeader ext s header).1.outcome = Outcome.returned true →
        (ReadHeader ext s header).1.session.myHasHeader = true ∧
        ∀ (ext2 : External) (header2 : SamFileHeader),
          (ReadHeader ext2 (ReadHeader ext s header).1.session header2).1.outcome =
              Outcome.returned false ∧
            (ReadHeader ext2 (ReadHeader ext s header).1.session
              header2).1.session.myStatus = Status.FAIL_ORDER ∧
            (WriteHeader ext2 (ReadHeader ext s header).1.session header2).outcome =
              Outcome.returned false ∧
            (WriteHeader ext2 (ReadHeader ext s header).1.session
              header2).session.myStatus = Status.FAIL_ORDER) ∧
      ((WriteHeader ext s header).outcome = Outcome.returned true →
        (WriteHeader ext s header).session.myHasHeader = true ∧
        ∀ (ext2 : External) (header2 : SamFileHeader),
          (WriteHeader ext2 (WriteHeader ext s header).session header2).outcome =
              Outcome.returned false ∧
            (WriteHeader ext2 (WriteHeader ext s header).session
              header2).session.myStatus = Status.FAIL_ORDER ∧
            (ReadHeader ext2 (WriteHeader ext s header).session header2).1.outcome =
              Outcome.returned false ∧
            (ReadHeader ext2 (WriteHeader ext s header).session
              header2).1.session.myStatus = Status.FAIL_ORDER) := by
  refine ⟨ReadHeader_order ext s header, WriteHeader_order ext s header, ?_, ?_⟩
  · intro h
    have hh := ReadHeader_true ext s header h
    refine ⟨hh, fun ext2 header2 => ?_⟩
    rw [ReadHeader_order ext2 _ header2 (Or.inr hh), WriteHeader_order ext2 _ header2 (Or.inr hh)]
    exact ⟨rfl, rfl, rfl, rfl⟩
  · intro h
    have hh := WriteHeader_true ext s header h
    refine ⟨hh, fun ext2 header2 => ?_⟩
    rw [ReadHeader_order ext2 _ header2 (Or.inr hh), WriteHeader_order ext2 _ header2 (Or.inr hh)]
    exact ⟨rfl, rfl, rfl, rfl⟩

/-- C16 at a concrete input: after `OpenForRead` without a header the first
`ReadHeader` returns true, the second returns false with `FAIL_ORDER`. -/
theorem header_once_witness :
    (ReadHeader goodExternal (OpenForRead goodExternal SamFile.new "in.bam" none).1.session
        plainHeader).1.outcome = Outcome.returned true ∧
      (ReadHeader goodExternal
        (ReadHeader goodExternal (OpenForRead goodExternal SamFile.new "in.bam" none).1.session
          plainHeader).1.session plainHeader).1.outcome = Outcome.returned false ∧
      (ReadHeader goodExternal
        (ReadHeader goodExternal (OpenForRead goodExternal SamFile.new "in.bam" none).1.session
          plainHeader).1.session plainHeader).1.session.myStatus = Status.FAIL_ORDER :=
  have h := ((header_once goodExternal
    (OpenForRead goodExternal SamFile.new "in.bam" none).1.session plainHeader).2.2.1
      rfl).2 goodExternal plainHeader
  ⟨rfl, h.1, h.2.1⟩

/-- C17: on a session open for write without a header, over a backend with its
file and no header yet, when `sam_hdr_parse` rejects the header text
`WriteHeader` returns false with status `FAIL_PARSE`, the session still has no
header and the backend still holds none. -/
theorem WriteHeader_parseError (ext : External) (s : SamFile) (header : SamFileHeader)
    (itf : GenericSamInterface) (hopen : s.myIsOpenForWrite = true)
    (hhdr : s.myHasHeader = false) (hitf : s.myInterfacePtr = some itf)
    (hfp : itf.fp_ = true) (hnone : itf.hdr_ = false)
    (hrej : ext.sam_hdr_parse (ext.getHeaderString header) = false) :
    (WriteHeader ext s header).outcome = Outcome.returned false ∧
      (WriteHeader ext s header).session.myStatus = Status.FAIL_PARSE ∧
      (WriteHeader ext s header).session.myHasHeader = false ∧
      (WriteHeader ext s header).session.myInterfacePtr = some itf := by
  have hw : itf.writeHeader ext header Status.SUCCESS = (false, itf, Status.FAIL_PARSE) := by
    simp [GenericSamInterface.writeHeader, hfp, hnone, hrej]
  unfold WriteHeader
  simp [hopen, hhdr, hitf, hw]

/-- C17 at a concrete input: a file opened for write, header text rejected. -/
theorem WriteHeader_parseError_witness :
    (WriteHeader rejectingExternal
        (OpenForWrite rejectingExternal SamFile.new "out.bam" none).session
        plainHeader).outcome = Outcome.returned false ∧
      (WriteHeader rejectingExternal
        (OpenForWrite rejectingExternal SamFile.new "out.bam" none).session
        plainHeader).session.myStatus = Status.FAIL_PARSE ∧
      (WriteHeader rejectingExternal
        (OpenForWrite rejectingExternal SamFile.new "out.bam" none).session
        plainHeader).session.myHasHeader = false :=
  have h := WriteHeader_parseError rejectingExternal
    (OpenForWrite rejectingExternal SamFile.new "out.bam" none).session plainHeader
    (GenericSamInterface.construct (some { format := HtsExactFormat.bam, records := [] }))
    rfl rfl rfl rfl rfl rfl
  ⟨h.1, h.2.1, h.2.2.1⟩

/-! ## Opening and closing -/

theorem finishOpenForRead_spec (ext : External) (s : SamFile) (itf : GenericSamInterface)
    (b : Bool) (header : Option SamFileHeader) :
    finishOpenForRead ext
        { resetFile s with myInterfacePtr := some itf, myIsOpenForRead := b } header =
      if itf.isEOF then
        ({ outcome := Outcome.returned Status.FAIL_IO.asBool,
           session := { resetFile s with myInterfacePtr := some itf, myIsOpenForRead := b },
           calls := [] }, header)
      else
        match header with
        | some h =>
          ((ReadHeader ext (openedForRead s itf) h).1,
            some (ReadHeader ext (openedForRead s itf) h).2)
        | none =>
          ({ outcome := Outcome.returned true, session := openedForRead s itf, calls := [] },
            none) := by
  unfold finishOpenForRead openedForRead
  by_cases he : itf.isEOF = true
  · simp [he]
  · by_cases hf : itf.format = HtsExactFormat.bam
    · cases header <;> simp [he, hf, resetFile]
    · cases header <;> simp [he, hf, resetFile]

theorem finishOpenForWrite_spec (ext : External) (s : SamFile) (itf : GenericSamInterface)
    (header : Option SamFileHeader) :
    finishOpenForWrite ext { resetFile s with myInterfacePtr := some itf } header =
      if itf.isEOF then
        { outcome := Outcome.returned Status.FAIL_IO.asBool,
          session := { resetFile s with myInterfacePtr := some itf }, calls := [] }
      else
        match header with
        | some h => WriteHeader ext (openedForWrite s itf) h
        | none =>
          { outcome := Outcome.returned true, session := openedForWrite s itf, calls := [] } := by
  unfold finishOpenForWrite openedForWrite
  by_cases he : itf.isEOF = true
  · simp [he]
  · cases header <;> simp [he, resetFile]

theorem OpenForRead_cases (ext : External) (s : SamFile) (filename : String) :
    (∀ header, OpenForRead ext s filename header =
        ({ outcome := Outcome.returned false,
           session := { resetFile s with myStatus := Status.FAIL_IO }, calls := [] },
          header)) ∨
      ∃ itf b, ∀ header, OpenForRead ext s filename header =
        finishOpenForRead ext
          { resetFile s with myInterfacePtr := some itf, myIsOpenForRead := b } header := by
  unfold OpenForRead
  simp only
  split_ifs
  · exact Or.inr ⟨_, true, fun _ => rfl⟩
  · exact Or.inr ⟨_, false, fun _ => rfl⟩
  · exact Or.inr ⟨_, false, fun _ => rfl⟩
  · exact Or.inl fun _ => rfl
  · exact Or.inr ⟨_, false, fun _ => rfl⟩

theorem OpenForWrite_cases (ext : External) (s : SamFile) (filename : String) :
    ∃ itf, ∀ header, OpenForWrite ext s filename header =
      finishOpenForWrite ext { resetFile s with myInterfacePtr := some itf } header := by
  unfold OpenForWrite
  simp only
  split_ifs <;> exact ⟨_, fun _ => rfl⟩

theorem finishOpenForRead_eof (ext : External) (s : SamFile) (itf : GenericSamInterface)
    (header : Option SamFileHeader) (hitf : s.myInterfacePtr = some itf)
    (heof : itf.isEOF = true) :
    finishOpenForRead ext s header =
      ({ outcome := Outcome.returned true, session := s, calls := [] }, header) := by
  unfold finishOpenForRead
  simp only [hitf, heof, if_true]
  rfl

theorem finishOpenForWrite_eof (ext : External) (s : SamFile) (itf : GenericSamInterface)
    (header : Option SamFileHeader) (hitf : s.myInterfacePtr = some itf)
    (heof : itf.isEOF = true) :
    finishOpenForWrite ext s header =
      { outcome := Outcome.returned true, session := s, calls := [] } := by
  unfold finishOpenForWrite
  simp only [hitf, heof, if_true]
  rfl

/-- C18 fails on the code: when `sam_open` gives no file, `OpenForRead` and
`OpenForWrite` end in `return SamStatus::FAIL_IO;`, which a `bool` function
returns as true, and the status is still the `SUCCESS` that `resetFile` stored;
for the name `-.bam` the session has moreover been marked open for read before
the test. -/
theorem OpenForRead_failed_open_reports_success :
    (OpenForRead noFileExternal SamFile.new "missing.bam" none).1.outcome =
        Outcome.returned true ∧
      (OpenForRead noFileExternal SamFile.new "missing.bam" none).1.session.myStatus =
        Status.SUCCESS ∧
      (OpenForRead noFileExternal SamFile.new "missing.bam" none).1.session.myIsOpenForRead =
        false ∧
      (OpenForWrite noFileExternal SamFile.new "missing.bam" none).outcome =
        Outcome.returned true ∧
      (OpenForWrite noFileExternal SamFile.new "missing.bam" none).session.myStatus =
        Status.SUCCESS ∧
      (OpenForRead noFileExternal SamFile.new "-.bam" none).1.outcome =
        Outcome.returned true ∧
      (OpenForRead noFileExternal SamFile.new "-.bam" none).1.session.myIsOpenForRead =
        true := by
  refine ⟨rfl, rfl, rfl, rfl, rfl, rfl, rfl⟩

/-- C19: when the backend an open creates is usable (not at end of stream),
`OpenForRead` with a header is `ReadHeader` on the freshly opened session and
`OpenForWrite` with a header is `WriteHeader` on it, result, session and calls
alike; without a header the open returns true and leaves the freshly opened
session, whose status is `SUCCESS` and which has no header. -/
theorem Open_header (ext : External) (s : SamFile) (filename : String)
    (itf : GenericSamInterface) :
    ((OpenForRead ext s filename none).1.session.myInterfacePtr = some itf →
        itf.isEOF = false →
        (∀ h, OpenForRead ext s filename (some h) =
          ((ReadHeader ext (openedForRead s itf) h).1,
            some (ReadHeader ext (openedForRead s itf) h).2)) ∧
        OpenForRead ext s filename none =
          ({ outcome := Outcome.returned true, session := openedForRead s itf,
             calls := [] }, none) ∧
        (openedForRead s itf).myStatus = Status.SUCCESS ∧
        (openedForRead s itf).myHasHeader = false) ∧
      ((OpenForWrite ext s filename none).session.myInterfacePtr = some itf →
        itf.isEOF = false →
        (∀ h, OpenForWrite ext s filename (some h) =
          WriteHeader ext (openedForWrite s itf) h) ∧
        OpenForWrite ext s filename none =
          { outcome := Outcome.returned true, session := openedForWrite s itf,
            calls := [] } ∧
        (openedForWrite s itf).myStatus = Status.SUCCESS ∧
        (openedForWrite s itf).myHasHeader = false) := by
  constructor
  · intro hcreated hok
    rcases OpenForRead_cases ext s filename with hfail | ⟨itf0, b, hc⟩
    · rw [hfail none] at hcreated
      simp [resetFile] at hcreated
    · have hnone := hc none
      rw [finishOpenForRead_spec] at hnone
      have hsame : itf0 = itf := by
        rw [hnone] at hcreated
        by_cases he : itf0.isEOF = true
        · simpa [he] using hcreated
        · simpa [he, openedForRead] using hcreated
      subst hsame
      have he : ¬ itf0.isEOF = true := by simp [hok]
      rw [if_neg he] at hnone
      refine ⟨fun h => ?_, hnone, rfl, rfl⟩
      rw [hc (some h), finishOpenForRead_spec, if_neg he]
  · intro hcreated hok
    obtain ⟨itf0, hc⟩ := OpenForWrite_cases ext s filename
    have hnone := hc none
    rw [finishOpenForWrite_spec] at hnone
    have hsame : itf0 = itf := by
      rw [hnone] at hcreated
      by_cases he : itf0.isEOF = true
      · simpa [he] using hcreated
      · simpa [he, openedForWrite] using hcreated
    subst hsame
    have he : ¬ itf0.isEOF = true := by simp [hok]
    rw [if_neg he] at hnone
    refine ⟨fun h => ?_, hnone, rfl, rfl⟩
    rw [hc (some h), finishOpenForWrite_spec, if_neg he]

/-- C19 at a concrete input: opening `in.bam` for read and `out.bam` for write
with a header, in an environment where the files open. -/
theorem Open_header_witness :
    OpenForRead goodExternal SamFile.new "in.bam" (some plainHeader) =
        ((ReadHeader goodExternal
            (openedForRead SamFile.new
              (GenericSamInterface.construct
                (some { format := HtsExactFormat.bam, records := [] }))) plainHeader).1,
          some (ReadHeader goodExternal
            (openedForRead SamFile.new
              (GenericSamInterface.construct
                (some { format := HtsExactFormat.bam, records := [] }))) plainHeader).2) ∧
      OpenForWrite goodExternal SamFile.new "out.bam" (some plainHeader) =
        WriteHeader goodExternal
          (openedForWrite SamFile.new
            (GenericSamInterface.construct
              (some { format := HtsExactFormat.bam, records := [] }))) plainHeader :=
  ⟨((Open_header goodExternal SamFile.new "in.bam"
      (GenericSamInterface.construct
        (some { format := HtsExactFormat.bam, records := [] }))).1 rfl rfl).1 plainHeader,
    ((Open_header goodExternal SamFile.new "out.bam"
      (GenericSamInterface.construct
        (some { format := HtsExactFormat.bam, records := [] }))).2 rfl rfl).1 plainHeader⟩

theorem ReadHeader_count (ext : External) (s : SamFile) (header : SamFileHeader) :
    (ReadHeader ext s header).1.session.myRecordCount = s.myRecordCount := by
  unfold ReadHeader
  simp only
  split_ifs
  · rfl
  · rfl
  · split
    · rfl
    · split_ifs <;> rfl

theorem WriteHeader_count (ext : External) (s : SamFile) (header : SamFileHeader) :
    (WriteHeader ext s header).session.myRecordCount = s.myRecordCount := by
  unfold WriteHeader
  simp only
  split_ifs
  · rfl
  · rfl
  · split
    · rfl
    · split_ifs <;> rfl

theorem OpenForRead_count (ext : External) (s : SamFile) (filename : String)
    (header : Option SamFileHeader) :
    (OpenForRead ext s filename header).1.session.myRecordCount = 0 := by
  rcases OpenForRead_cases ext s filename with hfail | ⟨itf, b, hc⟩
  · rw [hfail header]
    rfl
  · rw [hc header, finishOpenForRead_spec]
    split_ifs
    · rfl
    · cases header with
      | none => rfl
      | some h => exact ReadHeader_count ext (openedForRead s itf) h

theorem OpenForWrite_count (ext : External) (s : SamFile) (filename : String)
    (header : Option SamFileHeader) :
    (OpenForWrite ext s filename header).session.myRecordCount = 0 := by
  obtain ⟨itf, hc⟩ := OpenForWrite_cases ext s filename
  rw [hc header, finishOpenForWrite_spec]
  split_ifs
  · rfl
  · cases header with
    | none => rfl
    | some h => exact WriteHeader_count ext (openedForWrite s itf) h

/-- C20: `Close` twice is `Close` once; after `Close` the session is open in
neither direction, has no header, no backend, record counter 0, no chunks and
the reset validator memory; and every `OpenForRead` or `OpenForWrite` after a
`Close`, with or without a header, leaves the record counter at 0. -/
theorem Close_idempotent (s : SamFile) :
    Close (Close s) = Close s ∧
      (Close s).myIsOpenForRead = false ∧ (Close s).myIsOpenForWrite = false ∧
      (Close s).myHasHeader = false ∧ (Close s).myInterfacePtr = none ∧
      (Close s).myRecordCount = 0 ∧ (Close s).myChunksToRead = [] ∧
      (Close s).myPrevRefID = 0 ∧ (Close s).myPrevCoord = -1 ∧
      (Close s).myPrevReadName = "" ∧
      ∀ (ext : External) (filename : String) (header : Option SamFileHeader),
        (OpenForRead ext (Close s) filename header).1.session.myRecordCount = 0 ∧
        (OpenForWrite ext (Close s) filename header).session.myRecordCount = 0 :=
  ⟨rfl, rfl, rfl, rfl, rfl, rfl, rfl, rfl, rfl, rfl,
    fun ext filename header =>
      ⟨OpenForRead_count ext (Close s) filename header,
        OpenForWrite_count ext (Close s) filename header⟩⟩

/-! ## Open state and header state across the public operations -/

theorem SameOpen_trans {s t u : SamFile} (h1 : SameOpen s t) (h2 : SameOpen t u) :
    SameOpen s u :=
  ⟨h2.1.trans h1.1, h2.2.1.trans h1.2.1, h2.2.2.trans h1.2.2⟩

theorem checkRecordInSection_open (s : SamFile) (r : SamRecord) :
    SameOpen s (checkRecordInSection s r).2 := by
  rw [checkRecordInSection_frame]
  exact ⟨rfl, rfl, rfl⟩

theorem validateSortOrder_open (ops : StringOps) (s : SamFile) (r : SamRecord)
    (header : SamFileHeader) : SameOpen s (validateSortOrder ops s r header).2 := by
  obtain ⟨_, _, f3, f4, f5⟩ := validateSortOrder_frame ops s r header
  exact ⟨f3, f4, f5⟩

theorem processNewSection_open (s : SamFile) (header : SamFileHeader) :
    SameOpen s (processNewSection s header).2 := by
  unfold processNewSection fetchChunks SameOpen
  simp only
  split
  · simp
  · split_ifs <;> (try split) <;> simp

theorem readLoop_open (ops : StringOps) (header : SamFileHeader) :
    ∀ (fuel : Nat) (s : SamFile) (record : SamRecord) (out : Outcome) (s1 : SamFile)
      (record1 : SamRecord),
      readLoop ops header fuel s record = some (out, s1, record1) → SameOpen s s1 := by
  intro fuel
  induction fuel with
  | zero =>
    intro s record out s1 record1 h
    simp [readLoop] at h
  | succ n ih =>
    intro s record out s1 record1 h
    rw [readLoop] at h
    split_ifs at h with h0
    · simp only [Option.some.injEq, Prod.mk.injEq] at h
      rw [← h.2.1]
      exact ⟨rfl, rfl, rfl⟩
    · split at h
      · simp only [Option.some.injEq, Prod.mk.injEq] at h
        rw [← h.2.1]
        exact ⟨rfl, rfl, rfl⟩
      · rename_i itf hitf
        simp only at h
        have hc := checkRecordInSection_open
          { s with myInterfacePtr := some (itf.readRecord record s.myStatus).1,
                   myStatus := (itf.readRecord record s.myStatus).2.2 }
          (itf.readRecord record s.myStatus).2.1
        have hs : SameOpen s
            { s with myInterfacePtr := some (itf.readRecord record s.myStatus).1,
                     myStatus := (itf.readRecord record s.myStatus).2.2 } :=
          ⟨rfl, rfl, rfl⟩
        have hsc := SameOpen_trans hs hc
        split_ifs at h with h1 h2 h3 h4
        · simp only [Option.some.injEq, Prod.mk.injEq] at h
          rw [← h.2.1]
          exact hs
        · exact SameOpen_trans hsc (ih _ _ out s1 record1 h)
        · exact SameOpen_trans hsc (ih _ _ out s1 record1 h)
        · exact SameOpen_trans hsc (ih _ _ out s1 record1 h)
        · simp only [Option.some.injEq, Prod.mk.injEq] at h
          rw [← h.2.1]
          refine SameOpen_trans hsc (SameOpen_trans ?_ (validateSortOrder_open ops _ _ header))
          exact ⟨rfl, rfl, rfl⟩

theorem ReadRecord_open (ops : StringOps) (fuel : Nat) (s : SamFile)
    (header : SamFileHeader) (record : SamRecord) (out : Outcome) (s1 : SamFile)
    (record1 : SamRecord)
    (h : ReadRecord ops fuel s header record = some (out, s1, record1)) :
    SameOpen s s1 := by
  have hs : SameOpen s { s with myStatus := Status.SUCCESS } := ⟨rfl, rfl, rfl⟩
  unfold ReadRecord at h
  simp only at h
  split_ifs at h with h1 h2 h3
  · simp only [Option.some.injEq, Prod.mk.injEq] at h
    rw [← h.2.1]
    exact ⟨rfl, rfl, rfl⟩
  · simp only [Option.some.injEq, Prod.mk.injEq] at h
    rw [← h.2.1]
    exact ⟨rfl, rfl, rfl⟩
  · split at h
    · simp only [Option.some.injEq, Prod.mk.injEq] at h
      rw [← h.2.1]
      exact hs
    · have hp := processNewSection_open { s with myStatus := Status.SUCCESS } header
      split_ifs at h
      · split at h
        · rename_i heq
          rw [heq] at hp
          exact SameOpen_trans (SameOpen_trans hs hp) (readLoop_open ops header _ _ _ _ _ _ h)
        · rename_i out2 s2 hne heq
          rw [heq] at hp
          simp only [Option.some.injEq, Prod.mk.injEq] at h
          rw [← h.2.1]
          exact SameOpen_trans hs hp
      · exact SameOpen_trans hs (readLoop_open ops header _ _ _ _ _ _ h)
  · exact SameOpen_trans hs (readLoop_open ops header _ _ _ _ _ _ h)

theorem WriteRecord_open (ops : StringOps) (ext : External) (s : SamFile)
    (header : SamFileHeader) (record : SamRecord) :
    SameOpen s (WriteRecord ops ext s header record).session := by
  have hv := validateSortOrder_open ops s record header
  unfold WriteRecord
  simp only
  split_ifs <;> (try split) <;> (try split_ifs) <;>
    first
    | exact ⟨rfl, rfl, rfl⟩
    | exact ⟨hv.1, hv.2.1, hv.2.2⟩

theorem ReadHeader_open (ext : External) (s : SamFile) (header : SamFileHeader) :
    (ReadHeader ext s header).1.session.myIsOpenForRead = s.myIsOpenForRead ∧
      (ReadHeader ext s header).1.session.myIsOpenForWrite = s.myIsOpenForWrite ∧
      (s.myHasHeader = true → (ReadHeader ext s header).1.session.myHasHeader = true) ∧
      ((ReadHeader ext s header).1.session.myHasHeader = true →
        s.myHasHeader = true ∨ s.myIsOpenForRead = true) := by
  unfold ReadHeader
  by_cases h1 : s.myIsOpenForRead = false
  · simp [h1]
  · have h1t : s.myIsOpenForRead = true := by simpa using h1
    by_cases h2 : s.myHasHeader = true
    · simp [h1t, h2]
    · have h2f : s.myHasHeader = false := by simpa using h2
      cases hp : s.myInterfacePtr with
      | none => simp [h1t, h2f, hp]
      | some itf =>
        by_cases hr : (itf.readHeader ext header Status.SUCCESS).1 = true
        · simp [h1t, h2f, hp, hr]
        · simp [h1t, h2f, hp, hr]

theorem WriteHeader_open (ext : External) (s : SamFile) (header : SamFileHeader) :
    (WriteHeader ext s header).session.myIsOpenForRead = s.myIsOpenForRead ∧
      (WriteHeader ext s header).session.myIsOpenForWrite = s.myIsOpenForWrite ∧
      (s.myHasHeader = true → (WriteHeader ext s header).session.myHasHeader = true) ∧
      ((WriteHeader ext s header).session.myHasHeader = true →
        s.myHasHeader = true ∨ s.myIsOpenForWrite = true) := by
  unfold WriteHeader
  by_cases h1 : s.myIsOpenForWrite = false
  · simp [h1]
  · have h1t : s.myIsOpenForWrite = true := by simpa using h1
    by_cases h2 : s.myHasHeader = true
    · simp [h1t, h2]
    · have h2f : s.myHasHeader = false := by simpa using h2
      cases hp : s.myInterfacePtr with
      | none => simp [h1t, h2f, hp]
      | some itf =>
        by_cases hr : (itf.writeHeader ext header Status.SUCCESS).1 = true
        · simp [h1t, h2f, hp, hr]
        · simp [h1t, h2f, hp, hr]

theorem SetReadSection_open (rx : RegionExternal) (s : SamFile) (refID start endPos : Int)
    (overlap : Bool) : SameOpen s (SetReadSection rx s refID start endPos overlap).2 := by
  unfold SetReadSection
  simp only
  split_ifs <;> (try split) <;> exact ⟨rfl, rfl, rfl⟩

theorem SetReadSectionByName_open (rx : RegionExternal) (s : SamFile) (refName : String)
    (start endPos : Int) (overlap : Bool) :
    SameOpen s (SetReadSectionByName rx s refName start endPos overlap).2 := by
  unfold SetReadSectionByName
  simp only
  split_ifs <;> (try split) <;> exact ⟨rfl, rfl, rfl⟩

theorem OpenForRead_open (ext : External) (s : SamFile) (filename : String)
    (header : Option SamFileHeader) :
    (OpenForRead ext s filename header).1.session.myIsOpenForWrite = false ∧
      ((OpenForRead ext s filename header).1.session.myHasHeader = true →
        (OpenForRead ext s filename header).1.session.myIsOpenForRead = true) := by
  rcases OpenForRead_cases ext s filename with hfail | ⟨itf, b, hc⟩
  · rw [hfail header]
    exact ⟨rfl, fun h => by simp [resetFile] at h⟩
  · rw [hc header, finishOpenForRead_spec]
    split_ifs
    · exact ⟨rfl, fun h => by simp [resetFile] at h⟩
    · cases header with
      | none => exact ⟨rfl, fun _ => rfl⟩
      | some h =>
        obtain ⟨r1, r2, _, _⟩ := ReadHeader_open ext (openedForRead s itf) h
        exact ⟨r2, fun _ => r1⟩

theorem OpenForWrite_open (ext : External) (s : SamFile) (filename : String)
    (header : Option SamFileHeader) :
    (OpenForWrite ext s filename header).session.myIsOpenForRead = false ∧
      ((OpenForWrite ext s filename header).session.myHasHeader = true →
        (OpenForWrite ext s filename header).session.myIsOpenForWrite = true) := by
  obtain ⟨itf, hc⟩ := OpenForWrite_cases ext s filename
  rw [hc header, finishOpenForWrite_spec]
  split_ifs
  · exact ⟨rfl, fun h => by simp [resetFile] at h⟩
  · cases header with
    | none => exact ⟨rfl, fun _ => rfl⟩
    | some h =>
      obtain ⟨r1, r2, _, _⟩ := WriteHeader_open ext (openedForWrite s itf) h
      exact ⟨r1, fun _ => r2⟩

theorem Reachable_invariant (s : SamFile) (h : Reachable s) :
    ¬ (s.myIsOpenForRead = true ∧ s.myIsOpenForWrite = true) ∧
      (s.myHasHeader = true → s.myIsOpenForRead = true ∨ s.myIsOpenForWrite = true) := by
  have same : ∀ a b : SamFile, SameOpen a b →
      (¬ (a.myIsOpenForRead = true ∧ a.myIsOpenForWrite = true) ∧
        (a.myHasHeader = true → a.myIsOpenForRead = true ∨ a.myIsOpenForWrite = true)) →
      ¬ (b.myIsOpenForRead = true ∧ b.myIsOpenForWrite = true) ∧
        (b.myHasHeader = true → b.myIsOpenForRead = true ∨ b.myIsOpenForWrite = true) := by
    intro a b hab hinv
    obtain ⟨e1, e2, e3⟩ := hab
    rw [e1, e2, e3]
    exact hinv
  induction h with
  | new => exact ⟨by decide, by decide⟩
  | openForRead ext s filename header _ _ =>
    obtain ⟨o1, o2⟩ := OpenForRead_open ext s filename header
    exact ⟨fun hb => by rw [o1] at hb; simp at hb, fun hh => Or.inl (o2 hh)⟩
  | openForWrite ext s filename header _ _ =>
    obtain ⟨o1, o2⟩ := OpenForWrite_open ext s filename header
    exact ⟨fun hb => by rw [o1] at hb; simp at hb, fun hh => Or.inr (o2 hh)⟩
  | readHeader ext s header _ ih =>
    obtain ⟨r1, r2, _, r4⟩ := ReadHeader_open ext s header
    rw [r1, r2]
    refine ⟨ih.1, fun hh => ?_⟩
    rcases r4 hh with hold | hopen
    · exact ih.2 hold
    · exact Or.inl hopen
  | writeHeader ext s header _ ih =>
    obtain ⟨r1, r2, _, r4⟩ := WriteHeader_open ext s header
    rw [r1, r2]
    refine ⟨ih.1, fun hh => ?_⟩
    rcases r4 hh with hold | hopen
    · exact ih.2 hold
    · exact Or.inr hopen
  | readRecord ops fuel s header record out s1 record1 _ hr ih =>
    exact same s s1 (ReadRecord_open ops fuel s header record out s1 record1 hr) ih
  | writeRecord ops ext s header record _ ih =>
    exact same s _ (WriteRecord_open ops ext s header record) ih
  | setReadSection rx s refID start endPos overlap _ ih =>
    exact same s _ (SetReadSection_open rx s refID start endPos overlap) ih
  | setReadSectionByName rx s refName start endPos overlap _ ih =>
    exact same s _ (SetReadSectionByName_open rx s refName start endPos overlap) ih
  | setSortedValidation s sortType _ ih => exact same s _ ⟨rfl, rfl, rfl⟩ ih
  | setReadFlags s requiredFlags excludedFlags _ ih => exact same s _ ⟨rfl, rfl, rfl⟩ ih
  | close s _ _ => exact ⟨by simp [Close, resetFile], by simp [Close, resetFile]⟩

/-- C21: in every session reachable from a newly constructed one through the
public operations, the session is never open for read and for write at once,
and after `Close` it is open in neither direction. -/
theorem open_exclusive (s : SamFile) (h : Reachable s) :
    ¬ (s.myIsOpenForRead = true ∧ s.myIsOpenForWrite = true) ∧
      (Close s).myIsOpenForRead = false ∧ (Close s).myIsOpenForWrite = false :=
  ⟨(Reachable_invariant s h).1, rfl, rfl⟩

/-- C21 at a concrete input: the session left by opening `in.bam` for read and
then `out.bam` for write. -/
theorem open_exclusive_witness :
    Reachable
        (OpenForWrite goodExternal
          (OpenForRead goodExternal SamFile.new "in.bam" none).1.session "out.bam"
          none).session ∧
      ¬ ((OpenForWrite goodExternal
            (OpenForRead goodExternal SamFile.new "in.bam" none).1.session "out.bam"
            none).session.myIsOpenForRead = true ∧
          (OpenForWrite goodExternal
            (OpenForRead goodExternal SamFile.new "in.bam" none).1.session "out.bam"
            none).session.myIsOpenForWrite = true) :=
  ⟨Reachable.openForWrite _ _ _ _ (Reachable.openForRead _ _ _ _ Reachable.new),
    (open_exclusive _
      (Reachable.openForWrite goodExternal
        (OpenForRead goodExternal SamFile.new "in.bam" none).1.session "out.bam" none
        (Reachable.openForRead goodExternal SamFile.new "in.bam" none Reachable.new))).1⟩

/-- C22: in every reachable session a header implies that the session is open;
and a session that has a header still has it after `ReadHeader`, `WriteHeader`,
`ReadRecord` (however it ends), `WriteRecord`, either `SetReadSection`,
`setSortedValidation` and `SetReadFlags`, while `Close` removes it. -/
theorem header_established (s : SamFile) (h : Reachable s) :
    (s.myHasHeader = true → s.myIsOpenForRead = true ∨ s.myIsOpenForWrite = true) ∧
      (s.myHasHeader = true →
        (∀ (ext : External) (header : SamFileHeader),
          (ReadHeader ext s header).1.session.myHasHeader = true) ∧
        (∀ (ext : External) (header : SamFileHeader),
          (WriteHeader ext s header).session.myHasHeader = true) ∧
        (∀ (ops : StringOps) (fuel : Nat) (header : SamFileHeader) (record : SamRecord)
          (out : Outcome) (s1 : SamFile) (record1 : SamRecord),
          ReadRecord ops fuel s header record = some (out, s1, record1) →
          s1.myHasHeader = true) ∧
        (∀ (ops : StringOps) (ext : External) (header : SamFileHeader) (record : SamRecord),
          (WriteRecord ops ext s header record).session.myHasHeader = true) ∧
        (∀ (rx : RegionExternal) (refID start endPos : Int) (overlap : Bool),
          (SetReadSection rx s refID start endPos overlap).2.myHasHeader = true) ∧
        (∀ (rx : RegionExternal) (refName : String) (start endPos : Int) (overlap : Bool),
          (SetReadSectionByName rx s refName start endPos overlap).2.myHasHeader = true) ∧
        (∀ sortType : SortedType, (setSortedValidation s sortType).myHasHeader = true) ∧
        (∀ requiredFlags excludedFlags : Nat,
          (SetReadFlags s requiredFlags excludedFlags).myHasHeader = true)) ∧
      (Close s).myHasHeader = false := by
  refine ⟨(Reachable_invariant s h).2, fun hh => ⟨?_, ?_, ?_, ?_, ?_, ?_, ?_, ?_⟩, rfl⟩
  · exact fun ext header => (ReadHeader_open ext s header).2.2.1 hh
  · exact fun ext header => (WriteHeader_open ext s header).2.2.1 hh
  · intro ops fuel header record out s1 record1 hr
    exact (ReadRecord_open ops fuel s header record out s1 record1 hr).2.2.trans hh
  · exact fun ops ext header record =>
      (WriteRecord_open ops ext s header record).2.2.trans hh
  · exact fun rx refID start endPos overlap =>
      (SetReadSection_open rx s refID start endPos overlap).2.2.trans hh
  · exact fun rx refName start endPos overlap =>
      (SetReadSectionByName_open rx s refName start endPos overlap).2.2.trans hh
  · exact fun _ => hh
  · exact fun _ _ => hh

/-- C22 at a concrete input: the session left by opening `in.bam` for read and
reading the header has a header and is open for read. -/
theorem header_established_witness :
    (ReadHeader goodExternal (OpenForRead goodExternal SamFile.new "in.bam" none).1.session
        plainHeader).1.session.myHasHeader = true ∧
      ((ReadHeader goodExternal (OpenForRead goodExternal SamFile.new "in.bam" none).1.session
          plainHeader).1.session.myIsOpenForRead = true ∨
        (ReadHeader goodExternal (OpenForRead goodExternal SamFile.new "in.bam" none).1.session
          plainHeader).1.session.myIsOpenForWrite = true) :=
  ⟨rfl,
    (header_established _
      (Reachable.readHeader goodExternal
        (OpenForRead goodExternal SamFile.new "in.bam" none).1.session plainHeader
        (Reachable.openForRead goodExternal SamFile.new "in.bam" none Reachable.new))).1 rfl⟩

/-! ## Setting the read section -/

theorem SetReadSection_closed (rx : RegionExternal) (s : SamFile) (refID start endPos : Int)
    (overlap : Bool) (h : s.myIsOpenForRead = false) :
    SetReadSection rx s refID start endPos overlap =
      (Outcome.returned false, { s with myStatus := Status.FAIL_ORDER }) := by
  unfold SetReadSection
  simp [h]

theorem SetReadSectionByName_closed (rx : RegionExternal) (s : SamFile) (refName : String)
    (start endPos : Int) (overlap : Bool) (h : s.myIsOpenForRead = false) :
    SetReadSectionByName rx s refName start endPos overlap =
      (Outcome.returned false, { s with myStatus := Status.FAIL_ORDER }) := by
  unfold SetReadSectionByName
  simp [h]

theorem SetReadSection_outcome (rx : RegionExternal) (s : SamFile) (refID start endPos : Int)
    (overlap : Bool) (itf : GenericSamInterface) (h : s.myIsOpenForRead = true)
    (hitf : s.myInterfacePtr = some itf) :
    (SetReadSection rx s refID start endPos overlap).1 =
        Outcome.returned (itf.setReadSection rx refID (if start = -1 then 0 else start)
          (if endPos = -1 then 2147483647 else endPos)).1 ∧
      (SetReadSection rx s refID start endPos overlap).2.myInterfacePtr =
        some (itf.setReadSection rx refID (if start = -1 then 0 else start)
          (if endPos = -1 then 2147483647 else endPos)).2 := by
  unfold SetReadSection
  simp [h, hitf]

theorem SetReadSectionByName_outcome (rx : RegionExternal) (s : SamFile) (refName : String)
    (start endPos : Int) (overlap : Bool) (itf : GenericSamInterface)
    (h : s.myIsOpenForRead = true) (hitf : s.myInterfacePtr = some itf) :
    (SetReadSectionByName rx s refName start endPos overlap).1 =
        Outcome.returned (itf.setReadSectionByName rx refName
          (if start = -1 then 0 else start)
          (wrapInt32 (if endPos = -1 then 4294967295 else endPos % 4294967296))).1 ∧
      (SetReadSectionByName rx s refName start endPos overlap).2.myInterfacePtr =
        some (itf.setReadSectionByName rx refName (if start = -1 then 0 else start)
          (wrapInt32 (if endPos = -1 then 4294967295 else endPos % 4294967296))).2 := by
  unfold SetReadSectionByName
  by_cases hn : refName = "" ∨ refName = "*"
  · simp [h, hitf, hn]
  · simp [h, hitf, hn]

theorem SetReadSectionByName_state (rx : RegionExternal) (s : SamFile) (refName : String)
    (start endPos : Int) (overlap : Bool) (itf : GenericSamInterface)
    (h : s.myIsOpenForRead = true) (hitf : s.myInterfacePtr = some itf)
    (hn : ¬ (refName = "" ∨ refName = "*")) :
    (SetReadSectionByName rx s refName start endPos overlap).2 =
      { s with
        myNewSection := true, myOverlapSection := overlap, myStartPos := start,
        myEndPos := endPos, myRefName := refName, myRefID := REF_ID_ALL,
        myChunksToRead := [], myCurrentChunkEnd := 0, myStatus := Status.SUCCESS,
        myPrevCoord := -1, myPrevRefID := 0, myPrevReadName := "",
        myInterfacePtr := some (itf.setReadSectionByName rx refName
          (if start = -1 then 0 else start)
          (wrapInt32 (if endPos = -1 then 4294967295 else endPos % 4294967296))).2 } := by
  unfold SetReadSectionByName
  simp [h, hitf, hn]

theorem SetReadSection_state (rx : RegionExternal) (s : SamFile) (refID start endPos : Int)
    (overlap : Bool) (itf : GenericSamInterface) (h : s.myIsOpenForRead = true)
    (hitf : s.myInterfacePtr = some itf) :
    (SetReadSection rx s refID start endPos overlap).2 =
      { s with
        myNewSection := true, myOverlapSection := overlap, myStartPos := start,
        myEndPos := endPos, myRefID := refID, myRefName := "",
        myChunksToRead := [], myCurrentChunkEnd := 0, myStatus := Status.SUCCESS,
        myPrevCoord := -1, myPrevRefID := 0, myPrevReadName := "",
        myInterfacePtr := some (itf.setReadSection rx refID
          (if start = -1 then 0 else start)
          (if endPos = -1 then 2147483647 else endPos)).2 } := by
  unfold SetReadSection
  simp [h, hitf]

theorem SetReadSectionByName_state_unmapped (rx : RegionExternal) (s : SamFile)
    (refName : String) (start endPos : Int) (overlap : Bool) (itf : GenericSamInterface)
    (h : s.myIsOpenForRead = true) (hitf : s.myInterfacePtr = some itf)
    (hn : refName = "" ∨ refName = "*") :
    { (SetReadSectionByName rx s refName start endPos overlap).2 with myRefName := "" } =
      { s with
        myNewSection := true, myOverlapSection := overlap, myStartPos := start,
        myEndPos := endPos, myRefID := REF_ID_UNMAPPED, myRefName := "",
        myChunksToRead := [], myCurrentChunkEnd := 0, myStatus := Status.SUCCESS,
        myPrevCoord := -1, myPrevRefID := 0, myPrevReadName := "",
        myInterfacePtr := some (itf.setReadSectionByName rx refName
          (if start = -1 then 0 else start)
          (wrapInt32 (if endPos = -1 then 4294967295 else endPos % 4294967296))).2 } := by
  unfold SetReadSectionByName
  simp [h, hitf, hn]

theorem setReadSection_false (rx : RegionExternal) (itf : GenericSamInterface)
    (ref_id beg endPos : Int) :
    (itf.setReadSection rx ref_id beg endPos).1 = false ↔
      (itf.idx_ = false ∨ rx.sam_itr_queryi ref_id beg endPos = none) := by
  unfold GenericSamInterface.setReadSection
  by_cases hi : itf.idx_ = true
  · cases hq : rx.sam_itr_queryi ref_id beg endPos <;> simp [hi, hq]
  · simp [hi]

/-- C23 as stated fails: on a session open for read whose backend has no index
loaded, `SetReadSection` returns false. -/
theorem SetReadSection_claim_counterexample :
    ¬ ((SetReadSection (scriptedRegion []) (readingSession REF_ID_ALL (-1) (-1) true 0 0 [])
          1 100 200 true).1 = Outcome.returned false ↔
        (readingSession REF_ID_ALL (-1) (-1) true 0 0 []).myIsOpenForRead = false) := by
  intro h
  have h2 := h.mp rfl
  simp [readingSession] at h2

/-- C23, amended: `SetReadSection`, by index and by name, returns false on a
session that is not open for read, with status `FAIL_ORDER` and nothing else
changed.  On a session open for read it returns what the backend says, which
is false exactly when the backend has no index loaded or gives no iterator for
the region, the status is `SUCCESS`, and the session holds the query of the
call with the chunk list empty, the validator memory reset and a region
pending: by index the reference index with the stored name cleared, by name
the name unresolved with the selector for all references, and for the empty
name and `*` the unmapped selector, with no name stored when none was stored
before. -/
theorem SetReadSection_result (rx : RegionExternal) (s : SamFile) (refID : Int)
    (refName : String) (start endPos : Int) (overlap : Bool) :
    (s.myIsOpenForRead = false →
        SetReadSection rx s refID start endPos overlap =
          (Outcome.returned false, { s with myStatus := Status.FAIL_ORDER }) ∧
        SetReadSectionByName rx s refName start endPos overlap =
          (Outcome.returned false, { s with myStatus := Status.FAIL_ORDER })) ∧
      (s.myIsOpenForRead = true → ∀ itf, s.myInterfacePtr = some itf →
        ((SetReadSection rx s refID start endPos overlap).1 = Outcome.returned false ↔
          (itf.idx_ = false ∨
            rx.sam_itr_queryi refID (if start = -1 then 0 else start)
              (if endPos = -1 then 2147483647 else endPos) = none)) ∧
        ((SetReadSectionByName rx s refName start endPos overlap).1 =
            Outcome.returned false ↔
          (itf.idx_ = false ∨
            rx.sam_itr_queryi (rx.bam_name2id refName) (if start = -1 then 0 else start)
              (wrapInt32 (if endPos = -1 then 4294967295 else endPos % 4294967296))
              = none)) ∧
        (SetReadSection rx s refID start endPos overlap).2.myStatus = Status.SUCCESS ∧
        (SetReadSectionByName rx s refName start endPos overlap).2.myStatus =
          Status.SUCCESS ∧
        (SetReadSection rx s refID start endPos overlap).2 =
          { s with
            myNewSection := true, myOverlapSection := overlap, myStartPos := start,
            myEndPos := endPos, myRefID := refID, myRefName := "",
            myChunksToRead := [], myCurrentChunkEnd := 0, myStatus := Status.SUCCESS,
            myPrevCoord := -1, myPrevRefID := 0, myPrevReadName := "",
            myInterfacePtr := some (itf.setReadSection rx refID
              (if start = -1 then 0 else start)
              (if endPos = -1 then 2147483647 else endPos)).2 } ∧
        (¬ (refName = "" ∨ refName = "*") →
          (SetReadSectionByName rx s refName start endPos overlap).2 =
            { s with
              myNewSection := true, myOverlapSection := overlap, myStartPos := start,
              myEndPos := endPos, myRefName := refName, myRefID := REF_ID_ALL,
              myChunksToRead := [], myCurrentChunkEnd := 0, myStatus := Status.SUCCESS,
              myPrevCoord := -1, myPrevRefID := 0, myPrevReadName := "",
              myInterfacePtr := some (itf.setReadSectionByName rx refName
                (if start = -1 then 0 else start)
                (wrapInt32 (if endPos = -1 then 4294967295 else endPos % 4294967296))).2 }) ∧
        ((refName = "" ∨ refName = "*") →
          { (SetReadSectionByName rx s refName start endPos overlap).2 with
              myRefName := "" } =
            { s with
              myNewSection := true, myOverlapSection := overlap, myStartPos := start,
              myEndPos := endPos, myRefID := REF_ID_UNMAPPED, myRefName := "",
              myChunksToRead := [], myCurrentChunkEnd := 0, myStatus := Status.SUCCESS,
              myPrevCoord := -1, myPrevRefID := 0, myPrevReadName := "",
              myInterfacePtr := some (itf.setReadSectionByName rx refName
                (if start = -1 then 0 else start)
                (wrapInt32 (if endPos = -1 then 4294967295 else endPos % 4294967296))).2 } ∧
          (s.myRefName = "" →
            (SetReadSectionByName rx s refName start endPos overlap).2.myRefName = ""))) := by
  constructor
  · intro h
    exact ⟨SetReadSection_closed rx s refID start endPos overlap h,
      SetReadSectionByName_closed rx s refName start endPos overlap h⟩
  · intro h itf hitf
    obtain ⟨o1, _⟩ := SetReadSection_outcome rx s refID start endPos overlap itf h hitf
    obtain ⟨n1, _⟩ := SetReadSectionByName_outcome rx s refName start endPos overlap itf h hitf
    refine ⟨?_, ?_, ?_, ?_, SetReadSection_state rx s refID start endPos overlap itf h hitf,
      fun hn => SetReadSectionByName_state rx s refName start endPos overlap itf h hitf hn,
      fun hn => ⟨SetReadSectionByName_state_unmapped rx s refName start endPos overlap itf
        h hitf hn, fun he => ?_⟩⟩
    · rw [o1, Outcome.returned.injEq]
      exact setReadSection_false rx itf _ _ _
    · rw [n1, Outcome.returned.injEq]
      exact setReadSection_false rx itf _ _ _
    · unfold SetReadSection
      simp [h, hitf]
    · unfold SetReadSectionByName
      by_cases hn : refName = "" ∨ refName = "*"
      · simp [h, hitf, hn]
      · simp [h, hitf, hn]
    · unfold SetReadSectionByName
      simp [h, hitf, hn, he]

/-- C23 at a concrete input: on a newly constructed session both calls return
false with `FAIL_ORDER`; on a session open for read over a backend with an
index the call by index returns true. -/
theorem SetReadSection_result_witness :
    SetReadSection (scriptedRegion []) SamFile.new 1 100 200 true =
        (Outcome.returned false, { SamFile.new with myStatus := Status.FAIL_ORDER }) ∧
      SetReadSectionByName (scriptedRegion []) SamFile.new "chr1" 100 200 true =
        (Outcome.returned false, { SamFile.new with myStatus := Status.FAIL_ORDER }) ∧
      ¬ (SetReadSection (scriptedRegion [])
          { readingSession REF_ID_ALL (-1) (-1) true 0 0 [] with
            myInterfacePtr := some (indexedStream []) } 1 100 200 true).1 =
        Outcome.returned false :=
  ⟨((SetReadSection_result (scriptedRegion []) SamFile.new 1 "chr1" 100 200 true).1 rfl).1,
    ((SetReadSection_result (scriptedRegion []) SamFile.new 1 "chr1" 100 200 true).1 rfl).2,
    fun h => absurd
      ((((SetReadSection_result (scriptedRegion [])
        { readingSession REF_ID_ALL (-1) (-1) true 0 0 [] with
          myInterfacePtr := some (indexedStream []) } 1 "chr1" 100 200 true).2 rfl
        (indexedStream []) rfl).1).mp h)
      (by simp [indexedStream, streamOf, scriptedRegion])⟩

/-- C24 fails on the code: `SetReadSection` by name with `*` stores the
unmapped selector but does not clear `myRefName`, so the unresolved name `chr1`
of the call before it is still stored, and `processNewSection` then resolves
the region to the reference of `chr1` (id 0) and not to the unmapped reads; the
call by index does clear the name. -/
theorem SetReadSectionByName_keeps_earlier_name :
    (SetReadSectionByName (scriptedRegion [])
        (SetReadSectionByName (scriptedRegion [])
          (indexedSession (some (scriptedIndex (some []))) []) "chr1" 100 200 true).2
        "*" (-1) (-1) true).2.myRefID = REF_ID_UNMAPPED ∧
      (SetReadSectionByName (scriptedRegion [])
        (SetReadSectionByName (scriptedRegion [])
          (indexedSession (some (scriptedIndex (some []))) []) "chr1" 100 200 true).2
        "*" (-1) (-1) true).2.myRefName = "chr1" ∧
      (processNewSection
        (SetReadSectionByName (scriptedRegion [])
          (SetReadSectionByName (scriptedRegion [])
            (indexedSession (some (scriptedIndex (some []))) []) "chr1" 100 200 true).2
          "*" (-1) (-1) true).2 (taggedHeader "")).2.myRefID = 0 ∧
      (SetReadSection (scriptedRegion [])
        (SetReadSectionByName (scriptedRegion [])
          (indexedSession (some (scriptedIndex (some []))) []) "chr1" 100 200 true).2
        REF_ID_UNMAPPED (-1) (-1) true).2.myRefName = "" := by
  refine ⟨rfl, rfl, ?_, rfl⟩
  decide

theorem setReadSection_file (rx : RegionExternal) (itf : GenericSamInterface)
    (ref_id beg endPos : Int) :
    SameFile itf (itf.setReadSection rx ref_id beg endPos).2 ∧
      (itf.idx_ = false → (itf.setReadSection rx ref_id beg endPos).2 = itf) := by
  unfold GenericSamInterface.setReadSection SameFile
  by_cases hi : itf.idx_ = true
  · simp [hi]
  · simp [hi]

theorem SameFile_trans {a b c : GenericSamInterface} (h1 : SameFile a b) (h2 : SameFile b c) :
    SameFile a c :=
  ⟨h2.1.trans h1.1, h2.2.1.trans h1.2.1, h2.2.2.1.trans h1.2.2.1,
    h2.2.2.2.1.trans h1.2.2.2.1, h2.2.2.2.2.trans h1.2.2.2.2⟩

theorem SectionCall_run_lazy (rx : RegionExternal) (c : SectionCall) (s : SamFile)
    (itf : GenericSamInterface) (hitf : s.myInterfacePtr = some itf) :
    (c.run rx s).myBamIndex = s.myBamIndex ∧
      (c.run rx s).myIsOpenForRead = s.myIsOpenForRead ∧
      (s.myIsOpenForRead = true →
        (c.run rx s).myChunksToRead = [] ∧ (c.run rx s).myNewSection = true) ∧
      ∃ itf1, (c.run rx s).myInterfacePtr = some itf1 ∧ SameFile itf itf1 ∧
        (itf.idx_ = false → itf1 = itf) := by
  cases c with
  | byIndex refID start endPos overlap =>
    unfold SectionCall.run SetReadSection
    by_cases ho : s.myIsOpenForRead = true
    · obtain ⟨f1, f2⟩ := setReadSection_file rx itf refID (if start = -1 then 0 else start)
        (if endPos = -1 then 2147483647 else endPos)
      simp only [ho, hitf, Bool.not_true, Bool.false_eq_true, if_false]
      exact ⟨by trivial, by trivial, fun _ => by simp, _, rfl, f1, f2⟩
    · have hf : s.myIsOpenForRead = false := by simpa using ho
      simp only [hf, Bool.not_false, if_true]
      exact ⟨by trivial, by trivial, fun h => by simp at h, itf, hitf,
        ⟨rfl, rfl, rfl, rfl, rfl⟩, fun _ => rfl⟩
  | byName refName start endPos overlap =>
    unfold SectionCall.run SetReadSectionByName GenericSamInterface.setReadSectionByName
    by_cases ho : s.myIsOpenForRead = true
    · obtain ⟨f1, f2⟩ := setReadSection_file rx itf (rx.bam_name2id refName)
        (if start = -1 then 0 else start)
        (wrapInt32 (if endPos = -1 then 4294967295 else endPos % 4294967296))
      by_cases hn : refName = "" ∨ refName = "*"
      · simp only [ho, hitf, hn, Bool.not_true, Bool.false_eq_true, if_false, if_true]
        exact ⟨by trivial, by trivial, fun _ => by simp, _, rfl, f1, f2⟩
      · simp only [ho, hitf, hn, Bool.not_true, Bool.false_eq_true, if_false]
        exact ⟨by trivial, by trivial, fun _ => by simp, _, rfl, f1, f2⟩
    · have hf : s.myIsOpenForRead = false := by simpa using ho
      simp only [hf, Bool.not_false, if_true]
      exact ⟨by trivial, by trivial, fun h => by simp at h, itf, hitf,
        ⟨rfl, rfl, rfl, rfl, rfl⟩, fun _ => rfl⟩

/-- C25 as stated fails: on a backend with an index loaded `SetReadSection`
replaces the iterator of the backend, so the backend is not what it was. -/
theorem SetReadSection_backend_counterexample :
    ¬ ((SetReadSection (scriptedRegion [recordAt 1 150]) (indexedReadingSession [recordAt 0 5])
          1 100 200 true).2.myInterfacePtr =
        (indexedReadingSession [recordAt 0 5]).myInterfacePtr) := by
  intro h
  have h2 := congrArg (Option.map GenericSamInterface.pending) h
  revert h2
  decide

theorem runSectionCalls_frame (rx : RegionExternal) (calls : List SectionCall) :
    ∀ (s : SamFile) (itf : GenericSamInterface), s.myInterfacePtr = some itf →
      (runSectionCalls rx s calls).myBamIndex = s.myBamIndex ∧
      (s.myIsOpenForRead = true → calls ≠ [] →
        (runSectionCalls rx s calls).myChunksToRead = [] ∧
        (runSectionCalls rx s calls).myNewSection = true) ∧
      ∃ itf1, (runSectionCalls rx s calls).myInterfacePtr = some itf1 ∧ SameFile itf itf1 ∧
        (itf.idx_ = false → itf1 = itf) := by
  induction calls with
  | nil =>
    intro s itf hitf
    exact ⟨rfl, fun _ h => absurd rfl h, itf, hitf, ⟨rfl, rfl, rfl, rfl, rfl⟩, fun _ => rfl⟩
  | cons c rest ih =>
    intro s itf hitf
    obtain ⟨c1, c2, c3, itf1, c4, c5, c6⟩ := SectionCall_run_lazy rx c s itf hitf
    obtain ⟨r1, r2, itf2, r4, r5, r6⟩ := ih (c.run rx s) itf1 c4
    refine ⟨r1.trans c1, fun ho _ => ?_, itf2, r4, SameFile_trans c5 r5, fun hi => ?_⟩
    · cases rest with
      | nil => exact c3 ho
      | cons d more => exact r2 (c2.trans ho) (by simp)
    · have e1 := c6 hi
      rw [e1] at r6
      exact r6 hi

theorem setReadSection_indexed (rx : RegionExternal) (itf : GenericSamInterface)
    (ref_id beg endPos : Int) (hi : itf.idx_ = true) :
    (itf.setReadSection rx ref_id beg endPos).2 =
      { itf with eof_ := false, itr_ := rx.sam_itr_queryi ref_id beg endPos } := by
  unfold GenericSamInterface.setReadSection
  simp [hi]

theorem SectionCall_run_indexed (rx : RegionExternal) (c : SectionCall) (s : SamFile)
    (itf : GenericSamInterface) (hitf : s.myInterfacePtr = some itf)
    (hopen : s.myIsOpenForRead = true) (hi : itf.idx_ = true) :
    (c.run rx s).myInterfacePtr = some { itf with eof_ := false, itr_ := c.query rx } := by
  cases c with
  | byIndex refID start endPos overlap =>
    unfold SectionCall.run SectionCall.query
    rw [(SetReadSection_outcome rx s refID start endPos overlap itf hopen hitf).2,
      setReadSection_indexed rx itf _ _ _ hi]
  | byName refName start endPos overlap =>
    unfold SectionCall.run SectionCall.query
    rw [(SetReadSectionByName_outcome rx s refName start endPos overlap itf hopen hitf).2]
    unfold GenericSamInterface.setReadSectionByName
    rw [setReadSection_indexed rx itf _ _ _ hi]

theorem runSectionCalls_indexed (rx : RegionExternal) (calls : List SectionCall) :
    ∀ (s : SamFile) (itf : GenericSamInterface), s.myInterfacePtr = some itf →
      s.myIsOpenForRead = true → itf.idx_ = true →
      ∀ c, calls.getLast? = some c →
        (runSectionCalls rx s calls).myInterfacePtr =
          some { itf with eof_ := false, itr_ := c.query rx } := by
  induction calls with
  | nil =>
    intro s itf _ _ _ c hc
    simp at hc
  | cons d rest ih =>
    intro s itf hitf hopen hi c hc
    have h1 := SectionCall_run_indexed rx d s itf hitf hopen hi
    cases rest with
    | nil =>
      simp only [List.getLast?_singleton, Option.some.injEq] at hc
      rw [← hc]
      exact h1
    | cons e more =>
      rw [List.getLast?_cons_cons] at hc
      have h2 := ih (d.run rx s) { itf with eof_ := false, itr_ := d.query rx } h1
        ((SectionCall_run_lazy rx d s itf hitf).2.1.trans hopen) hi c hc
      exact h2

/-- C25, amended: a series of `SetReadSection` calls with nothing in between
leaves the index of the session (`myBamIndex`) as it was and does not ask it
for chunks: when the session is open for read and a call was made, the chunk
list is empty and a new region is pending, so the chunks are fetched by the
next `ReadRecord`.  Of the backend the file, format, index, header and
sequential records stay as they were; a backend without an index is left
entirely unchanged, while a backend with an index, on a session open for read,
is asked for an iterator by each call: after the series it is the backend it
was with its end-of-stream mark cleared and its iterator replaced by the one
htslib answers to the query of the last call. -/
theorem runSectionCalls_lazy (rx : RegionExternal) (calls : List SectionCall)
    (s : SamFile) (itf : GenericSamInterface) (hitf : s.myInterfacePtr = some itf) :
    (runSectionCalls rx s calls).myBamIndex = s.myBamIndex ∧
      (s.myIsOpenForRead = true → calls ≠ [] →
        (runSectionCalls rx s calls).myChunksToRead = [] ∧
        (runSectionCalls rx s calls).myNewSection = true) ∧
      (∃ itf1, (runSectionCalls rx s calls).myInterfacePtr = some itf1 ∧ SameFile itf itf1 ∧
        (itf.idx_ = false → itf1 = itf)) ∧
      (s.myIsOpenForRead = true → itf.idx_ = true →
        ∀ c, calls.getLast? = some c →
          (runSectionCalls rx s calls).myInterfacePtr =
            some { itf with eof_ := false, itr_ := c.query rx }) :=
  ⟨(runSectionCalls_frame rx calls s itf hitf).1,
    (runSectionCalls_frame rx calls s itf hitf).2.1,
    (runSectionCalls_frame rx calls s itf hitf).2.2,
    runSectionCalls_indexed rx calls s itf hitf⟩

/-- C25 at a concrete input: two calls on a session whose backend has no index
loaded leave the backend as it was, with a region pending; on a backend with
an index whose end-of-stream mark is raised the same two calls clear the mark
and leave the iterator of the last query. -/
theorem runSectionCalls_lazy_witness :
    ((runSectionCalls (scriptedRegion [])
        (readingSession REF_ID_ALL (-1) (-1) true 0 0 [recordAt 0 5])
        [SectionCall.byName "chr1" 100 200 true,
          SectionCall.byIndex 1 100 200 false]).myNewSection = true ∧
      ∃ itf1, (runSectionCalls (scriptedRegion [])
          (readingSession REF_ID_ALL (-1) (-1) true 0 0 [recordAt 0 5])
          [SectionCall.byName "chr1" 100 200 true,
            SectionCall.byIndex 1 100 200 false]).myInterfacePtr = some itf1 ∧
        itf1 = streamOf [recordAt 0 5]) ∧
      (runSectionCalls (scriptedRegion [recordAt 1 150])
          { indexedReadingSession [recordAt 0 5] with
            myInterfacePtr := some { indexedStream [recordAt 0 5] with eof_ := true } }
          [SectionCall.byName "chr1" 100 200 true,
            SectionCall.byIndex 1 100 200 false]).myInterfacePtr =
        some { indexedStream [recordAt 0 5] with
          eof_ := false, itr_ := some [recordAt 1 150] } :=
  have h := runSectionCalls_lazy (scriptedRegion [])
    [SectionCall.byName "chr1" 100 200 true, SectionCall.byIndex 1 100 200 false]
    (readingSession REF_ID_ALL (-1) (-1) true 0 0 [recordAt 0 5]) (streamOf [recordAt 0 5]) rfl
  ⟨⟨(h.2.1 rfl (by simp)).2,
      h.2.2.1.elim fun itf1 hi => ⟨itf1, hi.1, hi.2.2 rfl⟩⟩,
    (runSectionCalls_lazy (scriptedRegion [recordAt 1 150])
      [SectionCall.byName "chr1" 100 200 true, SectionCall.byIndex 1 100 200 false]
      { indexedReadingSession [recordAt 0 5] with
        myInterfacePtr := some { indexedStream [recordAt 0 5] with eof_ := true } }
      { indexedStream [recordAt 0 5] with eof_ := true } rfl).2.2.2 rfl rfl
      (SectionCall.byIndex 1 100 200 false) rfl⟩

/-! ## Changing the sort policy -/

theorem ReadHeader_sorted (ext : External) (s : SamFile) (header : SamFileHeader) :
    (ReadHeader ext s header).1.session.mySortedType = s.mySortedType := by
  unfold ReadHeader
  simp only
  split_ifs <;> (try split) <;> (try split_ifs) <;> rfl

theorem WriteHeader_sorted (ext : External) (s : SamFile) (header : SamFileHeader) :
    (WriteHeader ext s header).session.mySortedType = s.mySortedType := by
  unfold WriteHeader
  simp only
  split_ifs <;> (try split) <;> (try split_ifs) <;> rfl

theorem OpenForRead_sorted (ext : External) (s : SamFile) (filename : String)
    (header : Option SamFileHeader) :
    (OpenForRead ext s filename header).1.session.mySortedType = SortedType.UNSORTED := by
  rcases OpenForRead_cases ext s filename with h | ⟨itf, b, h⟩
  · rw [h header]
    rfl
  · rw [h header, finishOpenForRead_spec]
    by_cases he : itf.isEOF = true
    · simp only [he, if_true]
      rfl
    · simp only [he, Bool.false_eq_true, if_false]
      cases header with
      | none => rfl
      | some hd =>
        simp only
        rw [ReadHeader_sorted]
        rfl

theorem OpenForWrite_sorted (ext : External) (s : SamFile) (filename : String)
    (header : Option SamFileHeader) :
    (OpenForWrite ext s filename header).session.mySortedType = SortedType.UNSORTED := by
  obtain ⟨itf, h⟩ := OpenForWrite_cases ext s filename
  rw [h header, finishOpenForWrite_spec]
  by_cases he : itf.isEOF = true
  · simp only [he, if_true]
    rfl
  · simp only [he, Bool.false_eq_true, if_false]
    cases header with
    | none => rfl
    | some hd =>
      simp only
      rw [WriteHeader_sorted]
      rfl

/-- C26 as stated fails: `setSortedValidation` keeps the validator memory.  A
session that checked coordinate order up to `(3, 50)`, was switched to
Unsorted and then back to Coordinate still holds `(3, 50)`, and the first
record checked under the new policy, at `(0, 10)`, is rejected against it; with
the memory reset the same record passes. -/
theorem setSortedValidation_reset_counterexample :
    (setSortedValidation (setSortedValidation (coordinateSessionAt 3 50) SortedType.UNSORTED)
        SortedType.COORDINATE).myPrevRefID = 3 ∧
      (setSortedValidation (setSortedValidation (coordinateSessionAt 3 50) SortedType.UNSORTED)
        SortedType.COORDINATE).myPrevCoord = 50 ∧
      (validateSortOrder asciiOps
        (setSortedValidation (setSortedValidation (coordinateSessionAt 3 50) SortedType.UNSORTED)
          SortedType.COORDINATE) (recordAt 0 10) plainHeader).1 = false ∧
      (validateSortOrder asciiOps (coordinateSessionAt 0 (-1)) (recordAt 0 10)
        plainHeader).1 = true := by
  refine ⟨rfl, rfl, ?_, ?_⟩ <;> decide

theorem ReadHeader_memory (ext : External) (s : SamFile) (header : SamFileHeader) :
    (ReadHeader ext s header).1.session.myPrevRefID = s.myPrevRefID ∧
      (ReadHeader ext s header).1.session.myPrevCoord = s.myPrevCoord ∧
      (ReadHeader ext s header).1.session.myPrevReadName = s.myPrevReadName := by
  unfold ReadHeader
  simp only
  split_ifs <;> (try split) <;> (try split_ifs) <;> exact ⟨rfl, rfl, rfl⟩

theorem WriteHeader_memory (ext : External) (s : SamFile) (header : SamFileHeader) :
    (WriteHeader ext s header).session.myPrevRefID = s.myPrevRefID ∧
      (WriteHeader ext s header).session.myPrevCoord = s.myPrevCoord ∧
      (WriteHeader ext s header).session.myPrevReadName = s.myPrevReadName := by
  unfold WriteHeader
  simp only
  split_ifs <;> (try split) <;> (try split_ifs) <;> exact ⟨rfl, rfl, rfl⟩

theorem OpenForRead_memory (ext : External) (s : SamFile) (filename : String)
    (header : Option SamFileHeader) :
    (OpenForRead ext s filename header).1.session.myPrevRefID = 0 ∧
      (OpenForRead ext s filename header).1.session.myPrevCoord = -1 ∧
      (OpenForRead ext s filename header).1.session.myPrevReadName = "" := by
  rcases OpenForRead_cases ext s filename with h | ⟨itf, b, h⟩
  · rw [h header]
    exact ⟨rfl, rfl, rfl⟩
  · rw [h header, finishOpenForRead_spec]
    by_cases he : itf.isEOF = true
    · simp only [he, if_true]
      exact ⟨rfl, rfl, rfl⟩
    · simp only [he, Bool.false_eq_true, if_false]
      cases header with
      | none => exact ⟨rfl, rfl, rfl⟩
      | some hd =>
        simp only
        obtain ⟨m1, m2, m3⟩ := ReadHeader_memory ext (openedForRead s itf) hd
        exact ⟨m1, m2, m3⟩

theorem OpenForWrite_memory (ext : External) (s : SamFile) (filename : String)
    (header : Option SamFileHeader) :
    (OpenForWrite ext s filename header).session.myPrevRefID = 0 ∧
      (OpenForWrite ext s filename header).session.myPrevCoord = -1 ∧
      (OpenForWrite ext s filename header).session.myPrevReadName = "" := by
  obtain ⟨itf, h⟩ := OpenForWrite_cases ext s filename
  rw [h header, finishOpenForWrite_spec]
  by_cases he : itf.isEOF = true
  · simp only [he, if_true]
    exact ⟨rfl, rfl, rfl⟩
  · simp only [he, Bool.false_eq_true, if_false]
    cases header with
    | none => exact ⟨rfl, rfl, rfl⟩
    | some hd =>
      simp only
      obtain ⟨m1, m2, m3⟩ := WriteHeader_memory ext (openedForWrite s itf) hd
      exact ⟨m1, m2, m3⟩

theorem SetReadSection_memory (rx : RegionExternal) (s : SamFile) (refID start endPos : Int)
    (overlap : Bool) (h : s.myIsOpenForRead = true) :
    (SetReadSection rx s refID start endPos overlap).2.myPrevRefID = 0 ∧
      (SetReadSection rx s refID start endPos overlap).2.myPrevCoord = -1 ∧
      (SetReadSection rx s refID start endPos overlap).2.myPrevReadName = "" := by
  unfold SetReadSection
  simp only [h, Bool.not_true, Bool.false_eq_true, if_false]
  split <;> exact ⟨rfl, rfl, rfl⟩

theorem SetReadSectionByName_memory (rx : RegionExternal) (s : SamFile) (refName : String)
    (start endPos : Int) (overlap : Bool) (h : s.myIsOpenForRead = true) :
    (SetReadSectionByName rx s refName start endPos overlap).2.myPrevRefID = 0 ∧
      (SetReadSectionByName rx s refName start endPos overlap).2.myPrevCoord = -1 ∧
      (SetReadSectionByName rx s refName start endPos overlap).2.myPrevReadName = "" := by
  unfold SetReadSectionByName
  simp only [h, Bool.not_true, Bool.false_eq_true, if_false]
  split <;> exact ⟨rfl, rfl, rfl⟩

/-- C26, amended: `setSortedValidation` stores the new policy and leaves the
validator memory (previous reference index, previous coordinate, previous read
name) as it was, so the first record checked under the new policy is compared
with what earlier checks left there: its verdict is the verdict of a check
under the new policy on the old memory.  What does reset the memory, to
previous reference 0, previous coordinate -1 and an empty previous name, is
`SetReadSection`, by index and by name, on a session open for read (on a
session that is not open for read it leaves the memory as it is), and `Close`,
`OpenForRead` and `OpenForWrite`. -/
theorem setSortedValidation_keeps_memory (ops : StringOps) (s : SamFile) (p : SortedType)
    (record : SamRecord) (header : SamFileHeader) :
    (setSortedValidation s p).mySortedType = p ∧
      (setSortedValidation s p).myPrevRefID = s.myPrevRefID ∧
      (setSortedValidation s p).myPrevCoord = s.myPrevCoord ∧
      (setSortedValidation s p).myPrevReadName = s.myPrevReadName ∧
      (∀ t : SamFile, t.mySortedType = p → t.myPrevRefID = s.myPrevRefID →
        t.myPrevCoord = s.myPrevCoord → t.myPrevReadName = s.myPrevReadName →
        (validateSortOrder ops (setSortedValidation s p) record header).1 =
          (validateSortOrder ops t record header).1) ∧
      (s.myIsOpenForRead = true →
        ∀ (rx : RegionExternal) (refID : Int) (refName : String) (start endPos : Int)
          (overlap : Bool),
          ((SetReadSection rx s refID start endPos overlap).2.myPrevRefID = 0 ∧
            (SetReadSection rx s refID start endPos overlap).2.myPrevCoord = -1 ∧
            (SetReadSection rx s refID start endPos overlap).2.myPrevReadName = "") ∧
          ((SetReadSectionByName rx s refName start endPos overlap).2.myPrevRefID = 0 ∧
            (SetReadSectionByName rx s refName start endPos overlap).2.myPrevCoord = -1 ∧
            (SetReadSectionByName rx s refName start endPos overlap).2.myPrevReadName =
              "")) ∧
      (s.myIsOpenForRead = false →
        ∀ (rx : RegionExternal) (refID : Int) (refName : String) (start endPos : Int)
          (overlap : Bool),
          ((SetReadSection rx s refID start endPos overlap).2.myPrevRefID = s.myPrevRefID ∧
            (SetReadSection rx s refID start endPos overlap).2.myPrevCoord = s.myPrevCoord ∧
            (SetReadSection rx s refID start endPos overlap).2.myPrevReadName =
              s.myPrevReadName) ∧
          ((SetReadSectionByName rx s refName start endPos overlap).2.myPrevRefID =
              s.myPrevRefID ∧
            (SetReadSectionByName rx s refName start endPos overlap).2.myPrevCoord =
              s.myPrevCoord ∧
            (SetReadSectionByName rx s refName start endPos overlap).2.myPrevReadName =
              s.myPrevReadName)) ∧
      ((Close s).myPrevRefID = 0 ∧ (Close s).myPrevCoord = -1 ∧
        (Close s).myPrevReadName = "") ∧
      (∀ (ext : External) (filename : String) (hd : Option SamFileHeader),
        ((OpenForRead ext s filename hd).1.session.myPrevRefID = 0 ∧
          (OpenForRead ext s filename hd).1.session.myPrevCoord = -1 ∧
          (OpenForRead ext s filename hd).1.session.myPrevReadName = "") ∧
        ((OpenForWrite ext s filename hd).session.myPrevRefID = 0 ∧
          (OpenForWrite ext s filename hd).session.myPrevCoord = -1 ∧
          (OpenForWrite ext s filename hd).session.myPrevReadName = "")) := by
  refine ⟨rfl, rfl, rfl, rfl, fun t h1 h2 h3 h4 =>
    validateSortOrder_verdict_agree ops (setSortedValidation s p) t record header
      h1.symm h2.symm h3.symm h4.symm, fun ho rx refID refName start endPos overlap =>
      ⟨SetReadSection_memory rx s refID start endPos overlap ho,
        SetReadSectionByName_memory rx s refName start endPos overlap ho⟩,
    fun hc rx refID refName start endPos overlap => ?_, ⟨rfl, rfl, rfl⟩,
    fun ext filename hd =>
      ⟨OpenForRead_memory ext s filename hd, OpenForWrite_memory ext s filename hd⟩⟩
  rw [SetReadSection_closed rx s refID start endPos overlap hc,
    SetReadSectionByName_closed rx s refName start endPos overlap hc]
  exact ⟨⟨rfl, rfl, rfl⟩, ⟨rfl, rfl, rfl⟩⟩

/-- C26 at a concrete input: after the switch to QueryName the memory of the
coordinate checks, `(3, 50)`, is still stored; `SetReadSection` on a session
open for read whose memory is `(3, 50)` leaves the previous coordinate at -1. -/
theorem setSortedValidation_keeps_memory_witness :
    ((setSortedValidation (coordinateSessionAt 3 50) SortedType.QUERY_NAME).mySortedType =
        SortedType.QUERY_NAME ∧
      (setSortedValidation (coordinateSessionAt 3 50) SortedType.QUERY_NAME).myPrevRefID = 3 ∧
      (setSortedValidation (coordinateSessionAt 3 50) SortedType.QUERY_NAME).myPrevCoord = 50 ∧
      (validateSortOrder asciiOps
          (setSortedValidation (coordinateSessionAt 3 50) SortedType.QUERY_NAME)
          (recordNamed "a") plainHeader).1 =
        (validateSortOrder asciiOps
          { queryNameSessionAt "" with myPrevRefID := 3, myPrevCoord := 50 }
          (recordNamed "a") plainHeader).1) ∧
      (SetReadSection (scriptedRegion [])
        { readingSession REF_ID_ALL (-1) (-1) true 0 0 [] with
          myPrevRefID := 3, myPrevCoord := 50 } 1 100 200 true).2.myPrevCoord = -1 :=
  have h := setSortedValidation_keeps_memory asciiOps (coordinateSessionAt 3 50)
    SortedType.QUERY_NAME (recordNamed "a") plainHeader
  ⟨⟨h.1, h.2.1, h.2.2.1,
    h.2.2.2.2.1 { queryNameSessionAt "" with myPrevRefID := 3, myPrevCoord := 50 }
      rfl rfl rfl rfl⟩,
    ((setSortedValidation_keeps_memory asciiOps
      { readingSession REF_ID_ALL (-1) (-1) true 0 0 [] with
        myPrevRefID := 3, myPrevCoord := 50 }
      SortedType.QUERY_NAME (recordNamed "a") plainHeader).2.2.2.2.2.1 rfl
      (scriptedRegion []) 1 "chr1" 100 200 true).1.2.1⟩


/-- C27 as stated fails: a policy set before the session is opened is lost,
since opening resets it to Unsorted.  With Coordinate set before `OpenForWrite`
the records at `(1, 10)` and then `(0, 5)` are both written, while under
Coordinate the second one is rejected. -/
theorem setSortedValidation_before_open_counterexample :
    (OpenForWrite goodExternal (setSortedValidation SamFile.new SortedType.COORDINATE)
        "out.bam" (some plainHeader)).session.mySortedType = SortedType.UNSORTED ∧
      (WriteRecord asciiOps goodExternal
        (WriteRecord asciiOps goodExternal
          (OpenForWrite goodExternal (setSortedValidation SamFile.new SortedType.COORDINATE)
            "out.bam" (some plainHeader)).session
          plainHeader (recordAt 1 10)).session
        plainHeader (recordAt 0 5)).outcome = Outcome.returned true ∧
      (WriteRecord asciiOps goodExternal
        (WriteRecord asciiOps goodExternal
          (setSortedValidation
            (OpenForWrite goodExternal SamFile.new "out.bam" (some plainHeader)).session
            SortedType.COORDINATE)
          plainHeader (recordAt 1 10)).session
        plainHeader (recordAt 0 5)).outcome = Outcome.returned false := by
  refine ⟨?_, ?_, ?_⟩ <;> decide


/-- C27, amended: `setSortedValidation p` can be called in any state and stores
`p` without changing whether the session is open; `OpenForRead`, `OpenForWrite`
and `Close` reset the policy to Unsorted, so it must be set after opening.  On
an open session with its header the next check runs under `p` on the stored
memory: `WriteRecord` fails with `INVALID_SORT` and writes nothing when that
check fails and hands the record to the backend when it passes, and
`ReadRecord` returns the verdict of that check for the first admitted record. -/
theorem setSortedValidation_next_check (ops : StringOps) (ext : External) (s : SamFile)
    (p : SortedType) (header : SamFileHeader) (record : SamRecord) :
    (setSortedValidation s p).mySortedType = p ∧
      SameOpen s (setSortedValidation s p) ∧
      (Close (setSortedValidation s p)).mySortedType = SortedType.UNSORTED ∧
      (∀ filename hd,
        (OpenForRead ext (setSortedValidation s p) filename hd).1.session.mySortedType =
          SortedType.UNSORTED) ∧
      (∀ filename hd,
        (OpenForWrite ext (setSortedValidation s p) filename hd).session.mySortedType =
          SortedType.UNSORTED) ∧
      (s.myIsOpenForWrite = true → s.myHasHeader = true →
        ((validateSortOrder ops { s with mySortedType := p } record header).1 = false →
          (WriteRecord ops ext (setSortedValidation s p) header record).outcome =
              Outcome.returned false ∧
            (WriteRecord ops ext (setSortedValidation s p) header record).session.myStatus =
              Status.INVALID_SORT ∧
            (WriteRecord ops ext (setSortedValidation s p) header record).calls = []) ∧
        ((validateSortOrder ops { s with mySortedType := p } record header).1 = true →
          ∀ itf, s.myInterfacePtr = some itf →
            (WriteRecord ops ext (setSortedValidation s p) header record).calls =
              [BackendCall.writeRecord record])) ∧
      (s.myIsOpenForRead = true → s.myHasHeader = true → s.myNewSection = false →
        ∀ itf r rest, s.myInterfacePtr = some itf → Ready itf → itf.pending = r :: rest →
          Accepts s r → PassesFlags s r →
          ∃ s1, ReadRecord ops 1 (setSortedValidation s p) header record =
            some (Outcome.returned
              (validateSortOrder ops { s with mySortedType := p } r header).1, s1, r)) := by
  refine ⟨rfl, ⟨rfl, rfl, rfl⟩, rfl, fun f hd => OpenForRead_sorted ext _ f hd,
    fun f hd => OpenForWrite_sorted ext _ f hd, fun hopen hhdr => ⟨fun hv => ?_, fun hv itf hitf => ?_⟩,
    fun hopen hhdr hnew itf r rest hitf hready hpend hacc hfl => ?_⟩
  · have hv2 : (validateSortOrder ops (setSortedValidation s p) record header).1 = false := hv
    have ho2 : (setSortedValidation s p).myIsOpenForWrite = true := hopen
    have hh2 : (setSortedValidation s p).myHasHeader = true := hhdr
    unfold WriteRecord
    simp only [ho2, hh2, hv2, Bool.true_eq_false, if_false, Bool.not_false, if_true]
    exact ⟨trivial, trivial, trivial⟩
  · have hv2 : (validateSortOrder ops (setSortedValidation s p) record header).1 = true := hv
    have hi2 : (setSortedValidation s p).myInterfacePtr = some itf := hitf
    rw [WriteRecord_valid ops ext (setSortedValidation s p) header record itf hopen hhdr hv2 hi2]
    split_ifs <;> rfl
  · have hacc2 : Accepts { setSortedValidation s p with myStatus := Status.SUCCESS } r := by
      unfold Accepts at hacc ⊢
      rw [(checkRecordInSection_agree_verdict s
        { setSortedValidation s p with myStatus := Status.SUCCESS } r rfl rfl rfl rfl).symm]
      exact hacc
    obtain ⟨itf1, h1, _⟩ := readLoop_admit_after ops header [] r rest
      { setSortedValidation s p with myStatus := Status.SUCCESS } record itf 1 rfl hitf hready
      (fun x hx => absurd hx (List.not_mem_nil x)) hacc2 hfl hpend (by decide)
    have hv := validateSortOrder_verdict_agree ops
      { setSortedValidation s p with
        myStatus := Status.SUCCESS, myInterfacePtr := some itf1,
        myRecordCount := (s.myRecordCount + 1) % 4294967296 }
      { s with mySortedType := p } r header rfl rfl rfl rfl
    refine ⟨(validateSortOrder ops
      { setSortedValidation s p with
        myStatus := Status.SUCCESS, myInterfacePtr := some itf1,
        myRecordCount := (s.myRecordCount + 1) % 4294967296 } r header).2, ?_⟩
    rw [ReadRecord_loop ops 1 (setSortedValidation s p) header record hopen hhdr hnew, h1]
    simp only [Option.some.injEq, Prod.mk.injEq, Outcome.returned.injEq, and_true]
    exact ⟨hv, rfl⟩

/-- C27 at a concrete input: on a session open for write whose memory is
`(3, 50)` the policy is set to Coordinate, and the next `WriteRecord`, of a
record at `(0, 10)`, fails with `INVALID_SORT`; the same on a session open for
read whose next record lies at `(0, 10)`. -/
theorem setSortedValidation_next_check_witness :
    ((WriteRecord asciiOps goodExternal
        (setSortedValidation
          { writingSession SortedType.UNSORTED with myPrevRefID := 3, myPrevCoord := 50 }
          SortedType.COORDINATE) plainHeader (recordAt 0 10)).outcome = Outcome.returned false ∧
      (WriteRecord asciiOps goodExternal
        (setSortedValidation
          { writingSession SortedType.UNSORTED with myPrevRefID := 3, myPrevCoord := 50 }
          SortedType.COORDINATE) plainHeader (recordAt 0 10)).session.myStatus =
        Status.INVALID_SORT ∧
      (WriteRecord asciiOps goodExternal
        (setSortedValidation
          { writingSession SortedType.UNSORTED with myPrevRefID := 3, myPrevCoord := 50 }
          SortedType.COORDINATE) plainHeader (recordAt 0 10)).calls = []) ∧
      ∃ s1, ReadRecord asciiOps 1
          (setSortedValidation
            { readingSession REF_ID_ALL (-1) (-1) true 0 0 [recordAt 0 10] with
              myPrevRefID := 3, myPrevCoord := 50 }
            SortedType.COORDINATE) plainHeader (recordAt 0 0) =
        some (Outcome.returned
          (validateSortOrder asciiOps
            { readingSession REF_ID_ALL (-1) (-1) true 0 0 [recordAt 0 10] with
              myPrevRefID := 3, myPrevCoord := 50, mySortedType := SortedType.COORDINATE }
            (recordAt 0 10) plainHeader).1, s1, recordAt 0 10) :=
  ⟨((setSortedValidation_next_check asciiOps goodExternal
      { writingSession SortedType.UNSORTED with myPrevRefID := 3, myPrevCoord := 50 }
      SortedType.COORDINATE plainHeader (recordAt 0 10)).2.2.2.2.2.1 rfl rfl).1 (by decide),
    (setSortedValidation_next_check asciiOps goodExternal
      { readingSession REF_ID_ALL (-1) (-1) true 0 0 [recordAt 0 10] with
        myPrevRefID := 3, myPrevCoord := 50 }
      SortedType.COORDINATE plainHeader (recordAt 0 0)).2.2.2.2.2.2 rfl rfl rfl
      (streamOf [recordAt 0 10]) (recordAt 0 10) [] rfl (Ready_streamOf _) rfl
      rfl (by decide)⟩


/-! ## The deferred sort policy -/

/-- When the header names a sort order (`queryname` or `coordinate`), a check
under the deferred policy is the check under the policy the header names. -/
theorem validateSortOrder_deferred (ops : StringOps) (s : SamFile) (record : SamRecord)
    (header : SamFileHeader) (hs : s.mySortedType = SortedType.FLAG)
    (hh : getSortOrderFromHeader header ≠ SortedType.UNSORTED) :
    validateSortOrder ops s record header =
      validateSortOrder ops { s with mySortedType := getSortOrderFromHeader header }
        record header := by
  unfold validateSortOrder
  have h1 : getSortOrderFromHeader header ≠ SortedType.FLAG := by
    unfold getSortOrderFromHeader
    simp only
    split_ifs <;> decide
  simp only [hs, hh, h1, if_true, if_false]
  simp

/-- C28 fails on the code: with the deferred policy and a header whose
sort-order tag is not recognised, the first check resolves the policy to
Unsorted and then still runs the coordinate comparison.  A session that wrote
a record at `(3, 50)` under Coordinate and was then set to the deferred policy
rejects the record at `(0, 10)` with `INVALID_SORT`, while a check under
Unsorted on the same memory passes. -/
theorem validateSortOrder_deferred_unsorted_rejects :
    (setSortedValidation
        (WriteRecord asciiOps goodExternal (writingSession SortedType.COORDINATE)
          (taggedHeader "unsorted") (recordAt 3 50)).session SortedType.FLAG).myPrevCoord = 50 ∧
      (WriteRecord asciiOps goodExternal
        (setSortedValidation
          (WriteRecord asciiOps goodExternal (writingSession SortedType.COORDINATE)
            (taggedHeader "unsorted") (recordAt 3 50)).session SortedType.FLAG)
        (taggedHeader "unsorted") (recordAt 0 10)).outcome = Outcome.returned false ∧
      (WriteRecord asciiOps goodExternal
        (setSortedValidation
          (WriteRecord asciiOps goodExternal (writingSession SortedType.COORDINATE)
            (taggedHeader "unsorted") (recordAt 3 50)).session SortedType.FLAG)
        (taggedHeader "unsorted") (recordAt 0 10)).session.myStatus = Status.INVALID_SORT ∧
      (WriteRecord asciiOps goodExternal
        (setSortedValidation
          (WriteRecord asciiOps goodExternal (writingSession SortedType.COORDINATE)
            (taggedHeader "unsorted") (recordAt 3 50)).session SortedType.FLAG)
        (taggedHeader "unsorted") (recordAt 0 10)).session.mySortedType =
          SortedType.UNSORTED ∧
      getSortOrderFromHeader (taggedHeader "unsorted") = SortedType.UNSORTED ∧
      (validateSortOrder asciiOps
        { coordinateSessionAt 3 50 with mySortedType := SortedType.FLAG }
        (recordAt 0 10) (taggedHeader "unsorted")).1 = false ∧
      (validateSortOrder asciiOps
        { coordinateSessionAt 3 50 with mySortedType := SortedType.UNSORTED }
        (recordAt 0 10) (taggedHeader "unsorted")).1 = true := by
  refine ⟨?_, ?_, ?_, ?_, ?_, ?_, ?_⟩ <;> decide


/-! ## Resolving a pending region -/

theorem processNewSection_lookup_failure (s : SamFile) (header : SamFileHeader)
    (idx : BamIndex) (hbam : s.myIsBamOpenForRead = true) (hhdr : s.myHasHeader = true)
    (hidx : s.myBamIndex = some idx)
    (hres : s.myRefName = "" ∨ header.getReferenceID s.myRefName ≠ NO_REF_ID)
    (hfail : idx.getChunksForRegion
      (if s.myRefName = "" then s.myRefID else header.getReferenceID s.myRefName)
      s.myStartPos s.myEndPos = none) :
    ∃ s1, processNewSection s header = (Outcome.returned true, s1) ∧
      s1.myStatus = Status.FAIL_PARSE ∧ s1.myInterfacePtr = s.myInterfacePtr ∧
      s1.myNewSection = false ∧ s1.myChunksToRead = [] := by
  unfold processNewSection fetchChunks
  by_cases hn : s.myRefName = ""
  · simp only [hn, if_true] at hfail
    simp [hidx, hbam, hhdr, hn, hfail]
  · simp only [hn, if_false] at hfail
    have hk : header.getReferenceID s.myRefName ≠ NO_REF_ID := by
      rcases hres with h | h
      · exact absurd h hn
      · exact h
    simp [hidx, hbam, hhdr, hn, hfail, hk]

/-- C29: on a session open for read on a BAM file with its header read, an
index loaded and a new region pending, when the region resolves (no name is
stored, or the header knows the stored name) and the index lookup for it
fails, `ReadRecord` returns false with status `FAIL_PARSE`, and the backend is
what it was: no record was read. -/
theorem ReadRecord_lookup_failure (ops : StringOps) (fuel : Nat) (s : SamFile)
    (header : SamFileHeader) (record : SamRecord) (itf : GenericSamInterface)
    (idx : BamIndex) (hopen : s.myIsOpenForRead = true) (hhdr : s.myHasHeader = true)
    (hnew : s.myNewSection = true) (hitf : s.myInterfacePtr = some itf)
    (hfmt : itf.format = HtsExactFormat.bam) (hbam : s.myIsBamOpenForRead = true)
    (hidx : s.myBamIndex = some idx)
    (hres : s.myRefName = "" ∨ header.getReferenceID s.myRefName ≠ NO_REF_ID)
    (hfail : idx.getChunksForRegion
      (if s.myRefName = "" then s.myRefID else header.getReferenceID s.myRefName)
      s.myStartPos s.myEndPos = none) :
    ∃ s1, ReadRecord ops (fuel + 1) s header record =
        some (Outcome.returned false, s1, record) ∧
      s1.myStatus = Status.FAIL_PARSE ∧ s1.myInterfacePtr = some itf ∧
      s1.myNewSection = false ∧ s1.myChunksToRead = [] := by
  obtain ⟨s1, h1, h2, h3, h4, h5⟩ := processNewSection_lookup_failure
    { s with myStatus := Status.SUCCESS } header idx hbam hhdr hidx hres hfail
  refine ⟨s1, ?_, h2, h3.trans hitf, h4, h5⟩
  have hc : itf.format ≠ HtsExactFormat.cram := by
    rw [hfmt]
    decide
  have e : ReadRecord ops (fuel + 1) s header record =
      match processNewSection { s with myStatus := Status.SUCCESS } header with
      | (Outcome.returned true, s1) => readLoop ops header (fuel + 1) s1 record
      | (out, s1) => some (out, s1, record) := by
    unfold ReadRecord
    simp only [hopen, hhdr, hnew, hitf, hc, Bool.true_eq_false, if_false, if_true, ne_eq,
      not_false_eq_true]
  rw [e, h1]
  exact readLoop_stopped ops header fuel s1 record (by rw [h2]; decide)

/-- C29 at a concrete input: the region `chr1:100-200` is pending and the index
has no answer for it; the read fails with `FAIL_PARSE` and the record at
`(0, 150)` stays with the backend. -/
theorem ReadRecord_lookup_failure_witness :
    ∃ s1, ReadRecord asciiOps 1
          { indexedSession (some (scriptedIndex none)) [recordAt 0 150] with
            myNewSection := true, myRefName := "chr1", myStartPos := 100, myEndPos := 200 }
          (taggedHeader "coordinate") (recordAt 0 0) =
        some (Outcome.returned false, s1, recordAt 0 0) ∧
      s1.myStatus = Status.FAIL_PARSE ∧
      s1.myInterfacePtr = some (streamOf [recordAt 0 150]) ∧
      s1.myNewSection = false ∧ s1.myChunksToRead = [] :=
  ReadRecord_lookup_failure asciiOps 0
    { indexedSession (some (scriptedIndex none)) [recordAt 0 150] with
      myNewSection := true, myRefName := "chr1", myStartPos := 100, myEndPos := 200 }
    (taggedHeader "coordinate") (recordAt 0 0) (streamOf [recordAt 0 150])
    (scriptedIndex none) rfl rfl rfl rfl rfl rfl rfl (Or.inr (by decide)) rfl


/-- C30 as stated fails in both cases.  With an index loaded and the stored
name `chrX` unknown to the header, `ReadRecord` returns false with status
`NO_MORE_RECS`, which is neither `FAIL_ORDER` nor `FAIL_PARSE`; with no index
loaded it sets `FAIL_ORDER` and throws: it does not return false. -/
theorem ReadRecord_unresolved_counterexample :
    (ReadRecord asciiOps 1
        { indexedSession (some (scriptedIndex (some []))) [recordAt 0 150] with
          myNewSection := true, myRefName := "chrX", myStartPos := 100, myEndPos := 200 }
        (taggedHeader "coordinate") (recordAt 0 0)).map (fun r => (r.1, r.2.1.myStatus)) =
        some (Outcome.returned false, Status.NO_MORE_RECS) ∧
      (ReadRecord asciiOps 1
        { indexedSession none [recordAt 0 150] with
          myNewSection := true, myRefName := "chr1", myStartPos := 100, myEndPos := 200 }
        (taggedHeader "coordinate") (recordAt 0 0)).map (fun r => (r.1, r.2.1.myStatus)) =
        some (Outcome.threw "SOFTWARE BUG: trying to read a BAM record by section prior to opening the BAM Index file.",
          Status.FAIL_ORDER) := by
  constructor <;> decide

/-- C30, amended: on a session open for read with its header read, a backend
that is not CRAM and a new region pending, whatever the fuel: when no index is
loaded `ReadRecord` sets `FAIL_ORDER` and throws; when an index is loaded on a
BAM session and the stored reference name is not in the header it returns
false with status `NO_MORE_RECS`, the name cleared and the selector left at
`NO_REF_ID`.  In both cases the region is no longer pending and the backend is
what it was: no record was read. -/
theorem ReadRecord_unresolved (ops : StringOps) (fuel : Nat) (s : SamFile)
    (header : SamFileHeader) (record : SamRecord) (itf : GenericSamInterface)
    (hopen : s.myIsOpenForRead = true) (hhdr : s.myHasHeader = true)
    (hnew : s.myNewSection = true) (hitf : s.myInterfacePtr = some itf)
    (hfmt : itf.format ≠ HtsExactFormat.cram) :
    (s.myBamIndex = none →
      ∃ msg s1, ReadRecord ops fuel s header record = some (Outcome.threw msg, s1, record) ∧
        s1.myStatus = Status.FAIL_ORDER ∧ s1.myInterfacePtr = some itf ∧
        s1.myNewSection = false) ∧
      (∀ idx, s.myBamIndex = some idx → s.myIsBamOpenForRead = true → s.myRefName ≠ "" →
        header.getReferenceID s.myRefName = NO_REF_ID →
        ∃ s1, ReadRecord ops fuel s header record = some (Outcome.returned false, s1, record) ∧
          s1.myStatus = Status.NO_MORE_RECS ∧ s1.myInterfacePtr = some itf ∧
          s1.myNewSection = false ∧ s1.myRefID = NO_REF_ID ∧ s1.myRefName = "") := by
  have e : ReadRecord ops fuel s header record =
      match processNewSection { s with myStatus := Status.SUCCESS } header with
      | (Outcome.returned true, s1) => readLoop ops header fuel s1 record
      | (out, s1) => some (out, s1, record) := by
    unfold ReadRecord
    simp only [hopen, hhdr, hnew, hitf, hfmt, Bool.true_eq_false, if_false, if_true, ne_eq,
      not_false_eq_true]
  constructor
  · intro hidx
    have hp : processNewSection { s with myStatus := Status.SUCCESS } header =
        (Outcome.threw "SOFTWARE BUG: trying to read a BAM record by section prior to opening the BAM Index file.",
          { s with myNewSection := false, myStatus := Status.FAIL_ORDER }) := by
      unfold processNewSection
      simp [hidx]
    rw [e, hp]
    exact ⟨_, _, rfl, rfl, hitf, rfl⟩
  · intro idx hidx hbam hname hno
    have hp : processNewSection { s with myStatus := Status.SUCCESS } header =
        (Outcome.returned false,
          { s with
            myNewSection := false, myChunksToRead := [], myCurrentChunkEnd := 0,
            myRefID := header.getReferenceID s.myRefName, myRefName := "",
            myStatus := Status.NO_MORE_RECS }) := by
      unfold processNewSection
      simp [hidx, hbam, hhdr, hname, hno]
    rw [e, hp]
    exact ⟨_, rfl, rfl, hitf, rfl, hno, rfl⟩

/-- C30 at a concrete input: with the region `chrX:100-200` pending and `chrX`
not in the header the read returns false with `NO_MORE_RECS`, and the record at
`(0, 150)` stays with the backend. -/
theorem ReadRecord_unresolved_witness :
    ∃ s1, ReadRecord asciiOps 0
          { indexedSession (some (scriptedIndex (some []))) [recordAt 0 150] with
            myNewSection := true, myRefName := "chrX", myStartPos := 100, myEndPos := 200 }
          (taggedHeader "coordinate") (recordAt 0 0) =
        some (Outcome.returned false, s1, recordAt 0 0) ∧
      s1.myStatus = Status.NO_MORE_RECS ∧
      s1.myInterfacePtr = some (streamOf [recordAt 0 150]) ∧
      s1.myNewSection = false ∧ s1.myRefID = NO_REF_ID ∧ s1.myRefName = "" :=
  (ReadRecord_unresolved asciiOps 0
    { indexedSession (some (scriptedIndex (some []))) [recordAt 0 150] with
      myNewSection := true, myRefName := "chrX", myStartPos := 100, myEndPos := 200 }
    (taggedHeader "coordinate") (recordAt 0 0) (streamOf [recordAt 0 150])
    rfl rfl rfl rfl (by decide)).2 (scriptedIndex (some [])) rfl rfl (by decide) (by decide)


/-! ## The validator memory after a violation -/

theorem validateCoordinate_reject_memory (s : SamFile) (r : SamRecord)
    (h : (validateCoordinate s r).1 = false) :
    (validateCoordinate s r).2.myPrevRefID = s.myPrevRefID ∧
      (validateCoordinate s r).2.myPrevReadName = s.myPrevReadName ∧
      ((validateCoordinate s r).2.myPrevCoord = s.myPrevCoord ∨
        ((validateCoordinate s r).2.myPrevCoord = -1 ∧ s.myPrevRefID < r.referenceID ∧
          r.position < -1)) := by
  unfold validateCoordinate at h ⊢
  simp only at h ⊢
  split_ifs at h ⊢ with h1 h2 h3 h4 h5 h5
  · exact ⟨rfl, rfl, Or.inl rfl⟩
  · exact ⟨rfl, rfl, Or.inl rfl⟩
  · refine ⟨rfl, rfl, Or.inr ⟨rfl, by omega, ?_⟩⟩
    simp only [h4, if_true] at h5
    exact h5
  · exact ⟨rfl, rfl, Or.inl rfl⟩

theorem validateQueryName_reject_memory (ops : StringOps) (s : SamFile) (r : SamRecord)
    (h : (validateQueryName ops s r).1 = false) :
    (validateQueryName ops s r).2.myPrevRefID = s.myPrevRefID ∧
      (validateQueryName ops s r).2.myPrevReadName = s.myPrevReadName ∧
      (validateQueryName ops s r).2.myPrevCoord = s.myPrevCoord := by
  unfold validateQueryName at h ⊢
  simp only at h ⊢
  split_ifs at h ⊢
  exact ⟨rfl, rfl, rfl⟩

/-- C33 fails on the code: in Coordinate mode with memory `(0, 50)` the record
on reference 1 at position -2 is reported as a violation, and the previous
coordinate has been overwritten with -1 before the comparison, where every
other violation leaves the memory alone.  The record at `(0, 10)` then passes,
while against the last accepted record, at `(0, 50)`, it is a violation. -/
theorem validateSortOrder_violation_overwrites_coordinate :
    (validateSortOrder asciiOps (coordinateSessionAt 0 50) (recordAt 1 (-2)) plainHeader).1 =
        false ∧
      (validateSortOrder asciiOps (coordinateSessionAt 0 50) (recordAt 1 (-2))
        plainHeader).2.myPrevCoord = -1 ∧
      (coordinateSessionAt 0 50).myPrevCoord = 50 ∧
      (validateSortOrder asciiOps
        (validateSortOrder asciiOps (coordinateSessionAt 0 50) (recordAt 1 (-2)) plainHeader).2
        (recordAt 0 10) plainHeader).1 = true ∧
      (validateSortOrder asciiOps (coordinateSessionAt 0 50) (recordAt 0 10) plainHeader).1 =
        false := by
  refine ⟨?_, ?_, ?_, ?_, ?_⟩ <;> decide

/-- What a violation leaves of the validator memory: the status is
`INVALID_SORT`, the previous reference index and the previous read name are
what they were, and so is the previous coordinate whenever the position of the
record is at least -1, in particular always in QueryName mode.  The one change
there can be is on a record on a later reference with a position below -1. -/
theorem validateSortOrder_violation_memory (ops : StringOps) (s : SamFile) (r : SamRecord)
    (header : SamFileHeader) (h : (validateSortOrder ops s r header).1 = false) :
    (validateSortOrder ops s r header).2.myStatus = Status.INVALID_SORT ∧
      (validateSortOrder ops s r header).2.myPrevRefID = s.myPrevRefID ∧
      (validateSortOrder ops s r header).2.myPrevReadName = s.myPrevReadName ∧
      ((validateSortOrder ops s r header).2.myPrevCoord = s.myPrevCoord ∨
        ((validateSortOrder ops s r header).2.myPrevCoord = -1 ∧
          s.myPrevRefID < r.referenceID ∧ r.position < -1 ∧
          (validateSortOrder ops s r header).2.mySortedType ≠ SortedType.QUERY_NAME)) ∧
      (-1 ≤ r.position → (validateSortOrder ops s r header).2.myPrevCoord = s.myPrevCoord) := by
  have hst := (validateSortOrder_reject_status ops s r header h).1
  have key : (validateSortOrder ops s r header).2.myPrevRefID = s.myPrevRefID ∧
      (validateSortOrder ops s r header).2.myPrevReadName = s.myPrevReadName ∧
      ((validateSortOrder ops s r header).2.myPrevCoord = s.myPrevCoord ∨
        ((validateSortOrder ops s r header).2.myPrevCoord = -1 ∧
          s.myPrevRefID < r.referenceID ∧ r.position < -1 ∧
          (validateSortOrder ops s r header).2.mySortedType ≠ SortedType.QUERY_NAME)) := by
    unfold validateSortOrder at h ⊢
    by_cases h0 : s.mySortedType = SortedType.UNSORTED
    · rw [if_pos h0] at h
      simp at h
    · simp only [h0, if_false] at h ⊢
      generalize hs1 : (if s.mySortedType = SortedType.FLAG then
          { s with mySortedType := getSortOrderFromHeader header } else s) = s1 at h ⊢
      have hq : s1.myPrevRefID = s.myPrevRefID ∧ s1.myPrevReadName = s.myPrevReadName ∧
          s1.myPrevCoord = s.myPrevCoord := by
        rw [← hs1]
        split_ifs <;> exact ⟨rfl, rfl, rfl⟩
      by_cases h1 : s1.mySortedType = SortedType.QUERY_NAME
      · simp only [h1, if_true] at h ⊢
        obtain ⟨q1, q2, q3⟩ := validateQueryName_reject_memory ops s1 r h
        exact ⟨q1.trans hq.1, q2.trans hq.2.1, Or.inl (q3.trans hq.2.2)⟩
      · simp only [h1, if_false] at h ⊢
        obtain ⟨q1, q2, q3⟩ := validateCoordinate_reject_memory s1 r h
        refine ⟨q1.trans hq.1, q2.trans hq.2.1, ?_⟩
        rcases q3 with q3 | ⟨q3, q4, q5⟩
        · exact Or.inl (q3.trans hq.2.2)
        · refine Or.inr ⟨q3, by rw [← hq.1]; exact q4, q5, ?_⟩
          rw [validateCoordinate_mode]
          exact h1
  refine ⟨hst, key.1, key.2.1, key.2.2, fun hp => ?_⟩
  rcases key.2.2 with k | ⟨_, _, k, _⟩
  · exact k
  · omega

/-- A violation at a concrete input: in Coordinate mode with memory `(3, 50)`
the record at `(0, 10)` is a violation and the memory is still `(3, 50)`. -/
theorem validateSortOrder_violation_memory_witness :
    (validateSortOrder asciiOps (coordinateSessionAt 3 50) (recordAt 0 10)
        plainHeader).2.myStatus = Status.INVALID_SORT ∧
      (validateSortOrder asciiOps (coordinateSessionAt 3 50) (recordAt 0 10)
        plainHeader).2.myPrevRefID = 3 ∧
      (validateSortOrder asciiOps (coordinateSessionAt 3 50) (recordAt 0 10)
        plainHeader).2.myPrevCoord = 50 :=
  have h := validateSortOrder_violation_memory asciiOps (coordinateSessionAt 3 50)
    (recordAt 0 10) plainHeader (by decide)
  ⟨h.1, h.2.1, h.2.2.2.2 (by decide)⟩


/-! ## A write that fails after validation -/

theorem validateSortOrder_accept_memory (ops : StringOps) (s : SamFile) (r : SamRecord)
    (header : SamFileHeader) (hv : (validateSortOrder ops s r header).1 = true) :
    (s.mySortedType = SortedType.COORDINATE →
        (validateSortOrder ops s r header).2.mySortedType = SortedType.COORDINATE ∧
        (validateSortOrder ops s r header).2.myPrevRefID = r.referenceID ∧
        (validateSortOrder ops s r header).2.myPrevCoord = r.position ∧
        (validateSortOrder ops s r header).2.myPrevReadName = s.myPrevReadName) ∧
      (s.mySortedType = SortedType.QUERY_NAME →
        (validateSortOrder ops s r header).2.mySortedType = SortedType.QUERY_NAME ∧
        (validateSortOrder ops s r header).2.myPrevRefID = s.myPrevRefID ∧
        (validateSortOrder ops s r header).2.myPrevCoord = s.myPrevCoord ∧
        (validateSortOrder ops s r header).2.myPrevReadName = r.readName) ∧
      (s.mySortedType = SortedType.UNSORTED → (validateSortOrder ops s r header).2 = s) := by
  refine ⟨fun hc => ?_, fun hq => ?_, fun hu => ?_⟩
  · have e := validateSortOrder_coordinate ops s r header hc
    rw [e] at hv ⊢
    obtain ⟨a1, a2, _⟩ := validateCoordinate_accept s r hv
    refine ⟨(validateCoordinate_mode s r).trans hc, a1, a2, ?_⟩
    unfold validateCoordinate
    simp only
    split_ifs <;> rfl
  · obtain ⟨_, b2, _⟩ := validateSortOrder_queryName ops s r header hq
    rw [b2 hv]
    exact ⟨hq, rfl, rfl, rfl⟩
  · unfold validateSortOrder
    simp [hu]

/-- C34 as stated fails under the Unsorted policy, the one every open leaves:
the write of the record at `(0, 10)` passes validation and fails in the
backend, and the validator memory is still `(0, -1)`, not that of the record. -/
theorem WriteRecord_failed_write_unsorted_counterexample :
    (validateSortOrder asciiOps (writingSession SortedType.UNSORTED) (recordAt 0 10)
        plainHeader).1 = true ∧
      (WriteRecord asciiOps (scriptedExternal none none true true Status.SUCCESS false)
        (writingSession SortedType.UNSORTED) plainHeader (recordAt 0 10)).outcome =
        Outcome.returned false ∧
      (WriteRecord asciiOps (scriptedExternal none none true true Status.SUCCESS false)
        (writingSession SortedType.UNSORTED) plainHeader (recordAt 0 10)).session.myPrevRefID =
        0 ∧
      (WriteRecord asciiOps (scriptedExternal none none true true Status.SUCCESS false)
        (writingSession SortedType.UNSORTED) plainHeader (recordAt 0 10)).session.myPrevCoord =
        -1 ∧
      ¬ ((WriteRecord asciiOps (scriptedExternal none none true true Status.SUCCESS false)
        (writingSession SortedType.UNSORTED) plainHeader (recordAt 0 10)).session.myPrevCoord =
        (recordAt 0 10).position) := by
  refine ⟨?_, ?_, ?_, ?_, ?_⟩ <;> decide

/-- C34, amended: when `WriteRecord` passes sort validation and the backend
write then fails, it returns false with the counter unchanged.  Under the
Coordinate policy, and under the deferred policy with a header that names
`coordinate`, the validator memory is then already that of the record that was
not written: previous reference index and coordinate are those of the record;
under the QueryName policy, and under the deferred policy with a header that
names `queryname`, the previous read name is its name.  The policy is then
Coordinate or QueryName, so the next record is checked against the unwritten
one.  Under the Unsorted policy the validator memory is what it was. -/
theorem WriteRecord_failed_write_memory (ops : StringOps) (ext : External) (s : SamFile)
    (header : SamFileHeader) (record : SamRecord) (itf : GenericSamInterface)
    (hopen : s.myIsOpenForWrite = true) (hhdr : s.myHasHeader = true)
    (hvalid : (validateSortOrder ops s record header).1 = true)
    (hitf : s.myInterfacePtr = some itf)
    (hfail : itf.writeRecord ext record ≠ Status.SUCCESS) :
    (WriteRecord ops ext s header record).outcome = Outcome.returned false ∧
      (WriteRecord ops ext s header record).session.myRecordCount = s.myRecordCount ∧
      (WriteRecord ops ext s header record).calls = [BackendCall.writeRecord record] ∧
      ((s.mySortedType = SortedType.COORDINATE ∨
          (s.mySortedType = SortedType.FLAG ∧
            getSortOrderFromHeader header = SortedType.COORDINATE)) →
        (WriteRecord ops ext s header record).session.mySortedType = SortedType.COORDINATE ∧
        (WriteRecord ops ext s header record).session.myPrevRefID = record.referenceID ∧
        (WriteRecord ops ext s header record).session.myPrevCoord = record.position ∧
        ∀ next : SamRecord,
          (validateSortOrder ops (WriteRecord ops ext s header record).session next header).1 =
            (validateSortOrder ops
              { s with
                mySortedType := SortedType.COORDINATE, myPrevRefID := record.referenceID,
                myPrevCoord := record.position }
              next header).1) ∧
      ((s.mySortedType = SortedType.QUERY_NAME ∨
          (s.mySortedType = SortedType.FLAG ∧
            getSortOrderFromHeader header = SortedType.QUERY_NAME)) →
        (WriteRecord ops ext s header record).session.mySortedType = SortedType.QUERY_NAME ∧
        (WriteRecord ops ext s header record).session.myPrevReadName = record.readName ∧
        ∀ next : SamRecord,
          (validateSortOrder ops (WriteRecord ops ext s header record).session next header).1 =
            (validateSortOrder ops
              { s with
                mySortedType := SortedType.QUERY_NAME, myPrevReadName := record.readName }
              next header).1) ∧
      (s.mySortedType = SortedType.UNSORTED →
        (WriteRecord ops ext s header record).session.mySortedType = SortedType.UNSORTED ∧
        (WriteRecord ops ext s header record).session.myPrevRefID = s.myPrevRefID ∧
        (WriteRecord ops ext s header record).session.myPrevCoord = s.myPrevCoord ∧
        (WriteRecord ops ext s header record).session.myPrevReadName = s.myPrevReadName) := by
  obtain ⟨_, f2, _⟩ := validateSortOrder_frame ops s record header
  rw [WriteRecord_valid ops ext s header record itf hopen hhdr hvalid hitf, if_neg hfail]
  refine ⟨rfl, f2, rfl, fun hc => ?_, fun hq => ?_, fun hu => ?_⟩
  · have key : (validateSortOrder ops s record header).2.mySortedType =
          SortedType.COORDINATE ∧
        (validateSortOrder ops s record header).2.myPrevRefID = record.referenceID ∧
        (validateSortOrder ops s record header).2.myPrevCoord = record.position ∧
        (validateSortOrder ops s record header).2.myPrevReadName = s.myPrevReadName := by
      rcases hc with hc | ⟨hf, hr⟩
      · exact (validateSortOrder_accept_memory ops s record header hvalid).1 hc
      · have e := validateSortOrder_deferred ops s record header hf (by rw [hr]; decide)
        rw [e] at hvalid ⊢
        exact (validateSortOrder_accept_memory ops _ record header hvalid).1 hr
    obtain ⟨k1, k2, k3, k4⟩ := key
    refine ⟨k1, k2, k3, fun next => ?_⟩
    exact validateSortOrder_verdict_agree ops
      { (validateSortOrder ops s record header).2 with
        myStatus := itf.writeRecord ext record }
      { s with
        mySortedType := SortedType.COORDINATE, myPrevRefID := record.referenceID,
        myPrevCoord := record.position } next header k1 k2 k3 k4
  · have key : (validateSortOrder ops s record header).2.mySortedType =
          SortedType.QUERY_NAME ∧
        (validateSortOrder ops s record header).2.myPrevRefID = s.myPrevRefID ∧
        (validateSortOrder ops s record header).2.myPrevCoord = s.myPrevCoord ∧
        (validateSortOrder ops s record header).2.myPrevReadName = record.readName := by
      rcases hq with hq | ⟨hf, hr⟩
      · exact (validateSortOrder_accept_memory ops s record header hvalid).2.1 hq
      · have e := validateSortOrder_deferred ops s record header hf (by rw [hr]; decide)
        rw [e] at hvalid ⊢
        exact (validateSortOrder_accept_memory ops _ record header hvalid).2.1 hr
    obtain ⟨k1, k2, k3, k4⟩ := key
    refine ⟨k1, k4, fun next => ?_⟩
    exact validateSortOrder_verdict_agree ops
      { (validateSortOrder ops s record header).2 with
        myStatus := itf.writeRecord ext record }
      { s with mySortedType := SortedType.QUERY_NAME, myPrevReadName := record.readName }
      next header k1 k2 k3 k4
  · rw [(validateSortOrder_accept_memory ops s record header hvalid).2.2 hu]
    exact ⟨hu, rfl, rfl, rfl⟩

/-- C34 at a concrete input: in Coordinate mode with reset memory the record at
`(0, 10)` passes validation and `sam_write1` fails; the counter stays 0 and the
memory is `(0, 10)`. -/
theorem WriteRecord_failed_write_memory_witness :
    (WriteRecord asciiOps
        (scriptedExternal none none true true Status.SUCCESS false)
        (writingSession SortedType.COORDINATE) plainHeader (recordAt 0 10)).outcome =
        Outcome.returned false ∧
      (WriteRecord asciiOps
        (scriptedExternal none none true true Status.SUCCESS false)
        (writingSession SortedType.COORDINATE) plainHeader
        (recordAt 0 10)).session.myRecordCount = 0 ∧
      (WriteRecord asciiOps
        (scriptedExternal none none true true Status.SUCCESS false)
        (writingSession SortedType.COORDINATE) plainHeader
        (recordAt 0 10)).session.myPrevRefID = 0 ∧
      (WriteRecord asciiOps
        (scriptedExternal none none true true Status.SUCCESS false)
        (writingSession SortedType.COORDINATE) plainHeader
        (recordAt 0 10)).session.myPrevCoord = 10 :=
  have h := WriteRecord_failed_write_memory asciiOps
    (scriptedExternal none none true true Status.SUCCESS false)
    (writingSession SortedType.COORDINATE) plainHeader (recordAt 0 10) (streamOf [])
    rfl rfl (by decide) rfl (by decide)
  ⟨h.1, h.2.1, (h.2.2.2.1 (Or.inl rfl)).2.1, (h.2.2.2.1 (Or.inl rfl)).2.2.1⟩


/-! ## Reading on after the end of the region -/

/-- C35: `ReadRecord` does not depend on the status the session holds on entry
(it is overwritten with `SUCCESS` first), so `NO_MORE_RECS` is not latched.  On
the region `0:100-200` over the stream with candidates at 250 and then 150 of
reference 0, the first call ends with false and `NO_MORE_RECS` on the candidate
at 250 (given fuel for two evaluations of the loop condition), and the call
after it returns true with the candidate at 150, which lies inside the region;
the backend is then empty. -/
theorem ReadRecord_noMoreRecords_not_latched :
    (∀ (ops : StringOps) (fuel : Nat) (s : SamFile) (st : Status) (header : SamFileHeader)
        (record : SamRecord),
        ReadRecord ops fuel { s with myStatus := st } header record =
          ReadRecord ops fuel s header record) ∧
      ∃ s1 s2,
        (∀ fuel : Nat, ReadRecord asciiOps (fuel + 2)
            (readingSession 0 100 200 true 0 0 [recordAt 0 250, recordAt 0 150])
            plainHeader (recordAt 0 0) =
          some (Outcome.returned false, s1, recordAt 0 250)) ∧
        s1.myStatus = Status.NO_MORE_RECS ∧
        s1.myInterfacePtr = some (streamOf [recordAt 0 150]) ∧
        (∀ fuel : Nat, ReadRecord asciiOps (fuel + 1) s1 plainHeader (recordAt 0 250) =
          some (Outcome.returned true, s2, recordAt 0 150)) ∧
        s2.myStatus = Status.SUCCESS ∧
        s2.myInterfacePtr = some (streamOf []) ∧
        Accepts s1 (recordAt 0 150) ∧
        Terminates (readingSession 0 100 200 true 0 0 [recordAt 0 250, recordAt 0 150])
          (recordAt 0 250) :=
  ⟨fun _ _ _ _ _ _ => rfl,
    { readingSession 0 100 200 true 0 0 [recordAt 0 250, recordAt 0 150] with
      myStatus := Status.NO_MORE_RECS, myInterfacePtr := some (streamOf [recordAt 0 150]) },
    { readingSession 0 100 200 true 0 0 [recordAt 0 250, recordAt 0 150] with
      myStatus := Status.SUCCESS, myInterfacePtr := some (streamOf []), myRecordCount := 1 },
    fun _ => rfl, rfl, rfl, fun _ => rfl, rfl, rfl, rfl, ⟨rfl, rfl⟩⟩


/-! ## What the read loop leaves alone -/

theorem SameSection_refl (s : SamFile) : SameSection s s :=
  ⟨rfl, rfl, rfl, rfl, rfl, rfl, rfl, rfl, rfl⟩

theorem SameSection_trans {s t u : SamFile} (h1 : SameSection s t) (h2 : SameSection t u) :
    SameSection s u :=
  ⟨h2.refID.trans h1.refID, h2.startPos.trans h1.startPos, h2.endPos.trans h1.endPos,
    h2.overlap.trans h1.overlap, h2.refName.trans h1.refName,
    h2.newSection.trans h1.newSection, h2.required.trans h1.required,
    h2.excluded.trans h1.excluded, h2.format.trans h1.format⟩

theorem SameValidator_refl (s : SamFile) : SameValidator s s :=
  ⟨rfl, rfl, rfl, rfl⟩

theorem SameValidator_trans {s t u : SamFile} (h1 : SameValidator s t)
    (h2 : SameValidator t u) : SameValidator s u :=
  ⟨h2.policy.trans h1.policy, h2.prevRefID.trans h1.prevRefID,
    h2.prevCoord.trans h1.prevCoord, h2.prevReadName.trans h1.prevReadName⟩

theorem readRecord_format (itf : GenericSamInterface) (record : SamRecord) (st : Status) :
    (itf.readRecord record st).1.format = itf.format := by
  obtain ⟨fp, fmt, idx, itr, hdr, eof, recs⟩ := itf
  rcases itr with _ | (_ | _) <;> rcases recs with _ | _ <;> cases idx <;> cases fp <;>
    simp [GenericSamInterface.readRecord, GenericSamInterface.format]

theorem validateCoordinate_section (s : SamFile) (r : SamRecord) :
    SameSection s (validateCoordinate s r).2 := by
  unfold validateCoordinate
  simp only
  split_ifs <;> exact ⟨rfl, rfl, rfl, rfl, rfl, rfl, rfl, rfl, rfl⟩

theorem validateQueryName_section (ops : StringOps) (s : SamFile) (r : SamRecord) :
    SameSection s (validateQueryName ops s r).2 := by
  unfold validateQueryName
  simp only
  split_ifs <;> exact ⟨rfl, rfl, rfl, rfl, rfl, rfl, rfl, rfl, rfl⟩

theorem validateSortOrder_section (ops : StringOps) (s : SamFile) (r : SamRecord)
    (header : SamFileHeader) : SameSection s (validateSortOrder ops s r header).2 := by
  unfold validateSortOrder
  by_cases h0 : s.mySortedType = SortedType.UNSORTED
  · rw [if_pos h0]
    exact SameSection_refl s
  · simp only [h0, if_false]
    generalize hs1 : (if s.mySortedType = SortedType.FLAG then
        { s with mySortedType := getSortOrderFromHeader header } else s) = s1
    have hq : SameSection s s1 := by
      rw [← hs1]
      split_ifs <;> exact ⟨rfl, rfl, rfl, rfl, rfl, rfl, rfl, rfl, rfl⟩
    by_cases h1 : s1.mySortedType = SortedType.QUERY_NAME
    · simp only [h1, if_true]
      exact SameSection_trans hq (validateQueryName_section ops s1 r)
    · simp only [h1, if_false]
      exact SameSection_trans hq (validateCoordinate_section s1 r)


theorem checkRecordInSection_section (s : SamFile) (r : SamRecord) :
    SameSection s (checkRecordInSection s r).2 ∧
      SameValidator s (checkRecordInSection s r).2 ∧
      (checkRecordInSection s r).2.myRecordCount = s.myRecordCount := by
  rw [checkRecordInSection_frame]
  exact ⟨⟨rfl, rfl, rfl, rfl, rfl, rfl, rfl, rfl, rfl⟩, ⟨rfl, rfl, rfl, rfl⟩, rfl⟩

theorem readLoop_cases (ops : StringOps) (header : SamFileHeader) :
    ∀ (fuel : Nat) (s : SamFile) (record : SamRecord) (out : Outcome) (s1 : SamFile)
      (record1 : SamRecord),
      readLoop ops header fuel s record = some (out, s1, record1) →
      (SameSection s s1 ∧ SameValidator s s1 ∧ s1.myRecordCount = s.myRecordCount ∧
          out ≠ Outcome.returned true) ∨
        ∃ sv, SameSection s sv ∧ SameValidator s sv ∧
          sv.myRecordCount = (s.myRecordCount + 1) % 4294967296 ∧
          Accepts sv record1 ∧ PassesFlags sv record1 ∧
          out = Outcome.returned (validateSortOrder ops sv record1 header).1 ∧
          s1 = (validateSortOrder ops sv record1 header).2 := by
  intro fuel
  induction fuel with
  | zero =>
    intro s record out s1 record1 h
    simp [readLoop] at h
  | succ n ih =>
    intro s record out s1 record1 h
    rw [readLoop] at h
    split_ifs at h with h0
    · simp only [Option.some.injEq, Prod.mk.injEq] at h
      rw [← h.2.1, ← h.1]
      exact Or.inl ⟨SameSection_refl s, SameValidator_refl s, rfl, by simp⟩
    · split at h
      · simp only [Option.some.injEq, Prod.mk.injEq] at h
        rw [← h.2.1, ← h.1]
        exact Or.inl ⟨SameSection_refl s, SameValidator_refl s, rfl, by simp⟩
      · rename_i itf hitf
        simp only at h
        have hs : SameSection s
            { s with myInterfacePtr := some (itf.readRecord record s.myStatus).1,
                     myStatus := (itf.readRecord record s.myStatus).2.2 } :=
          ⟨rfl, rfl, rfl, rfl, rfl, rfl, rfl, rfl, by
            simp only [hitf, Option.map_some', readRecord_format]⟩
        have hv : SameValidator s
            { s with myInterfacePtr := some (itf.readRecord record s.myStatus).1,
                     myStatus := (itf.readRecord record s.myStatus).2.2 } :=
          ⟨rfl, rfl, rfl, rfl⟩
        obtain ⟨c1, c2, c3⟩ := checkRecordInSection_section
          { s with myInterfacePtr := some (itf.readRecord record s.myStatus).1,
                   myStatus := (itf.readRecord record s.myStatus).2.2 }
          (itf.readRecord record s.myStatus).2.1
        have hsc := SameSection_trans hs c1
        have hvc := SameValidator_trans hv c2
        have rec : ∀ t : SamFile, SameSection s t → SameValidator s t →
            t.myRecordCount = s.myRecordCount →
            readLoop ops header n t (itf.readRecord record s.myStatus).2.1 =
              some (out, s1, record1) →
            (SameSection s s1 ∧ SameValidator s s1 ∧ s1.myRecordCount = s.myRecordCount ∧
                out ≠ Outcome.returned true) ∨
              ∃ sv, SameSection s sv ∧ SameValidator s sv ∧
                sv.myRecordCount = (s.myRecordCount + 1) % 4294967296 ∧
                Accepts sv record1 ∧ PassesFlags sv record1 ∧
                out = Outcome.returned (validateSortOrder ops sv record1 header).1 ∧
                s1 = (validateSortOrder ops sv record1 header).2 := by
          intro t ts tv tc ht
          rcases ih t _ out s1 record1 ht with ⟨a, b, c, d⟩ | ⟨sv, a, b, c, d, e, f, g⟩
          · exact Or.inl ⟨SameSection_trans ts a, SameValidator_trans tv b, c.trans tc, d⟩
          · exact Or.inr ⟨sv, SameSection_trans ts a, SameValidator_trans tv b,
              by rw [c, tc], d, e, f, g⟩
        split_ifs at h with h1 h2 h3 h4
        · simp only [Option.some.injEq, Prod.mk.injEq] at h
          rw [← h.2.1, ← h.1]
          exact Or.inl ⟨hs, hv, rfl, by simp⟩
        · exact rec _ hsc hvc c3 h
        · exact rec _ hsc hvc c3 h
        · exact rec _ hsc hvc c3 h
        · simp only [Option.some.injEq, Prod.mk.injEq] at h
          obtain ⟨e1, e2, e3⟩ := h
          subst e1 e2 e3
          refine Or.inr ⟨_, ?_, ?_, ?_, ?_, ?_, rfl, rfl⟩
          · exact SameSection_trans hsc ⟨rfl, rfl, rfl, rfl, rfl, rfl, rfl, rfl, rfl⟩
          · exact SameValidator_trans hvc ⟨rfl, rfl, rfl, rfl⟩
          · simp only [c3]
          · unfold Accepts
            refine Eq.trans (checkRecordInSection_agree_verdict _
              { s with myInterfacePtr := some (itf.readRecord record s.myStatus).1,
                       myStatus := (itf.readRecord record s.myStatus).2.2 }
              _ c1.refID c1.startPos c1.endPos c1.overlap) ?_
            simpa using h2
          · exact ⟨not_not.mp h3, not_not.mp h4⟩


theorem ReadRecord_cases (ops : StringOps) (fuel : Nat) (s : SamFile)
    (header : SamFileHeader) (record : SamRecord) (out : Outcome) (s1 : SamFile)
    (record1 : SamRecord)
    (h : ReadRecord ops fuel s header record = some (out, s1, record1)) :
    (SameValidator s s1 ∧ s1.myRecordCount = s.myRecordCount ∧
        out ≠ Outcome.returned true) ∨
      ∃ sv, SameValidator s sv ∧
        sv.myRecordCount = (s.myRecordCount + 1) % 4294967296 ∧
        Accepts sv record1 ∧ PassesFlags sv record1 ∧
        out = Outcome.returned (validateSortOrder ops sv record1 header).1 ∧
        s1 = (validateSortOrder ops sv record1 header).2 := by
  have loop : ∀ t : SamFile, SameValidator s t → t.myRecordCount = s.myRecordCount →
      readLoop ops header fuel t record = some (out, s1, record1) →
      (SameValidator s s1 ∧ s1.myRecordCount = s.myRecordCount ∧
          out ≠ Outcome.returned true) ∨
        ∃ sv, SameValidator s sv ∧
          sv.myRecordCount = (s.myRecordCount + 1) % 4294967296 ∧
          Accepts sv record1 ∧ PassesFlags sv record1 ∧
          out = Outcome.returned (validateSortOrder ops sv record1 header).1 ∧
          s1 = (validateSortOrder ops sv record1 header).2 := by
    intro t tv tc ht
    rcases readLoop_cases ops header fuel t record out s1 record1 ht with
      ⟨_, b, c, d⟩ | ⟨sv, _, b, c, d, e, f, g⟩
    · exact Or.inl ⟨SameValidator_trans tv b, c.trans tc, d⟩
    · exact Or.inr ⟨sv, SameValidator_trans tv b, by rw [c, tc], d, e, f, g⟩
  have hs : SameValidator s { s with myStatus := Status.SUCCESS } := ⟨rfl, rfl, rfl, rfl⟩
  unfold ReadRecord at h
  simp only at h
  split_ifs at h with h1 h2 h3
  · simp only [Option.some.injEq, Prod.mk.injEq] at h
    rw [← h.2.1, ← h.1]
    exact Or.inl ⟨⟨rfl, rfl, rfl, rfl⟩, rfl, by simp⟩
  · simp only [Option.some.injEq, Prod.mk.injEq] at h
    rw [← h.2.1, ← h.1]
    exact Or.inl ⟨⟨rfl, rfl, rfl, rfl⟩, rfl, by simp⟩
  · split at h
    · simp only [Option.some.injEq, Prod.mk.injEq] at h
      rw [← h.2.1, ← h.1]
      exact Or.inl ⟨hs, rfl, by simp⟩
    · obtain ⟨_, p2, p3, p4, p5, _, _, p8⟩ :=
        processNewSection_frame { s with myStatus := Status.SUCCESS } header
      split_ifs at h
      · split at h
        · rename_i heq
          rw [heq] at p2 p3 p4 p5 p8
          exact loop _ ⟨p2, p3, p4, p5⟩ p8 h
        · rename_i out2 s2 hne heq
          rw [heq] at p2 p3 p4 p5 p8
          simp only [Option.some.injEq, Prod.mk.injEq] at h
          obtain ⟨e1, e2, _⟩ := h
          subst e1 e2
          refine Or.inl ⟨⟨p2, p3, p4, p5⟩, p8, ?_⟩
          intro hc
          exact hne hc
      · exact loop _ hs rfl h
  · exact loop _ hs rfl h


/-! ## The record counter of a read -/

/-- C32: whatever `ReadRecord` ends with, either the sort validator was not
run, and then the counter, the sort policy and the validator memory are what
they were and the call did not return true, or the validator ran once, on the
returned candidate, which passes the containment check and the flag filter,
with the memory the call started with, and the counter is one higher (modulo
2^32, the getter being a `uint32_t`) whether the validation passes or fails.
And with no region pending, when the backend delivers candidates that are
dropped by the containment check or the flag filter and then one that passes
both, the call returns on that candidate, given fuel for one evaluation of the
loop condition per candidate, with the counter one higher and the verdict of
the validator on the memory the call started with. -/
theorem ReadRecord_counter (ops : StringOps) (s : SamFile) (header : SamFileHeader)
    (record : SamRecord) :
    (∀ (fuel : Nat) (out : Outcome) (s1 : SamFile) (record1 : SamRecord),
      ReadRecord ops fuel s header record = some (out, s1, record1) →
      (s1.myRecordCount = s.myRecordCount ∧ SameValidator s s1 ∧
          out ≠ Outcome.returned true) ∨
        (s1.myRecordCount = (s.myRecordCount + 1) % 4294967296 ∧
          (s.myRecordCount < 4294967295 → s1.myRecordCount = s.myRecordCount + 1) ∧
          ∃ sv, SameValidator s sv ∧ Accepts sv record1 ∧ PassesFlags sv record1 ∧
            out = Outcome.returned (validateSortOrder ops sv record1 header).1 ∧
            s1 = (validateSortOrder ops sv record1 header).2)) ∧
      (s.myIsOpenForRead = true → s.myHasHeader = true → s.myNewSection = false →
        ∀ (itf : GenericSamInterface) (dropped : List SamRecord) (r : SamRecord)
          (rest : List SamRecord) (fuel : Nat),
          s.myInterfacePtr = some itf → Ready itf → itf.pending = dropped ++ r :: rest →
          (∀ x ∈ dropped, Dropped { s with myStatus := Status.SUCCESS } x) →
          Accepts s r → PassesFlags s r → dropped.length < fuel →
          ∃ s1, ReadRecord ops fuel s header record =
              some (Outcome.returned (validateSortOrder ops s r header).1, s1, r) ∧
            s1.myRecordCount = (s.myRecordCount + 1) % 4294967296 ∧
            (s.myRecordCount < 4294967295 → s1.myRecordCount = s.myRecordCount + 1)) := by
  constructor
  · intro fuel out s1 record1 h
    rcases ReadRecord_cases ops fuel s header record out s1 record1 h with
      ⟨a, b, c⟩ | ⟨sv, a, b, c, d, e, f⟩
    · exact Or.inl ⟨b, a, c⟩
    · have hc : s1.myRecordCount = (s.myRecordCount + 1) % 4294967296 := by
        rw [f, (validateSortOrder_frame ops sv record1 header).2.1, b]
      refine Or.inr ⟨hc, fun hlt => ?_, sv, a, c, d, e, f⟩
      rw [hc]
      omega
  · intro hopen hhdr hnew itf dropped r rest fuel hitf hready hpend hdrop hacc hfl hfuel
    have hacc2 : Accepts { s with myStatus := Status.SUCCESS } r := by
      unfold Accepts at hacc ⊢
      rw [(checkRecordInSection_agree_verdict s { s with myStatus := Status.SUCCESS } r
        rfl rfl rfl rfl).symm]
      exact hacc
    obtain ⟨itf1, h1, _⟩ := readLoop_admit_after ops header dropped r rest
      { s with myStatus := Status.SUCCESS } record itf fuel rfl hitf hready hdrop hacc2 hfl
      hpend hfuel
    have hv := validateSortOrder_verdict_agree ops
      { s with myStatus := Status.SUCCESS, myInterfacePtr := some itf1,
               myRecordCount := (s.myRecordCount + 1) % 4294967296 }
      s r header rfl rfl rfl rfl
    have hc := (validateSortOrder_frame ops
      { s with myStatus := Status.SUCCESS, myInterfacePtr := some itf1,
               myRecordCount := (s.myRecordCount + 1) % 4294967296 } r header).2.1
    refine ⟨(validateSortOrder ops
      { s with myStatus := Status.SUCCESS, myInterfacePtr := some itf1,
               myRecordCount := (s.myRecordCount + 1) % 4294967296 } r header).2, ?_, hc, ?_⟩
    · rw [ReadRecord_loop ops fuel s header record hopen hhdr hnew, h1]
      simp only [Option.some.injEq, Prod.mk.injEq, Outcome.returned.injEq, and_true]
      exact hv
    · intro hlt
      rw [hc]
      show (s.myRecordCount + 1) % 4294967296 = s.myRecordCount + 1
      omega

/-- C32 at a concrete input: on the region `0:100-200` with flag `0x40`
excluded, the candidate that ends at 20 is skipped, the one with flag `0x40` is
filtered out and the one at 150 is returned; the counter goes from 0 to 1. -/
theorem ReadRecord_counter_witness :
    ∃ s1, ReadRecord asciiOps 3
          (readingSession 0 100 200 true 0 64
            [recordSpan 0 10 20, recordFlagged 0 150 160 64, recordAt 0 150])
          plainHeader (recordAt 0 0) =
        some (Outcome.returned
          (validateSortOrder asciiOps
            (readingSession 0 100 200 true 0 64
              [recordSpan 0 10 20, recordFlagged 0 150 160 64, recordAt 0 150])
            (recordAt 0 150) plainHeader).1, s1, recordAt 0 150) ∧
      s1.myRecordCount = 0 + 1 :=
  have h := (ReadRecord_counter asciiOps
    (readingSession 0 100 200 true 0 64
      [recordSpan 0 10 20, recordFlagged 0 150 160 64, recordAt 0 150])
    plainHeader (recordAt 0 0)).2 rfl rfl rfl
    (streamOf [recordSpan 0 10 20, recordFlagged 0 150 160 64, recordAt 0 150])
    [recordSpan 0 10 20, recordFlagged 0 150 160 64] (recordAt 0 150) [] 3 rfl
    (Ready_streamOf _) rfl
    (fun x hx => by
      simp only [List.mem_cons, List.mem_singleton, List.not_mem_nil, or_false] at hx
      rcases hx with hx | hx
      · rw [hx]
        exact Or.inl ⟨rfl, by decide⟩
      · rw [hx]
        exact Or.inr ⟨rfl, fun hp => absurd hp.2 (by decide)⟩)
    rfl ⟨by decide, by decide⟩ (by decide)
  h.elim fun s1 hs => ⟨s1, hs.1, hs.2.2 (by decide)⟩


/-! ## Resolving a reference name -/

theorem readLoop_section (ops : StringOps) (header : SamFileHeader) (fuel : Nat)
    (s : SamFile) (record : SamRecord) (out : Outcome) (s1 : SamFile) (record1 : SamRecord)
    (h : readLoop ops header fuel s record = some (out, s1, record1)) : SameSection s s1 := by
  rcases readLoop_cases ops header fuel s record out s1 record1 h with
    ⟨a, _⟩ | ⟨sv, a, _, _, _, _, _, g⟩
  · exact a
  · rw [g]
    exact SameSection_trans a (validateSortOrder_section ops sv record1 header)

theorem ReadRecord_pending (ops : StringOps) (fuel : Nat) (s : SamFile)
    (header : SamFileHeader) (record : SamRecord) (itf : GenericSamInterface)
    (hopen : s.myIsOpenForRead = true) (hhdr : s.myHasHeader = true)
    (hnew : s.myNewSection = true) (hitf : s.myInterfacePtr = some itf)
    (hfmt : itf.format ≠ HtsExactFormat.cram) :
    ReadRecord ops fuel s header record =
      match processNewSection { s with myStatus := Status.SUCCESS } header with
      | (Outcome.returned true, s1) => readLoop ops header fuel s1 record
      | (out, s1) => some (out, s1, record) := by
  unfold ReadRecord
  simp only [hopen, hhdr, hnew, hitf, hfmt, Bool.true_eq_false, if_false, if_true, ne_eq,
    not_false_eq_true]

theorem processNewSection_named (u : SamFile) (header : SamFileHeader) (idx : BamIndex)
    (hbam : u.myIsBamOpenForRead = true) (hhdr : u.myHasHeader = true)
    (hidx : u.myBamIndex = some idx) (hname : u.myRefName ≠ "") :
    (header.getReferenceID u.myRefName = NO_REF_ID →
        ∃ u1, processNewSection u header = (Outcome.returned false, u1) ∧
          u1.myStatus = Status.NO_MORE_RECS ∧ u1.myRefID = NO_REF_ID ∧ u1.myRefName = "" ∧
          u1.myNewSection = false) ∧
      (header.getReferenceID u.myRefName ≠ NO_REF_ID →
        ∃ u1, processNewSection u header = (Outcome.returned true, u1) ∧
          u1.myRefID = header.getReferenceID u.myRefName ∧ u1.myRefName = "" ∧
          u1.myNewSection = false ∧ u1.myStartPos = u.myStartPos ∧
          u1.myEndPos = u.myEndPos ∧ u1.myOverlapSection = u.myOverlapSection ∧
          u1.myInterfacePtr = u.myInterfacePtr ∧
          (∀ chunks, idx.getChunksForRegion (header.getReferenceID u.myRefName)
              u.myStartPos u.myEndPos = some chunks →
            u1.myStatus = Status.SUCCESS ∧ u1.myChunksToRead = chunks) ∧
          (idx.getChunksForRegion (header.getReferenceID u.myRefName)
              u.myStartPos u.myEndPos = none →
            u1.myStatus = Status.FAIL_PARSE ∧ u1.myChunksToRead = [])) := by
  constructor
  · intro hno
    refine ⟨{ u with
      myNewSection := false, myChunksToRead := [], myCurrentChunkEnd := 0,
      myRefID := header.getReferenceID u.myRefName, myRefName := "",
      myStatus := Status.NO_MORE_RECS }, ?_, rfl, hno, rfl, rfl⟩
    unfold processNewSection
    simp [hidx, hbam, hhdr, hname, hno]
  · intro hyes
    unfold processNewSection fetchChunks
    cases hq : idx.getChunksForRegion (header.getReferenceID u.myRefName) u.myStartPos
        u.myEndPos <;>
      simp [hidx, hbam, hhdr, hname, hyes, hq]

theorem processNewSection_unnamed (u : SamFile) (header : SamFileHeader) (idx : BamIndex)
    (hbam : u.myIsBamOpenForRead = true) (hhdr : u.myHasHeader = true)
    (hidx : u.myBamIndex = some idx) (hname : u.myRefName = "") :
    ∃ u1, processNewSection u header = (Outcome.returned true, u1) ∧
      u1.myRefID = u.myRefID ∧ u1.myRefName = "" ∧
      u1.myNewSection = false ∧ u1.myStartPos = u.myStartPos ∧
      u1.myEndPos = u.myEndPos ∧ u1.myOverlapSection = u.myOverlapSection ∧
      u1.myInterfacePtr = u.myInterfacePtr ∧
      (∀ chunks, idx.getChunksForRegion u.myRefID u.myStartPos u.myEndPos = some chunks →
        u1.myStatus = Status.SUCCESS ∧ u1.myChunksToRead = chunks) ∧
      (idx.getChunksForRegion u.myRefID u.myStartPos u.myEndPos = none →
        u1.myStatus = Status.FAIL_PARSE ∧ u1.myChunksToRead = []) := by
  unfold processNewSection fetchChunks
  cases hq : idx.getChunksForRegion u.myRefID u.myStartPos u.myEndPos <;>
    simp [hidx, hbam, hhdr, hname, hq]

theorem setReadSection_format (rx : RegionExternal) (itf : GenericSamInterface)
    (ref_id beg endPos : Int) :
    (itf.setReadSection rx ref_id beg endPos).2.format = itf.format := by
  obtain ⟨f1, f2, _⟩ := (setReadSection_file rx itf ref_id beg endPos).1
  unfold GenericSamInterface.format
  rw [f1, f2]

theorem SetReadSectionByName_state_unnamed (rx : RegionExternal) (s : SamFile)
    (refName : String) (start endPos : Int) (overlap : Bool) (itf : GenericSamInterface)
    (h : s.myIsOpenForRead = true) (hitf : s.myInterfacePtr = some itf)
    (hn : refName = "" ∨ refName = "*") (he : s.myRefName = "") :
    (SetReadSectionByName rx s refName start endPos overlap).2 =
      { s with
        myNewSection := true, myOverlapSection := overlap, myStartPos := start,
        myEndPos := endPos, myRefID := REF_ID_UNMAPPED, myRefName := "",
        myChunksToRead := [], myCurrentChunkEnd := 0, myStatus := Status.SUCCESS,
        myPrevCoord := -1, myPrevRefID := 0, myPrevReadName := "",
        myInterfacePtr := some (itf.setReadSectionByName rx refName
          (if start = -1 then 0 else start)
          (wrapInt32 (if endPos = -1 then 4294967295 else endPos % 4294967296))).2 } := by
  unfold SetReadSectionByName
  simp [h, hitf, hn, he]

/-- Resolution of a region set by name, on a session open for read on a BAM
file with its header read and an index loaded.  With the empty name or `*` the
call stores the unmapped selector with a region pending, and when no name was
stored before, the next `ReadRecord` runs its loop on a session whose target
is the unmapped selector.  Any other name is stored unresolved with the
selector for all references and a region pending, and the next `ReadRecord`
runs its loop on a session whose target reference is the header's reference
index for that name, with the start, end and containment mode of the call, the
name cleared, no region pending, and status `SUCCESS` with the chunks of the
index, or `FAIL_PARSE` when the index has none; whatever that call ends with,
the session still holds that resolved target, and every later `ReadRecord`
goes straight to the loop without resolving again. -/
theorem SetReadSectionByName_resolved_once (rx : RegionExternal) (ops : StringOps)
    (s : SamFile) (header : SamFileHeader) (refName : String) (start endPos : Int)
    (overlap : Bool) (itf : GenericSamInterface) (idx : BamIndex)
    (hopen : s.myIsOpenForRead = true) (hhdr : s.myHasHeader = true)
    (hitf : s.myInterfacePtr = some itf) (hfmt : itf.format = HtsExactFormat.bam)
    (hbam : s.myIsBamOpenForRead = true) (hidx : s.myBamIndex = some idx) :
    ((refName = "" ∨ refName = "*") →
        (SetReadSectionByName rx s refName start endPos overlap).2.myRefID =
          REF_ID_UNMAPPED ∧
        (SetReadSectionByName rx s refName start endPos overlap).2.myNewSection = true ∧
        (s.myRefName = "" →
          ∃ u, u.myRefID = REF_ID_UNMAPPED ∧ u.myRefName = "" ∧
            u.myNewSection = false ∧ u.myStartPos = start ∧ u.myEndPos = endPos ∧
            u.myOverlapSection = overlap ∧
            (∀ chunks, idx.getChunksForRegion REF_ID_UNMAPPED start endPos = some chunks →
              u.myStatus = Status.SUCCESS ∧ u.myChunksToRead = chunks) ∧
            (idx.getChunksForRegion REF_ID_UNMAPPED start endPos = none →
              u.myStatus = Status.FAIL_PARSE ∧ u.myChunksToRead = []) ∧
            ∀ (fuel : Nat) (record : SamRecord),
              ReadRecord ops fuel (SetReadSectionByName rx s refName start endPos overlap).2
                  header record =
                readLoop ops header fuel u record)) ∧
      (¬ (refName = "" ∨ refName = "*") →
        (SetReadSectionByName rx s refName start endPos overlap).2.myRefName = refName ∧
        (SetReadSectionByName rx s refName start endPos overlap).2.myRefID = REF_ID_ALL ∧
        (SetReadSectionByName rx s refName start endPos overlap).2.myNewSection = true ∧
        (header.getReferenceID refName ≠ NO_REF_ID →
          ∃ u, u.myRefID = header.getReferenceID refName ∧ u.myRefName = "" ∧
            u.myNewSection = false ∧ u.myStartPos = start ∧ u.myEndPos = endPos ∧
            u.myOverlapSection = overlap ∧
            (∀ chunks, idx.getChunksForRegion (header.getReferenceID refName) start endPos =
                some chunks →
              u.myStatus = Status.SUCCESS ∧ u.myChunksToRead = chunks) ∧
            (idx.getChunksForRegion (header.getReferenceID refName) start endPos = none →
              u.myStatus = Status.FAIL_PARSE ∧ u.myChunksToRead = []) ∧
            ∀ (fuel : Nat) (record : SamRecord),
              ReadRecord ops fuel (SetReadSectionByName rx s refName start endPos overlap).2
                  header record =
                readLoop ops header fuel u record) ∧
        ∀ (fuel : Nat) (record : SamRecord) (out : Outcome) (s1 : SamFile)
          (record1 : SamRecord),
          ReadRecord ops fuel (SetReadSectionByName rx s refName start endPos overlap).2
              header record = some (out, s1, record1) →
          s1.myRefID = header.getReferenceID refName ∧ s1.myRefName = "" ∧
            s1.myNewSection = false ∧
            ∀ (fuel2 : Nat) (record2 : SamRecord),
              ReadRecord ops fuel2 s1 header record2 =
                readLoop ops header fuel2 { s1 with myStatus := Status.SUCCESS } record2) := by
  have t_fmt : (itf.setReadSectionByName rx refName (if start = -1 then 0 else start)
      (wrapInt32 (if endPos = -1 then 4294967295 else endPos % 4294967296))).2.format ≠
      HtsExactFormat.cram := by
    unfold GenericSamInterface.setReadSectionByName
    rw [setReadSection_format, hfmt]
    decide
  constructor
  · intro hn
    refine ⟨?_, ?_, fun he => ?_⟩
    · unfold SetReadSectionByName
      simp [hopen, hitf, hn]
    · unfold SetReadSectionByName
      simp [hopen, hitf, hn]
    · have hT := SetReadSectionByName_state_unnamed rx s refName start endPos overlap itf
        hopen hitf hn he
      generalize (SetReadSectionByName rx s refName start endPos overlap).2 = T at hT ⊢
      have t_open : T.myIsOpenForRead = true := by rw [hT]; exact hopen
      have t_hdr : T.myHasHeader = true := by rw [hT]; exact hhdr
      have t_new : T.myNewSection = true := by rw [hT]
      have t_bam : T.myIsBamOpenForRead = true := by rw [hT]; exact hbam
      have t_idx : T.myBamIndex = some idx := by rw [hT]; exact hidx
      have t_name : T.myRefName = "" := by rw [hT]
      have t_ref : T.myRefID = REF_ID_UNMAPPED := by rw [hT]
      have t_start : T.myStartPos = start := by rw [hT]
      have t_end : T.myEndPos = endPos := by rw [hT]
      have t_ov : T.myOverlapSection = overlap := by rw [hT]
      have t_itf : T.myInterfacePtr = some (itf.setReadSectionByName rx refName
          (if start = -1 then 0 else start)
          (wrapInt32 (if endPos = -1 then 4294967295 else endPos % 4294967296))).2 := by
        rw [hT]
      clear hT
      obtain ⟨u, p1, p2, p3, p4, p5, p6, p7, _, p9, p10⟩ :=
        processNewSection_unnamed { T with myStatus := Status.SUCCESS } header idx
          t_bam t_hdr t_idx t_name
      have q9 : ∀ chunks, idx.getChunksForRegion REF_ID_UNMAPPED start endPos = some chunks →
          u.myStatus = Status.SUCCESS ∧ u.myChunksToRead = chunks := by
        intro chunks hc
        rw [← t_ref, ← t_start, ← t_end] at hc
        exact p9 chunks hc
      have q10 : idx.getChunksForRegion REF_ID_UNMAPPED start endPos = none →
          u.myStatus = Status.FAIL_PARSE ∧ u.myChunksToRead = [] := by
        intro hc
        rw [← t_ref, ← t_start, ← t_end] at hc
        exact p10 hc
      refine ⟨u, p2.trans t_ref, p3, p4, p5.trans t_start, p6.trans t_end, p7.trans t_ov,
        q9, q10, fun fuel record => ?_⟩
      rw [ReadRecord_pending ops fuel T header record _ t_open t_hdr t_new t_itf t_fmt, p1]
  · intro hn
    have hT := SetReadSectionByName_state rx s refName start endPos overlap itf hopen hitf hn
    have hne : refName ≠ "" := fun h => hn (Or.inl h)
    generalize (SetReadSectionByName rx s refName start endPos overlap).2 = T at hT ⊢
    have t_open : T.myIsOpenForRead = true := by rw [hT]; exact hopen
    have t_hdr : T.myHasHeader = true := by rw [hT]; exact hhdr
    have t_new : T.myNewSection = true := by rw [hT]
    have t_bam : T.myIsBamOpenForRead = true := by rw [hT]; exact hbam
    have t_idx : T.myBamIndex = some idx := by rw [hT]; exact hidx
    have t_name : T.myRefName = refName := by rw [hT]
    have t_ref : T.myRefID = REF_ID_ALL := by rw [hT]
    have t_start : T.myStartPos = start := by rw [hT]
    have t_end : T.myEndPos = endPos := by rw [hT]
    have t_ov : T.myOverlapSection = overlap := by rw [hT]
    have t_itf : T.myInterfacePtr = some (itf.setReadSectionByName rx refName
        (if start = -1 then 0 else start)
        (wrapInt32 (if endPos = -1 then 4294967295 else endPos % 4294967296))).2 := by
      rw [hT]
    clear hT
    subst t_name
    have pn := processNewSection_named { T with myStatus := Status.SUCCESS } header idx
      t_bam t_hdr t_idx hne
    refine ⟨rfl, t_ref, t_new, fun hyes => ?_, fun fuel record out s1 record1 h => ?_⟩
    · obtain ⟨u, p1, p2, p3, p4, p5, p6, p7, _, p9, p10⟩ := pn.2 hyes
      have q9 : ∀ chunks, idx.getChunksForRegion (header.getReferenceID T.myRefName)
            start endPos = some chunks →
          u.myStatus = Status.SUCCESS ∧ u.myChunksToRead = chunks := by
        intro chunks hc
        rw [← t_start, ← t_end] at hc
        exact p9 chunks hc
      have q10 : idx.getChunksForRegion (header.getReferenceID T.myRefName)
            start endPos = none →
          u.myStatus = Status.FAIL_PARSE ∧ u.myChunksToRead = [] := by
        intro hc
        rw [← t_start, ← t_end] at hc
        exact p10 hc
      refine ⟨u, p2, p3, p4, p5.trans t_start, p6.trans t_end, p7.trans t_ov, q9, q10,
        fun fuel record => ?_⟩
      rw [ReadRecord_pending ops fuel T header record _ t_open t_hdr t_new t_itf t_fmt, p1]
    · have ho := ReadRecord_open ops fuel T header record out s1 record1 h
      rw [ReadRecord_pending ops fuel T header record _ t_open t_hdr t_new t_itf t_fmt] at h
      have key : s1.myRefID = header.getReferenceID T.myRefName ∧ s1.myRefName = "" ∧
          s1.myNewSection = false := by
        by_cases hk : header.getReferenceID T.myRefName = NO_REF_ID
        · obtain ⟨u, p1, _, p3, p4, p5⟩ := pn.1 hk
          rw [p1] at h
          simp only [Option.some.injEq, Prod.mk.injEq] at h
          rw [← h.2.1]
          exact ⟨p3.trans hk.symm, p4, p5⟩
        · obtain ⟨u, p1, p2, p3, p4, _⟩ := pn.2 hk
          rw [p1] at h
          have hs := readLoop_section ops header fuel u record out s1 record1 h
          exact ⟨hs.refID.trans p2, hs.refName.trans p3, hs.newSection.trans p4⟩
      refine ⟨key.1, key.2.1, key.2.2, fun fuel2 record2 => ?_⟩
      exact ReadRecord_loop ops fuel2 s1 header record2 (ho.1.trans t_open)
        (ho.2.2.trans t_hdr) key.2.2

/-- Resolution at a concrete input: the name `chr1` is stored unresolved by
`SetReadSection`, and the next `ReadRecord` runs its loop on a session whose
target is the index the header gives for `chr1`, over `100-200`, with the name
cleared. -/
theorem SetReadSectionByName_resolved_once_witness :
    (SetReadSectionByName (scriptedRegion [])
        (indexedSession (some (scriptedIndex (some []))) [recordAt 0 150])
        "chr1" 100 200 true).2.myRefName = "chr1" ∧
      (SetReadSectionByName (scriptedRegion [])
        (indexedSession (some (scriptedIndex (some []))) [recordAt 0 150])
        "chr1" 100 200 true).2.myRefID = REF_ID_ALL ∧
      ∃ u, u.myRefID = (taggedHeader "coordinate").getReferenceID "chr1" ∧ u.myRefName = "" ∧
        u.myNewSection = false ∧ u.myStartPos = 100 ∧ u.myEndPos = 200 ∧
        u.myOverlapSection = true ∧ u.myStatus = Status.SUCCESS ∧
        ∀ (fuel : Nat) (record : SamRecord),
          ReadRecord asciiOps fuel
              (SetReadSectionByName (scriptedRegion [])
                (indexedSession (some (scriptedIndex (some []))) [recordAt 0 150])
                "chr1" 100 200 true).2
              (taggedHeader "coordinate") record =
            readLoop asciiOps (taggedHeader "coordinate") fuel u record :=
  have h := (SetReadSectionByName_resolved_once (scriptedRegion []) asciiOps
    (indexedSession (some (scriptedIndex (some []))) [recordAt 0 150])
    (taggedHeader "coordinate") "chr1" 100 200 true (streamOf [recordAt 0 150])
    (scriptedIndex (some [])) rfl rfl rfl rfl rfl rfl).2 (by decide)
  ⟨h.1, h.2.1, (h.2.2.2.1 (by decide)).elim fun u hu =>
    ⟨u, hu.1, hu.2.1, hu.2.2.1, hu.2.2.2.1, hu.2.2.2.2.1, hu.2.2.2.2.2.1,
      (hu.2.2.2.2.2.2.1 [] rfl).1, hu.2.2.2.2.2.2.2.2⟩⟩

/-- C31 fails on the code: after `SetReadSection` by the name `chr1` and then
by `*`, with no read in between, the unmapped selector is stored but the name
`chr1` is still there, and the next `ReadRecord` resolves the region to
reference 0 and returns the record on reference 0 at 150; `*` did not select
the unmapped reads.  After `*` alone the same read stops at that record with
`NO_MORE_RECS`, the target being the unmapped selector. -/
theorem SetReadSectionByName_unmapped_reads_named_reference :
    (ReadRecord asciiOps 2
        (SetReadSectionByName (scriptedRegion [])
          (SetReadSectionByName (scriptedRegion [])
            (indexedSession (some (scriptedIndex (some []))) [recordAt 0 150])
            "chr1" 100 200 true).2
          "*" (-1) (-1) true).2
        (taggedHeader "coordinate") (recordAt 0 0)).map
        (fun r => (r.1, r.2.1.myRefID, r.2.2)) =
        some (Outcome.returned true, 0, recordAt 0 150) ∧
      (ReadRecord asciiOps 2
        (SetReadSectionByName (scriptedRegion [])
          (indexedSession (some (scriptedIndex (some []))) [recordAt 0 150])
          "*" (-1) (-1) true).2
        (taggedHeader "coordinate") (recordAt 0 0)).map
        (fun r => (r.1, r.2.1.myRefID, r.2.1.myStatus)) =
        some (Outcome.returned false, REF_ID_UNMAPPED, Status.NO_MORE_RECS) := by
  constructor <;> decide


/-! ## Regions on a CRAM session -/

theorem ReadRecord_cram (ops : StringOps) (fuel : Nat) (s : SamFile)
    (header : SamFileHeader) (record : SamRecord) (itf : GenericSamInterface)
    (hopen : s.myIsOpenForRead = true) (hhdr : s.myHasHeader = true)
    (hitf : s.myInterfacePtr = some itf) (hfmt : itf.format = HtsExactFormat.cram) :
    ReadRecord ops fuel s header record =
      readLoop ops header fuel { s with myStatus := Status.SUCCESS } record := by
  unfold ReadRecord
  by_cases hnew : s.myNewSection = true
  · simp only [hopen, hhdr, hnew, hitf, hfmt, Bool.true_eq_false, if_false, if_true, ne_eq,
      not_true_eq_false]
  · simp only [hopen, hhdr, hnew, Bool.true_eq_false, Bool.false_eq_true, if_false]

theorem readRecords_cram (ops : StringOps) (header : SamFileHeader) :
    ∀ (calls : List (Nat × SamRecord)) (s u : SamFile) (itf : GenericSamInterface),
      s.myIsOpenForRead = true → s.myHasHeader = true → s.myInterfacePtr = some itf →
      itf.format = HtsExactFormat.cram → readRecords ops header calls s = some u →
      SameSection s u ∧ SameOpen s u := by
  intro calls
  induction calls with
  | nil =>
    intro s u itf _ _ _ _ h
    simp only [readRecords, Option.some.injEq] at h
    rw [← h]
    exact ⟨SameSection_refl s, rfl, rfl, rfl⟩
  | cons c rest ih =>
    intro s u itf hopen hhdr hitf hfmt h
    obtain ⟨fuel, record⟩ := c
    simp only [readRecords] at h
    cases hr : ReadRecord ops fuel s header record with
    | none => simp [hr] at h
    | some r =>
      obtain ⟨out, s1, record1⟩ := r
      simp only [hr] at h
      have ho := ReadRecord_open ops fuel s header record out s1 record1 hr
      rw [ReadRecord_cram ops fuel s header record itf hopen hhdr hitf hfmt] at hr
      have hs1 := readLoop_section ops header fuel { s with myStatus := Status.SUCCESS }
        record out s1 record1 hr
      have hs : SameSection s s1 :=
        ⟨hs1.refID, hs1.startPos, hs1.endPos, hs1.overlap, hs1.refName, hs1.newSection,
          hs1.required, hs1.excluded, hs1.format⟩
      have hf := hs.format
      rw [hitf, Option.map_some'] at hf
      cases hi : s1.myInterfacePtr with
      | none => simp [hi] at hf
      | some itf1 =>
        rw [hi, Option.map_some', Option.some.injEq] at hf
        obtain ⟨a, b⟩ := ih s1 u itf1 (ho.1.trans hopen) (ho.2.2.trans hhdr) hi
          (hf.trans hfmt) h
        exact ⟨SameSection_trans hs a, SameOpen_trans ho b⟩


/-- C36: on a session open for read on a CRAM file with its header read,
`SetReadSection` by a reference name other than the empty name and `*` stores
the selector for all references with a region pending, and after any series of
`ReadRecord` calls the selector is still the one for all references, the
region is still pending and the name is still stored: every such call goes
straight to the read loop, and the containment check accepts every record and
leaves the session as it is, whatever start, end and containment mode the
call gave. -/
theorem SetReadSectionByName_cram (rx : RegionExternal) (ops : StringOps) (s : SamFile)
    (header : SamFileHeader) (refName : String) (start endPos : Int) (overlap : Bool)
    (itf : GenericSamInterface)
    (hopen : s.myIsOpenForRead = true) (hhdr : s.myHasHeader = true)
    (hitf : s.myInterfacePtr = some itf) (hfmt : itf.format = HtsExactFormat.cram)
    (hn : ¬ (refName = "" ∨ refName = "*")) :
    (SetReadSectionByName rx s refName start endPos overlap).2.myRefID = REF_ID_ALL ∧
      (SetReadSectionByName rx s refName start endPos overlap).2.myNewSection = true ∧
      ∀ (calls : List (Nat × SamRecord)) (u : SamFile),
        readRecords ops header calls
            (SetReadSectionByName rx s refName start endPos overlap).2 = some u →
        u.myRefID = REF_ID_ALL ∧ u.myNewSection = true ∧ u.myRefName = refName ∧
          u.myStartPos = start ∧ u.myEndPos = endPos ∧ u.myOverlapSection = overlap ∧
          (∀ r : SamRecord, checkRecordInSection u r = (true, u)) ∧
          ∀ (fuel : Nat) (record : SamRecord),
            ReadRecord ops fuel u header record =
              readLoop ops header fuel { u with myStatus := Status.SUCCESS } record := by
  have hT := SetReadSectionByName_state rx s refName start endPos overlap itf hopen hitf hn
  have t_fmt : (itf.setReadSectionByName rx refName (if start = -1 then 0 else start)
      (wrapInt32 (if endPos = -1 then 4294967295 else endPos % 4294967296))).2.format =
      HtsExactFormat.cram := by
    unfold GenericSamInterface.setReadSectionByName
    rw [setReadSection_format, hfmt]
  generalize (SetReadSectionByName rx s refName start endPos overlap).2 = T at hT ⊢
  have t_open : T.myIsOpenForRead = true := by rw [hT]; exact hopen
  have t_hdr : T.myHasHeader = true := by rw [hT]; exact hhdr
  have t_new : T.myNewSection = true := by rw [hT]
  have t_name : T.myRefName = refName := by rw [hT]
  have t_ref : T.myRefID = REF_ID_ALL := by rw [hT]
  have t_start : T.myStartPos = start := by rw [hT]
  have t_end : T.myEndPos = endPos := by rw [hT]
  have t_ov : T.myOverlapSection = overlap := by rw [hT]
  have t_itf : T.myInterfacePtr = some (itf.setReadSectionByName rx refName
      (if start = -1 then 0 else start)
      (wrapInt32 (if endPos = -1 then 4294967295 else endPos % 4294967296))).2 := by
    rw [hT]
  refine ⟨t_ref, t_new, fun calls u h => ?_⟩
  obtain ⟨a, b⟩ := readRecords_cram ops header calls T u _ t_open t_hdr t_itf t_fmt h
  have u_ref : u.myRefID = REF_ID_ALL := a.refID.trans t_ref
  refine ⟨u_ref, a.newSection.trans t_new, a.refName.trans t_name,
    a.startPos.trans t_start, a.endPos.trans t_end, a.overlap.trans t_ov,
    fun r => checkRecordInSection_allReferences u r u_ref, fun fuel record => ?_⟩
  have hex : ∃ itf1, u.myInterfacePtr = some itf1 ∧ itf1.format = HtsExactFormat.cram := by
    have hf := a.format
    rw [t_itf, Option.map_some'] at hf
    cases hi : u.myInterfacePtr with
    | none => simp [hi] at hf
    | some itf1 =>
      rw [hi, Option.map_some', Option.some.injEq] at hf
      exact ⟨itf1, rfl, hf.trans t_fmt⟩
  obtain ⟨itf1, hi, hc⟩ := hex
  exact ReadRecord_cram ops fuel u header record itf1 (b.1.trans t_open)
    (b.2.2.trans t_hdr) hi hc

/-- C36 at a concrete input: on a CRAM session the region `chr1:100-200`, fully
contained, is set by name; the next read returns the candidate on reference 5
at position 1000, and afterwards the selector is still the one for all
references and the region is still pending. -/
theorem SetReadSectionByName_cram_witness :
    ∃ u, readRecords asciiOps (taggedHeader "coordinate") [(1, recordAt 0 0)]
          (SetReadSectionByName (scriptedRegion []) (cramSession [recordAt 5 1000])
            "chr1" 100 200 false).2 = some u ∧
      u.myRefID = REF_ID_ALL ∧ u.myNewSection = true ∧ u.myRefName = "chr1" ∧
      u.myRecordCount = 1 :=
  ⟨{ (SetReadSectionByName (scriptedRegion []) (cramSession [recordAt 5 1000])
        "chr1" 100 200 false).2 with
      myInterfacePtr := some { streamOf [] with fp_format := HtsExactFormat.cram }
      myRecordCount := 1 },
    rfl,
    ((SetReadSectionByName_cram (scriptedRegion []) asciiOps (cramSession [recordAt 5 1000])
      (taggedHeader "coordinate") "chr1" 100 200 false
      { streamOf [recordAt 5 1000] with fp_format := HtsExactFormat.cram }
      rfl rfl rfl rfl (by decide)).2.2 [(1, recordAt 0 0)] _ rfl).1,
    rfl, rfl, rfl⟩

end StatGen
